import Mathlib

/-!
# Verification of the TLE codec of `python-sgp4`

Shallow embedding of `src/sgp4_vec/io.py` (the TLE parser `twoline2rv`, the
checksum unit `compute_checksum` / `verify_checksum` / `fix_checksum`, and the
formatter `rv2twoline`) together with the `Satellite` constructor of
`src/sgp4/model.py`.

Modelling conventions:

* Python `str` values are modelled as `List Char` (`PyStr`).  All slicing,
  stripping, padding and joining operations are transcribed one-to-one.
* Python `float` values are modelled as exact rationals (`ℚ`): decimal
  literals parse to their exact decimal value and arithmetic is exact.
  `math.pi` is modelled by `piFloat`, the exact rational value of the IEEE-754
  double `math.pi`; subsequent arithmetic on it is ideal (unrounded).  The
  claims settled here are about the decimal/column structure of the codec, for
  which this idealisation is faithful at the precisions involved.
* Python `int` is `ℤ`; `int(...)`/`float(...)` conversions that can raise
  `ValueError` are modelled as `Option`/`Except` values.
* `"%.pf"`-style formatting of a nonnegative value rounds half-to-even at `p`
  decimals, which is how CPython renders doubles.
* Exceptions raised by the code are modelled by the `TleError` sum type; the
  payload of `TleError.fmt` records exactly the data interpolated into the
  module-level `error_message` template (line number, official column
  template, offending text).
-/

/-- Python strings, modelled as lists of characters. -/
abbrev PyStr := List Char

/-- Characters of a Lean string literal, used to transcribe Python string
literals. -/
def pystr (s : String) : PyStr := s.data

/-- The whitespace characters stripped by Python's `str.rstrip()` /
`str.strip()` (ASCII subset). -/
def isPyWs (c : Char) : Bool :=
  c = ' ' || c = '\t' || c = '\n' || c = '\x0d' || c = '\x0b' || c = '\x0c'

/-- Python `s.rstrip()`. -/
def pyRstrip (s : PyStr) : PyStr := (s.reverse.dropWhile isPyWs).reverse

/-- Python `s.strip()` (used implicitly by `int(...)` and `float(...)`). -/
def pyStrip (s : PyStr) : PyStr :=
  ((s.dropWhile isPyWs).reverse.dropWhile isPyWs).reverse

/-- Python slicing `s[a:b]` for `0 ≤ a ≤ b` (out-of-range bounds clamp). -/
def pySl (s : PyStr) (a b : ℕ) : PyStr := (s.drop a).take (b - a)

/-- Python indexing `s[i]`; total with a junk default, only used at positions
guarded in-range by the code's length checks. -/
def pyGet (s : PyStr) (i : ℕ) : Char := s.getD i '\x00'

/-- Python `s.startswith(p)`. -/
def pyStarts (s p : PyStr) : Bool := s.take p.length = p

/-- Python `s.ljust(w)` (pad with spaces on the right). -/
def pyLjust (s : PyStr) (w : ℕ) : PyStr := s ++ List.replicate (w - s.length) ' '

/-- Left-pad with `'0'` to width `w` (no-op when already at least `w` long). -/
def padZeros (w : ℕ) (s : PyStr) : PyStr := List.replicate (w - s.length) '0' ++ s

/-- Left-pad with `' '` to width `w`: Python's `"{:>w…}"` alignment. -/
def padSp (w : ℕ) (s : PyStr) : PyStr := List.replicate (w - s.length) ' ' ++ s

/-! ## Decimal digits: rendering and reading -/

/-- Decimal digit characters of `n`, most significant first; the first
argument is fuel (any fuel `≥` the digit count works, and `n` itself always
suffices since `n < 10 ^ n`). -/
def natCharsAux : ℕ → ℕ → PyStr
  | 0, _ => []
  | fuel + 1, n =>
    if n = 0 then [] else natCharsAux fuel (n / 10) ++ [Char.ofNat (48 + n % 10)]

/-- Python `str(n)` for a natural number. -/
def natChars (n : ℕ) : PyStr := if n = 0 then ['0'] else natCharsAux n n

/-- Python `str(z)` for an integer. -/
def strOfInt (z : ℤ) : PyStr :=
  if z < 0 then '-' :: natChars (-z).toNat else natChars z.toNat

/-- Numeric value of a big-endian digit string (junk on non-digits). -/
def charsToNatAux : PyStr → ℕ → ℕ
  | [], acc => acc
  | c :: cs, acc => charsToNatAux cs (acc * 10 + (c.toNat - 48))

/-- Numeric value of a big-endian decimal digit string. -/
def charsToNat (s : PyStr) : ℕ := charsToNatAux s 0

/-! ## Python `int(...)` and `float(...)` -/

/-- Split an optional leading sign, returning the sign as `1` or `-1`. -/
def signSplit (s : PyStr) : ℤ × PyStr :=
  match s with
  | [] => (1, s)
  | c :: r => if c = '-' then (-1, r) else if c = '+' then (1, r) else (1, s)

/-- Python `int(s)`: optional surrounding whitespace, optional sign, one or
more decimal digits.  `none` models the `ValueError` raised otherwise. -/
def pyIntP (s : PyStr) : Option ℤ :=
  if (signSplit (pyStrip s)).2 ≠ [] ∧ (signSplit (pyStrip s)).2.all Char.isDigit then
    some ((signSplit (pyStrip s)).1 * (charsToNat (signSplit (pyStrip s)).2 : ℤ))
  else none

/-- The digits-and-point part of Python's `float(s)` grammar: `ip` are the
integer-part digits, `rest` what follows them (either nothing or a point and
fraction digits); anything else is a `ValueError`. -/
def pyFracP (sg : ℤ) (ip rest : PyStr) : Option ℚ :=
  match rest with
  | [] => if ip = [] then none else some ((sg : ℚ) * (charsToNat ip : ℚ))
  | '.' :: fp =>
    if fp.all Char.isDigit ∧ (ip ≠ [] ∨ fp ≠ []) then
      some ((sg : ℚ) *
        ((charsToNat ip : ℚ) + (charsToNat fp : ℚ) / (10 : ℚ) ^ fp.length))
    else none
  | _ => none

/-- Python `float(s)` restricted to the plain fixed-point forms that occur in
TLE fields: optional surrounding whitespace, optional sign, digits with an
optional decimal point, at least one digit overall.  (The exponent, `inf` and
`nan` forms accepted by Python never occur in the fixed TLE columns and are
not modelled.)  `none` models `ValueError`. -/
def pyFloatP (s : PyStr) : Option ℚ :=
  pyFracP (signSplit (pyStrip s)).1
    ((signSplit (pyStrip s)).2.takeWhile Char.isDigit)
    ((signSplit (pyStrip s)).2.drop
      ((signSplit (pyStrip s)).2.takeWhile Char.isDigit).length)

/-! ## The Checksum Unit (`src/sgp4_vec/io.py`, lines 221–252) -/

/-- `compute_checksum(line)` (io.py lines 250–252): over `line[0:68]`, sum
`int(c) if c.isdigit() else c == '-'` (a Python `bool` counts as `1`/`0`) and
reduce modulo 10. -/
def compute_checksum (line : PyStr) : ℕ :=
  (((line.take 68).map
      (fun c => if c.isDigit then c.toNat - 48 else if c = '-' then 1 else 0)).sum) % 10

/-- Errors raised by the codec (`ValueError` in Python, distinguished here by
what the code puts in the message). -/
inductive TleError where
  /-- `error_message.format(lineno, template, text)` — the TLE format error. -/
  | fmt (lineno : ℕ) (template : PyStr) (text : PyStr)
  /-- `'Object numbers in lines 1 and 2 do not match'`. -/
  | mismatch
  /-- `ValueError` escaping from an `int(...)`/`float(...)` conversion. -/
  | badValue
  /-- `ValueError` escaping from the `datetime(...)` constructor. -/
  | badDate
  /-- The checksum complaint of `verify_checksum` (given digit, computed
  value, offending line). -/
  | checksumErr (given computed : ℕ) (line : PyStr)
deriving DecidableEq

/-- `verify_checksum(*lines)` (io.py lines 221–237): for each line whose
`line[68:69]` is a digit, compare it with `compute_checksum(line)`; raise on
the first mismatch. -/
def verify_checksum : List PyStr → Except TleError Unit
  | [] => .ok ()
  | line :: rest =>
    match pySl line 68 69 with
    | [c] =>
      if c.isDigit then
        let given := c.toNat - 48
        let computed := compute_checksum line
        if given ≠ computed then .error (.checksumErr given computed line)
        else verify_checksum rest
      else verify_checksum rest
    | _ => verify_checksum rest

/-- `fix_checksum(line)` (io.py lines 240–247):
`line[:68].ljust(68) + str(compute_checksum(line))`. -/
def fix_checksum (line : PyStr) : PyStr :=
  pyLjust (line.take 68) 68 ++ natChars (compute_checksum line)

/-! ## Exact-rational model of the float operations used by the codec -/

/-- The exact rational value of the IEEE-754 double `math.pi`
(`7074237752028440 * 2 ^ (-51)`). -/
def piFloat : ℚ := 884279719003555 / 281474976710656

/-- `deg2rad = pi / 180.0` (io.py line 118, line 256). -/
def deg2rad : ℚ := piFloat / 180

/-- `xpdotp = 1440.0 / (2.0 * pi)` (io.py line 119, line 257). -/
def xpdotp : ℚ := 1440 / (2 * piFloat)

/-- `pow(10.0, k)` for an integer `k`. -/
def ratPow10 (k : ℤ) : ℚ :=
  if 0 ≤ k then (10 : ℚ) ^ k.toNat else 1 / (10 : ℚ) ^ (-k).toNat

/-- Round to the nearest integer, ties to even — the rounding CPython uses
when rendering a double with `"%.pf"`-style formatting. -/
def roundHalfEvenZ (x : ℚ) : ℤ :=
  let f := ⌊x⌋
  let r := x - f
  if r < 1 / 2 then f
  else if 1 / 2 < r then f + 1
  else if f % 2 = 0 then f else f + 1

/-- Python `"{:.pf}".format(q)`: sign, then the digits of the half-even
rounding of `|q| * 10 ^ p` zero-padded to at least `p + 1` digits, with the
decimal point inserted `p` digits from the right. -/
def formatFixed (q : ℚ) (p : ℕ) : PyStr :=
  let n := (roundHalfEvenZ (|q| * ratPow10 p)).toNat
  let ds := padZeros (p + 1) (natChars n)
  (if q < 0 then ['-'] else []) ++
    ds.take (ds.length - p) ++ '.' :: ds.drop (ds.length - p)

/-- `"{:>0w.pf}"`: fixed-point rendering left-padded with `'0'` to width `w`
(with `'>'` alignment Python puts the fill before the sign, as here). -/
def padZeroAlign (w : ℕ) (s : PyStr) : PyStr := List.replicate (w - s.length) '0' ++ s

/-- Python `s.split('.')[-1]`: everything after the last `'.'` (the whole
string when there is no `'.'`). -/
def afterLastDot (s : PyStr) : PyStr := (s.reverse.takeWhile (· ≠ '.')).reverse

/-- Number of decimal digits of `n ≥ 1` (junk `0` for `n = 0`). -/
def digitLen (n : ℕ) : ℕ := (natChars n).length

/-- `⌊log10 q⌋` for `q > 0`, computed from the digit counts of the reduced
numerator and denominator (junk for `q ≤ 0`). -/
def floorLog10 (q : ℚ) : ℤ :=
  let a : ℤ := digitLen q.num.toNat
  let b : ℤ := digitLen q.den
  if ratPow10 (a - b) ≤ q then a - b else a - b - 1

/-- Python `int(log10(q))` for `q > 0`: truncation toward zero of `log10 q`
(so `⌊log10 q⌋` for `q ≥ 1`, and `⌈log10 q⌉` for `0 < q < 1`).  Faithful to
the double computation away from misrounded powers of ten. -/
def intLog10 (q : ℚ) : ℤ :=
  let f := floorLog10 q
  if 1 ≤ q then f else if q = ratPow10 f then f else f + 1

/-! ## Calendar model (`datetime`, day-of-year arithmetic) -/

/-- Proleptic-Gregorian leap-year rule used by Python's `datetime`. -/
def isLeapYear (y : ℤ) : Bool := y % 4 = 0 && (y % 100 ≠ 0 || y % 400 = 0)

/-- Month lengths for a (non-)leap year. -/
def monthLengths (leap : Bool) : List ℕ :=
  [31, if leap then 29 else 28, 31, 30, 31, 30, 31, 31, 30, 31, 30, 31]

/-- Length of month `m` (1-based; junk `0` out of range). -/
def monthLen (leap : Bool) (m : ℤ) : ℤ := ((monthLengths leap).getD (m - 1).toNat 0 : ℕ)

/-- Python's naive `datetime` values (the fields the codec uses). -/
structure PyDateTime where
  year : ℤ
  month : ℤ
  day : ℤ
  hour : ℤ
  minute : ℤ
  second : ℤ
  usec : ℤ
deriving DecidableEq

/-- The `datetime(...)` constructor: `some` on in-range fields, `none` for
the `ValueError` Python raises otherwise. -/
def mkDatetime? (y mon d h mi s us : ℤ) : Option PyDateTime :=
  if 1 ≤ y ∧ y ≤ 9999 ∧ 1 ≤ mon ∧ mon ≤ 12 ∧ 1 ≤ d ∧ d ≤ monthLen (isLeapYear y) mon ∧
     0 ≤ h ∧ h < 24 ∧ 0 ≤ mi ∧ mi < 60 ∧ 0 ≤ s ∧ s < 60 ∧ 0 ≤ us ∧ us < 1000000
  then some ⟨y, mon, d, h, mi, s, us⟩ else none

/-- Split a day-of-year over a month-length table: month index (1-based) and
day within the month, as computed by scanning cumulative month lengths. -/
def doySplit : List ℕ → ℤ → ℤ × ℤ
  | [], n => (1, n)
  | ml :: rest, n =>
    if n ≤ (ml : ℤ) then (1, n)
    else
      let md := doySplit rest (n - ml)
      (md.1 + 1, md.2)

/-- Modelled from the spec: the external day-decomposition collaborator
`days2mdhms(year, fractional_day) → (month, day, hour, minute, second)`
(spec §6; `sgp4_vec/ext.py` is not part of the sources under review).  The
integer part of `days` is split into month and day over the year's month
table, and the fractional part into hour, minute and (fractional) second. -/
def days2mdhms (year : ℤ) (days : ℚ) : ℤ × ℤ × ℤ × ℤ × ℚ :=
  let dayofyr : ℤ := ⌊days⌋
  let md := doySplit (monthLengths (isLeapYear year)) dayofyr
  let temp := (days - dayofyr) * 24
  let hr := ⌊temp⌋
  let temp2 := (temp - hr) * 60
  let minute := ⌊temp2⌋
  let sec := (temp2 - minute) * 60
  (md.1, md.2, hr, minute, sec)

/-- `(epoch.date() - datetime.date(epoch.year, 1, 1)).days + 1`
(model.py line 79): the 1-based day-of-year of a date. -/
def dayOfYear (dt : PyDateTime) : ℤ :=
  (((monthLengths (isLeapYear dt.year)).take (dt.month - 1).toNat).sum : ℕ) + dt.day

/-! ## The Orbital Element Entity (`src/sgp4/model.py`) -/

/-- A gravitational-constant set; the codec and constructor use only the
`tumin` scale factor (spec §6). -/
structure GravConst where
  tumin : ℚ
deriving DecidableEq

/-- The canonical orbital-element record: the attributes `Satellite.__init__`
(model.py lines 46–102) stores that the codec reads or writes.  `jdsatepoch`
(computed by the external `jday` collaborator), the `error` status field and
the state written by the external `sgp4init` propagator initialiser are
outside the codec and not modelled; the derived geometry `a`/`alta`/`altp` is
exposed as the functions `Satellite.a` etc. below. -/
structure Satellite where
  whichconst : GravConst
  satnum : ℤ
  epoch : PyDateTime
  epochyr : ℤ
  epochdays : ℚ
  bstar : ℚ
  inclo : ℚ
  nodeo : ℚ
  ecco : ℚ
  argpo : ℚ
  mo : ℚ
  no_kozai : ℚ
  ndot : ℚ
  nddot : ℚ
  classification : PyStr
  intldesg : PyStr
  elnum : ℤ
  revnum : ℤ
deriving DecidableEq

/-- `Satellite.__init__` (model.py lines 46–102): stores the canonical
elements and recomputes `epochyr` and `epochdays` from the epoch timestamp
(`1e-6` is the exact rational `1/10^6` in this model). -/
def mkSatellite (whichconst : GravConst) (satnum : ℤ) (epoch : PyDateTime)
    (bstar inclo nodeo ecco argpo mo no_kozai ndot nddot : ℚ)
    (classification intldesg : PyStr) (elnum revnum : ℤ) : Satellite :=
  { whichconst := whichconst
    satnum := satnum
    epoch := epoch
    epochyr := epoch.year
    epochdays := (dayOfYear epoch : ℚ) +
      ((epoch.hour : ℚ) + (epoch.minute : ℚ) / 60 +
        ((epoch.second : ℚ) + (epoch.usec : ℚ) / 1000000) / 60 / 60) / 24
    bstar := bstar
    inclo := inclo
    nodeo := nodeo
    ecco := ecco
    argpo := argpo
    mo := mo
    no_kozai := no_kozai
    ndot := ndot
    nddot := nddot
    classification := classification
    intldesg := intldesg
    elnum := elnum
    revnum := revnum }

/-- Semi-major axis `a = pow(no_kozai * tumin, -2/3)` (model.py line 89),
as a real power. -/
noncomputable def Satellite.a (s : Satellite) : ℝ :=
  ((s.no_kozai * s.whichconst.tumin : ℚ) : ℝ) ^ (-(2 : ℝ) / 3)

/-- Apogee altitude `alta = a * (1 + ecco) - 1` (model.py line 90). -/
noncomputable def Satellite.alta (s : Satellite) : ℝ :=
  Satellite.a s * (1 + (s.ecco : ℝ)) - 1

/-- Perigee altitude `altp = a * (1 - ecco) - 1` (model.py line 91). -/
noncomputable def Satellite.altp (s : Satellite) : ℝ :=
  Satellite.a s * (1 - (s.ecco : ℝ)) - 1

/-! ## The TLE Line Parser (`twoline2rv`, io.py lines 101–218) -/

/-- The official line-1 column template (io.py line 15). -/
def LINE1 : PyStr :=
  pystr "1 NNNNNC NNNNNAAA NNNNN.NNNNNNNN +.NNNNNNNN +NNNNN-N +NNNNN-N N NNNNN"

/-- The official line-2 column template (io.py line 16). -/
def LINE2 : PyStr :=
  pystr "2 NNNNN NNN.NNNN NNN.NNNN NNNNNNN NNN.NNNN NNN.NNNN NN.NNNNNNNNNNNNNN"

/-- The fixed-column guard on (rstripped) line 1 (io.py lines 123–132):
length, leading `"1 "`, and the fixed space/period positions. -/
def line1Ok (line : PyStr) : Bool :=
  decide (64 ≤ line.length) && pyStarts line (pystr "1 ") &&
  pyGet line 8 = ' ' && pyGet line 23 = '.' && pyGet line 32 = ' ' &&
  pyGet line 34 = '.' && pyGet line 43 = ' ' && pyGet line 52 = ' ' &&
  pyGet line 61 = ' ' && pyGet line 63 = ' '

/-- The fixed-column guard on (rstripped) line 2 (io.py lines 151–162). -/
def line2Ok (line : PyStr) : Bool :=
  decide (69 ≤ line.length) && pyStarts line (pystr "2 ") &&
  pyGet line 7 = ' ' && pyGet line 11 = '.' && pyGet line 16 = ' ' &&
  pyGet line 20 = '.' && pyGet line 25 = ' ' && pyGet line 33 = ' ' &&
  pyGet line 37 = '.' && pyGet line 42 = ' ' && pyGet line 46 = '.' &&
  pyGet line 51 = ' '

/-- Raw fields extracted from line 1 (io.py lines 134–145). -/
structure RawLine1 where
  satnum : ℤ
  classification : PyStr
  intldesg : PyStr
  two_digit_year : ℤ
  epochdays : ℚ
  ndot : ℚ
  nddot : ℚ
  nexp : ℤ
  bstar : ℚ
  ibexp : ℤ
  elnum : ℤ

/-- Raw fields extracted from line 2 (io.py lines 164–174). -/
structure RawLine2 where
  satnum : ℤ
  inclo : ℚ
  nodeo : ℚ
  ecco : ℚ
  argpo : ℚ
  mo : ℚ
  no_kozai : ℚ
  revnum : ℤ

/-- `int(...)` as used inside the parser: a failure is the `ValueError` the
parser lets escape. -/
def pyIntE (s : PyStr) : Except TleError ℤ :=
  match pyIntP s with
  | some v => .ok v
  | none => .error .badValue

/-- `float(...)` as used inside the parser. -/
def pyFloatE (s : PyStr) : Except TleError ℚ :=
  match pyFloatP s with
  | some v => .ok v
  | none => .error .badValue

/-- The line-1 half of `twoline2rv` (io.py lines 121–147): rstrip, template
guard, field extraction in source order.  `line[7] or 'U'` falls back to
`'U'` only on an empty (falsy) slice. -/
def parseLine1 (longstr1 : PyStr) : Except TleError RawLine1 := do
  let line := pyRstrip longstr1
  if line1Ok line then
    let satnum ← pyIntE (pySl line 2 7)
    let cls := pySl line 7 8
    let classification := if cls = [] then pystr "U" else cls
    let intldesg := pySl line 9 17
    let two_digit_year ← pyIntE (pySl line 18 20)
    let epochdays ← pyFloatE (pySl line 20 32)
    let ndot ← pyFloatE (pySl line 33 43)
    let nddot ← pyFloatE (pySl line 44 45 ++ '.' :: pySl line 45 50)
    let nexp ← pyIntE (pySl line 50 52)
    let bstar ← pyFloatE (pySl line 53 54 ++ '.' :: pySl line 54 59)
    let ibexp ← pyIntE (pySl line 59 61)
    let elnum ← pyIntE (pySl line 64 68)
    pure ⟨satnum, classification, intldesg, two_digit_year, epochdays, ndot,
          nddot, nexp, bstar, ibexp, elnum⟩
  else throw (.fmt 1 LINE1 line)

/-- The line-2 half of `twoline2rv` (io.py lines 149–177), including the
satellite-number cross-check (lines 164–166) in source position and the
space-to-zero replacement inside the eccentricity field (line 170). -/
def parseLine2 (longstr2 : PyStr) (savedSatnum : ℤ) : Except TleError RawLine2 := do
  let line := pyRstrip longstr2
  if line2Ok line then
    let satnum ← pyIntE (pySl line 2 7)
    if savedSatnum ≠ satnum then
      throw .mismatch
    else
      let inclo ← pyFloatE (pySl line 8 16)
      let nodeo ← pyFloatE (pySl line 17 25)
      let ecco ← pyFloatE ('0' :: '.' ::
        (pySl line 26 33).map (fun c => if c = ' ' then '0' else c))
      let argpo ← pyFloatE (pySl line 34 42)
      let mo ← pyFloatE (pySl line 43 51)
      let no_kozai ← pyFloatE (pySl line 52 63)
      let revnum ← pyIntE (pySl line 63 68)
      pure ⟨satnum, inclo, nodeo, ecco, argpo, mo, no_kozai, revnum⟩
  else throw (.fmt 2 LINE2 line)

/-- The two-digit-year century rule of `twoline2rv` (io.py lines 204–207). -/
def resolveTwoDigitYear (y : ℤ) : ℤ := if y < 57 then y + 2000 else y + 1900

/-- `twoline2rv(longstr1, longstr2, whichconst)` (io.py lines 101–218): parse
both lines, convert to SGP4 units, resolve the epoch, and build the
`Satellite`.  (`afspc_mode` only reaches the external `sgp4init` collaborator
and is dropped; the `sgp4init` call itself is external to the codec.) -/
def twoline2rv (longstr1 longstr2 : PyStr) (whichconst : GravConst) :
    Except TleError Satellite := do
  let r1 ← parseLine1 longstr1
  let r2 ← parseLine2 longstr2 r1.satnum
  -- ---- find no, ndot, nddot ---- (io.py lines 179–186)
  let no_kozai := r2.no_kozai / xpdotp
  let nddot := r1.nddot * ratPow10 r1.nexp
  let bstar := r1.bstar * ratPow10 r1.ibexp
  let ndot := r1.ndot / (xpdotp * 1440)
  let nddot := nddot / (xpdotp * 1440 * 1440)
  -- ---- find standard orbital elements ---- (io.py lines 188–192)
  let inclo := r2.inclo * deg2rad
  let nodeo := r2.nodeo * deg2rad
  let argpo := r2.argpo * deg2rad
  let mo := r2.mo * deg2rad
  -- epoch resolution (io.py lines 204–212)
  let year := resolveTwoDigitYear r1.two_digit_year
  let mdhms := days2mdhms year r1.epochdays
  let sec := mdhms.2.2.2.2
  let sec_whole : ℤ := ⌊sec⌋
  let sec_fraction := sec - sec_whole
  match mkDatetime? year mdhms.1 mdhms.2.1 mdhms.2.2.1 mdhms.2.2.2.1 sec_whole
      ⌊sec_fraction * 1000000⌋ with
  | none => throw .badDate
  | some epoch =>
    pure (mkSatellite whichconst r2.satnum epoch bstar inclo nodeo r2.ecco
      argpo mo no_kozai ndot nddot r1.classification r1.intldesg r1.elnum
      r2.revnum)

/-! ## The TLE Formatter (`rv2twoline`, io.py lines 255–317) -/

/-- Python list-slice assignment `l[a:b] = s` (for `a ≤ b ≤ len l`): the
replacement may have any length, growing or shrinking the list.  A
single-cell assignment `l[i] = s` of a string cell behaves, after
`"".join(l)`, exactly like `l[i:i+1] = s`, which is how it is transcribed. -/
def setSl (l : PyStr) (a b : ℕ) (s : PyStr) : PyStr := l.take a ++ s ++ l.drop b

/-- Python `s[-2:]`: the last two characters (the whole string if shorter). -/
def lastTwo (s : PyStr) : PyStr := s.drop (s.length - 2)

/-- Python `"{:05d}".format(z)`: sign, then digits zero-padded to width 5. -/
def fmt05d (z : ℤ) : PyStr :=
  if z < 0 then '-' :: padZeros 4 (natChars (-z).toNat)
  else padZeros 5 (natChars z.toNat)

/-- The line-1 half of `rv2twoline(satrec)` (io.py lines 258–294),
transcribed splice by splice. -/
def rv2twolineL1 (satrec : Satellite) : PyStr :=
  let l0 : PyStr := List.replicate 69 ' '
  let l1 := setSl l0 0 1 (pystr "1")
  let l1 := setSl l1 2 7 (fmt05d satrec.satnum)
  let l1 := setSl l1 7 8 satrec.classification
  let l1 := setSl l1 9 15 satrec.intldesg
  let l1 := setSl l1 18 20 (lastTwo (strOfInt satrec.epochyr))
  let l1 := setSl l1 20 32 (padZeroAlign 12 (formatFixed satrec.epochdays 8))
  let ndot_min := satrec.ndot * (xpdotp * 1440)
  let l1 :=
    if ndot_min < 0 then
      setSl l1 33 43 ('-' :: '.' :: afterLastDot (formatFixed ndot_min 8))
    else
      setSl l1 33 43 (' ' :: '.' :: afterLastDot (formatFixed ndot_min 8))
  let l1 :=
    if satrec.nddot = 0 then setSl l1 45 52 (pystr "00000-0")
    else
      let nddot := satrec.nddot * (xpdotp * 1440 * 1440)
      let nddot_module := |nddot|
      let nexp := intLog10 nddot_module
      -- `pow(10.0, log10(m) - nexp)` is exactly `m / 10 ^ nexp`
      let ndot_fraction := nddot_module / ratPow10 nexp
      let l1 := setSl l1 44 45 (if nddot < 0 then pystr "-" else pystr " ")
      let l1 := setSl l1 45 50 ((formatFixed ndot_fraction 5).drop 2)
      setSl l1 50 52 (if nexp < 0 then strOfInt nexp else '+' :: strOfInt nexp)
  let l1 :=
    if satrec.bstar = 0 then setSl l1 54 61 (pystr "00000+0")
    else
      let bstar_module := |satrec.bstar|
      let ib0 := intLog10 bstar_module
      -- `if ibexp - log10(bstar_module) == 0` holds exactly when
      -- `bstar_module` is the power of ten `10 ^ ib0`
      let ibexp := if bstar_module = ratPow10 ib0 then ib0 + 1 else ib0
      let bstar_frac := bstar_module / ratPow10 ibexp
      let l1 := setSl l1 53 54 (if satrec.bstar < 0 then pystr "-" else pystr " ")
      let l1 := setSl l1 54 59 ((formatFixed bstar_frac 5).drop 2)
      setSl l1 59 61 (if ibexp = 0 then '-' :: strOfInt ibexp else strOfInt ibexp)
  let l1 := setSl l1 62 63 (pystr "0")
  let l1 := setSl l1 64 68 (padSp 4 (strOfInt satrec.elnum))
  setSl l1 68 69 (natChars (compute_checksum l1))

/-- The line-2 half of `rv2twoline(satrec)` (io.py lines 296–315). -/
def rv2twolineL2 (satrec : Satellite) : PyStr :=
  let l0 : PyStr := List.replicate 69 ' '
  let ideg := satrec.inclo / deg2rad
  let l2 := setSl l0 0 1 (pystr "2")
  let l2 := setSl l2 2 7 (fmt05d satrec.satnum)
  let l2 :=
    if intLog10 ideg = 2 then setSl l2 8 16 (padSp 8 (formatFixed ideg 4))
    else if intLog10 ideg = 1 then setSl l2 9 16 (padSp 7 (formatFixed ideg 4))
    else setSl l2 10 16 (padSp 6 (formatFixed ideg 4))
  let l2 := setSl l2 17 25 (padSp 8 (formatFixed (satrec.nodeo / deg2rad) 4))
  let l2 := setSl l2 26 33 ((padSp 8 (formatFixed satrec.ecco 7)).drop 2)
  let l2 := setSl l2 34 42 (padSp 8 (formatFixed (satrec.argpo / deg2rad) 4))
  let l2 := setSl l2 43 51 (padSp 8 (formatFixed (satrec.mo / deg2rad) 4))
  let l2 := setSl l2 52 63 (padSp 11 (formatFixed (satrec.no_kozai * xpdotp) 8))
  let l2 := setSl l2 63 68 (padSp 5 (strOfInt satrec.revnum))
  setSl l2 68 69 (natChars (compute_checksum l2))

/-- `rv2twoline(satrec)` (io.py lines 255–317): line 1 is built first, then
the inclination branch of line 2 evaluates `log10(satrec.inclo / deg2rad)`
(line 299), which raises a `math domain error` for nonpositive values — the
only failing operation reachable for entities with list-representable
fields; `none` models that exception. -/
def rv2twoline (satrec : Satellite) : Option (PyStr × PyStr) :=
  if satrec.inclo / deg2rad ≤ 0 then none
  else some (rv2twolineL1 satrec, rv2twolineL2 satrec)

/-! ## Concrete reference data used by counterexamples and witnesses -/

/-- A stand-in gravitational-constant set (the codec never reads `tumin`). -/
def gc1 : GravConst := ⟨1⟩

/-- Junk default used only to extract values from `Option`/`Except`. -/
def junkSat : Satellite :=
  mkSatellite ⟨0⟩ 0 ⟨1, 1, 1, 0, 0, 0, 0⟩ 0 0 0 0 0 0 0 0 0 [] [] 0 0

/-- Line 1 of the ISS reference TLE. -/
def issL1 : PyStr :=
  pystr "1 25544U 98067A   08264.51782528 -.00002182  00000-0 -11606-4 0  2927"

/-- Line 2 of the ISS reference TLE. -/
def issL2 : PyStr :=
  pystr "2 25544  51.6416 247.4627 0006703 130.5360 325.0288 15.72125391563537"

/-- The Entity parsed from the ISS reference TLE. -/
def sISS : Satellite := (twoline2rv issL1 issL2 gc1).toOption.getD junkSat

/-- `issL1` with its checksum digit corrupted from `7` to `9`. -/
def badChk1 : PyStr :=
  pystr "1 25544U 98067A   08264.51782528 -.00002182  00000-0 -11606-4 0  2929"

/-- The Entity built from the corrupted-checksum pair. -/
def sBadChk : Satellite := (twoline2rv badChk1 issL2 gc1).toOption.getD junkSat

/-- `issL2` with the eccentricity field (columns 27–33) blanked to spaces. -/
def eccL2 : PyStr :=
  pystr "2 25544  51.6416 247.4627         130.5360 325.0288 15.72125391563537"

/-- The Entity built from the blank-eccentricity pair. -/
def sECC : Satellite := (twoline2rv issL1 eccL2 gc1).toOption.getD junkSat

/-- The raw line-1 record of the ISS reference TLE. -/
def r1ISS : RawLine1 :=
  (parseLine1 issL1).toOption.getD ⟨0, [], [], 0, 0, 0, 0, 0, 0, 0, 0⟩

/-- `issL1` with the mandatory space at index 8 replaced by `'X'`. -/
def badT1 : PyStr :=
  pystr "1 25544UX98067A   08264.51782528 -.00002182  00000-0 -11606-4 0  2927"

/-- `issL2` with the mandatory space at index 7 replaced by `'X'`. -/
def badT2 : PyStr :=
  pystr "2 25544X 51.6416 247.4627 0006703 130.5360 325.0288 15.72125391563537"

/-- The character contribution of the checksum, as the specification words it:
a decimal-digit character contributes its digit value, `'-'` contributes 1,
every other character contributes 0. -/
def checksumSpecVal (c : Char) : ℕ :=
  if 48 ≤ c.toNat ∧ c.toNat ≤ 57 then c.toNat - 48 else if c = '-' then 1 else 0

/-- An Entity built by direct construction whose node value `10.00007°` is not
on the TLE's 4-decimal grid. -/
def sOff : Satellite :=
  mkSatellite gc1 25544 ⟨2008, 9, 20, 12, 0, 0, 0⟩ 0 (516416 / 10000 * deg2rad)
    (1000007 / 100000 * deg2rad) (6703 / 10000000) (1305360 / 10000 * deg2rad)
    (3250288 / 10000 * deg2rad) (1572125391 / 100000000 / xpdotp) 0 0
    (pystr "U") (pystr "98067A") 292 56353

/-- The two lines the formatter produces for `sOff`. -/
def offPair : PyStr × PyStr := (rv2twoline sOff).getD ([], [])

/-- The Entity re-parsed from `offPair`. -/
def sOffBack : Satellite := (twoline2rv offPair.1 offPair.2 gc1).toOption.getD junkSat


/-- The padded digit block of `"{:.pf}".format(n / 10^p)`. -/
def ffDigits (n p : ℕ) : PyStr := padZeros (p + 1) (natChars n)

/-- Integer-part characters of the fixed-point rendering of `n / 10^p`. -/
def ffInt (n p : ℕ) : PyStr := (ffDigits n p).take ((ffDigits n p).length - p)

/-- Fraction characters of the fixed-point rendering of `n / 10^p`. -/
def ffFrac (n p : ℕ) : PyStr := (ffDigits n p).drop ((ffDigits n p).length - p)


/-! ## Canonical rendering and the TLE grid -/

/-- The characters the formatter puts in columns 34–43 of line 1 (the first
mean-motion derivative): sign, point, eight fraction digits. -/
def ndotField (s : Satellite) : PyStr :=
  if s.ndot * (xpdotp * 1440) < 0 then
    '-' :: '.' :: afterLastDot (formatFixed (s.ndot * (xpdotp * 1440)) 8)
  else ' ' :: '.' :: afterLastDot (formatFixed (s.ndot * (xpdotp * 1440)) 8)

/-- The exponent the formatter uses for a nonzero drag term: `int(log10 m)`
bumped by one when `m` is an exact power of ten. -/
def bstarExp (s : Satellite) : ℤ :=
  if |s.bstar| = ratPow10 (intLog10 |s.bstar|) then intLog10 |s.bstar| + 1
  else intLog10 |s.bstar|

/-- The characters the formatter puts in columns 54–61 of line 1 (the drag
term): sign, five mantissa digits, signed exponent. -/
def bstarField (s : Satellite) : PyStr :=
  if s.bstar = 0 then ' ' :: pystr "00000+0"
  else
    (if s.bstar < 0 then '-' else ' ') ::
      ((formatFixed (|s.bstar| / ratPow10 (bstarExp s)) 5).drop 2 ++
        (if bstarExp s = 0 then '-' :: strOfInt (bstarExp s) else strOfInt (bstarExp s)))

/-- Columns 1–68 of the canonical line 1 (checksum appended separately);
only meaningful for entities in `TleGrid` form, whose second derivative is
zero. -/
def canonLine1 (s : Satellite) : PyStr :=
  pystr "1 " ++ fmt05d s.satnum ++ s.classification ++ pystr " " ++ s.intldesg ++
  pystr "   " ++ lastTwo (strOfInt s.epochyr) ++
  padZeroAlign 12 (formatFixed s.epochdays 8) ++ pystr " " ++ ndotField s ++
  pystr " " ++ (' ' :: pystr "00000-0") ++ pystr " " ++ bstarField s ++
  pystr " 0 " ++ padSp 4 (strOfInt s.elnum)

/-- Columns 1–68 of the canonical line 2 (checksum appended separately). -/
def canonLine2 (s : Satellite) : PyStr :=
  pystr "2 " ++ fmt05d s.satnum ++ pystr " " ++
  padSp 8 (formatFixed (s.inclo / deg2rad) 4) ++ pystr " " ++
  padSp 8 (formatFixed (s.nodeo / deg2rad) 4) ++ pystr " " ++
  (padSp 8 (formatFixed s.ecco 7)).drop 2 ++ pystr " " ++
  padSp 8 (formatFixed (s.argpo / deg2rad) 4) ++ pystr " " ++
  padSp 8 (formatFixed (s.mo / deg2rad) 4) ++ pystr " " ++
  padSp 11 (formatFixed (s.no_kozai * xpdotp) 8) ++ padSp 5 (strOfInt s.revnum)

/-- Entities whose canonical elements are exactly representable in the TLE
columns: field values on the decimal grid of their column widths, nominal
ranges, a one-character classification, a six-character designator, second
derivative zero, drag term zero or a five-digit-mantissa value, and an epoch
whose `epochyr`/`epochdays` are the constructor-derived values with the
day fraction on the `10^-8`-day grid. -/
structure TleGrid (s : Satellite) : Prop where
  satnum_lb : 0 ≤ s.satnum
  satnum_ub : s.satnum < 100000
  cls_len : s.classification.length = 1
  intl_len : s.intldesg.length = 6
  elnum_lb : 0 ≤ s.elnum
  elnum_ub : s.elnum < 10000
  revnum_lb : 0 ≤ s.revnum
  revnum_ub : s.revnum < 100000
  year_lb : 1957 ≤ s.epochyr
  year_ub : s.epochyr ≤ 2056
  year_eq : s.epochyr = s.epoch.year
  mon_lb : 1 ≤ s.epoch.month
  mon_ub : s.epoch.month ≤ 12
  day_lb : 1 ≤ s.epoch.day
  day_ub : s.epoch.day ≤ monthLen (isLeapYear s.epoch.year) s.epoch.month
  hour_lb : 0 ≤ s.epoch.hour
  hour_ub : s.epoch.hour < 24
  min_lb : 0 ≤ s.epoch.minute
  min_ub : s.epoch.minute < 60
  sec_lb : 0 ≤ s.epoch.second
  sec_ub : s.epoch.second < 60
  usec_lb : 0 ≤ s.epoch.usec
  usec_ub : s.epoch.usec < 1000000
  usec_grid : 864 ∣ (s.epoch.hour * 3600 + s.epoch.minute * 60 + s.epoch.second) * 1000000 +
    s.epoch.usec
  epochdays_eq : s.epochdays = (dayOfYear s.epoch : ℚ) +
    ((s.epoch.hour : ℚ) + (s.epoch.minute : ℚ) / 60 +
      ((s.epoch.second : ℚ) + (s.epoch.usec : ℚ) / 1000000) / 60 / 60) / 24
  incl_grid : ∃ n : ℕ, 0 < n ∧ n < 10 ^ 7 ∧ s.inclo = (n : ℚ) / 10 ^ 4 * deg2rad
  node_grid : ∃ n : ℕ, n < 10 ^ 7 ∧ s.nodeo = (n : ℚ) / 10 ^ 4 * deg2rad
  argp_grid : ∃ n : ℕ, n < 10 ^ 7 ∧ s.argpo = (n : ℚ) / 10 ^ 4 * deg2rad
  mo_grid : ∃ n : ℕ, n < 10 ^ 7 ∧ s.mo = (n : ℚ) / 10 ^ 4 * deg2rad
  ecc_grid : ∃ n : ℕ, n < 10 ^ 7 ∧ s.ecco = (n : ℚ) / 10 ^ 7
  nkoz_grid : ∃ n : ℕ, n < 10 ^ 10 ∧ s.no_kozai = (n : ℚ) / 10 ^ 8 / xpdotp
  ndot_grid : ∃ z : ℤ, -(10 : ℤ) ^ 8 < z ∧ z < 10 ^ 8 ∧
    s.ndot = (z : ℚ) / 10 ^ 8 / (xpdotp * 1440)
  nddot_zero : s.nddot = 0
  bstar_grid : s.bstar = 0 ∨ ∃ (m : ℕ) (ib : ℤ), 10 ^ 4 ≤ m ∧ m < 10 ^ 5 ∧
    -9 ≤ ib ∧ ib ≤ 0 ∧
    (s.bstar = (m : ℚ) / 10 ^ 5 * ratPow10 ib ∨ s.bstar = -((m : ℚ) / 10 ^ 5 * ratPow10 ib))

/-- A concrete Entity on the TLE grid (ISS-like elements, noon epoch). -/
def sGrid : Satellite :=
  mkSatellite gc1 25544 ⟨2008, 9, 20, 12, 0, 0, 0⟩
    (-((11606 : ℚ) / 10 ^ 5 * ratPow10 (-4))) ((516416 : ℚ) / 10 ^ 4 * deg2rad)
    ((2474627 : ℚ) / 10 ^ 4 * deg2rad) ((6703 : ℚ) / 10 ^ 7)
    ((1305360 : ℚ) / 10 ^ 4 * deg2rad) ((3250288 : ℚ) / 10 ^ 4 * deg2rad)
    ((1572125391 : ℚ) / 10 ^ 8 / xpdotp) (-(2182 : ℚ) / 10 ^ 8 / (xpdotp * 1440)) 0
    (pystr "U") (pystr "98067A") 292 56353

/-! # Theorems -/

/-- Bridge between `Char.isDigit` and its arithmetic description. -/
theorem isDigit_iff (c : Char) : c.isDigit = true ↔ 48 ≤ c.toNat ∧ c.toNat ≤ 57 := by
  simp [Char.isDigit, Char.toNat, UInt32.le_def, BitVec.le_def, UInt32.toNat]

/-- Pointwise agreement of the code's checksum contribution with the spec's. -/
theorem contrib_eq (c : Char) :
    (if c.isDigit then c.toNat - 48 else if c = '-' then 1 else 0) = checksumSpecVal c := by
  unfold checksumSpecVal
  by_cases hd : c.isDigit
  · rw [if_pos hd, if_pos ((isDigit_iff c).mp hd)]
  · rw [if_neg hd, if_neg (fun h => hd ((isDigit_iff c).mpr h))]

/-- **C5.** `compute_checksum(line)` equals the sum, over the first 68
characters, of the digit value of each decimal-digit character, plus 1 per
`'-'`, plus 0 for every other character, taken modulo 10. -/
theorem claim_C5 (line : PyStr) :
    compute_checksum line = (((line.take 68).map checksumSpecVal).sum) % 10 := by
  unfold compute_checksum
  rw [List.map_congr_left (fun c _ => contrib_eq c)]

/-- The checksum contribution of a space character is zero. -/
theorem contrib_space :
    (fun c => if c.isDigit then c.toNat - 48 else if c = '-' then 1 else 0) ' ' = 0 := rfl

/-- `pyLjust` pads a short string to exactly the requested width. -/
theorem pyLjust_length (s : PyStr) (w : ℕ) (h : s.length ≤ w) :
    (pyLjust s w).length = w := by
  simp [pyLjust]; omega

/-- Right-padding with spaces does not change the checksum tally of a
68-character prefix, and the appended digit is ignored. -/
theorem compute_checksum_fix (line : PyStr) (rest : PyStr) :
    compute_checksum (pyLjust (line.take 68) 68 ++ rest) = compute_checksum line := by
  have hlen : (pyLjust (line.take 68) 68).length = 68 := by
    apply pyLjust_length
    simp [List.length_take]
  unfold compute_checksum
  rw [List.take_append_of_le_length (by omega), List.take_of_length_le (by omega)]
  unfold pyLjust
  simp [List.map_append, List.sum_append, List.map_replicate, List.sum_replicate]

/-- `str` of a single digit value. -/
theorem natChars_digit (v : ℕ) (h : v < 10) : natChars v = [Char.ofNat (48 + v)] := by
  interval_cases v <;> decide

/-- Digit characters are digits with the expected value. -/
theorem ofNat_digit_spec (v : ℕ) (h : v < 10) :
    (Char.ofNat (48 + v)).isDigit = true ∧ (Char.ofNat (48 + v)).toNat - 48 = v := by
  interval_cases v <;> exact ⟨by decide, by decide⟩

/-- **C6.** `fix_checksum(line)` is the line truncated or space-padded on the
right to exactly 68 characters with the computed checksum digit appended, and
`verify_checksum` on the result never raises. -/
theorem claim_C6 (line : PyStr) :
    fix_checksum line =
      pyLjust (line.take 68) 68 ++ [Char.ofNat (48 + compute_checksum line)] ∧
    (pyLjust (line.take 68) 68).length = 68 ∧
    verify_checksum [fix_checksum line] = .ok () := by
  have hlt : compute_checksum line < 10 := Nat.mod_lt _ (by norm_num)
  have hpad : (pyLjust (line.take 68) 68).length = 68 :=
    pyLjust_length _ _ (by simp [List.length_take])
  have hform : fix_checksum line =
      pyLjust (line.take 68) 68 ++ [Char.ofNat (48 + compute_checksum line)] := by
    unfold fix_checksum
    rw [natChars_digit _ hlt]
  refine ⟨hform, hpad, ?_⟩
  rw [hform]
  unfold verify_checksum
  have hsl : pySl (pyLjust (line.take 68) 68 ++ [Char.ofNat (48 + compute_checksum line)]) 68 69 =
      [Char.ofNat (48 + compute_checksum line)] := by
    unfold pySl
    rw [List.drop_append_of_le_length (by omega), List.drop_of_length_le (by omega)]
    simp
  rw [hsl]
  dsimp only
  rw [(ofNat_digit_spec _ hlt).1]
  simp only [if_true]
  rw [(ofNat_digit_spec _ hlt).2, compute_checksum_fix]
  simp [verify_checksum]

/-- **C7.** The two-digit epoch year resolves to `+2000` for values 0–56 and
to `+1900` for values 57–99. -/
theorem claim_C7 (y : ℤ) (h0 : 0 ≤ y) (h99 : y ≤ 99) :
    resolveTwoDigitYear y = if y ≤ 56 then y + 2000 else y + 1900 := by
  unfold resolveTwoDigitYear
  rcases le_or_lt y 56 with h | h
  · rw [if_pos (by omega), if_pos h]
  · rw [if_neg (by omega), if_neg (by omega)]

/-- Witness for C7 at the boundary input 57. -/
theorem claim_C7_witness :
    0 ≤ (57 : ℤ) ∧ (57 : ℤ) ≤ 99 ∧
      resolveTwoDigitYear 57 = if (57 : ℤ) ≤ 56 then 57 + 2000 else 57 + 1900 :=
  ⟨by decide, by decide, claim_C7 57 (by decide) (by decide)⟩

/-- **C9.** The derived geometry of a directly constructed Entity satisfies
`a = (no_kozai * tumin) ^ (-2/3)`, `alta = a * (1 + e) - 1`, and
`altp = a * (1 - e) - 1`. -/
theorem claim_C9 (wc : GravConst) (satnum : ℤ) (epoch : PyDateTime)
    (bstar inclo nodeo ecco argpo mo no_kozai ndot nddot : ℚ)
    (cls intl : PyStr) (elnum revnum : ℤ) :
    Satellite.a (mkSatellite wc satnum epoch bstar inclo nodeo ecco argpo mo
        no_kozai ndot nddot cls intl elnum revnum) =
      ((no_kozai * wc.tumin : ℚ) : ℝ) ^ (-(2 : ℝ) / 3) ∧
    Satellite.alta (mkSatellite wc satnum epoch bstar inclo nodeo ecco argpo mo
        no_kozai ndot nddot cls intl elnum revnum) =
      Satellite.a (mkSatellite wc satnum epoch bstar inclo nodeo ecco argpo mo
        no_kozai ndot nddot cls intl elnum revnum) * (1 + (ecco : ℝ)) - 1 ∧
    Satellite.altp (mkSatellite wc satnum epoch bstar inclo nodeo ecco argpo mo
        no_kozai ndot nddot cls intl elnum revnum) =
      Satellite.a (mkSatellite wc satnum epoch bstar inclo nodeo ecco argpo mo
        no_kozai ndot nddot cls intl elnum revnum) * (1 - (ecco : ℝ)) - 1 :=
  ⟨rfl, rfl, rfl⟩

/-- `do`-notation on `Except`: an error short-circuits. -/
theorem except_bind_error {e : TleError} {a : Type} {b : Type} (f : a → Except TleError b) :
    ((Except.error e : Except TleError a) >>= f) = Except.error e := rfl

/-- `do`-notation on `Except`: a success feeds the continuation. -/
theorem except_bind_ok {a : Type} {b : Type} (x : a) (f : a → Except TleError b) :
    ((Except.ok x : Except TleError a) >>= f) = f x := rfl

/-- `throw` on `Except` is `Except.error`. -/
theorem except_throw_eq {a : Type} (e : TleError) :
    (throw e : Except TleError a) = Except.error e := rfl

/-- **C8.** A line violating the fixed column template makes `twoline2rv`
fail with the format error carrying the line number, the official template,
and the offending (rstripped) text: part one for line 1, part two for line 2
(reached once line 1 has parsed).  The `Except.error` result is the absence
of any partial parse. -/
theorem claim_C8 :
    (∀ l1 l2 wc, line1Ok (pyRstrip l1) = false →
        twoline2rv l1 l2 wc = .error (.fmt 1 LINE1 (pyRstrip l1))) ∧
    (∀ l1 l2 wc r1, parseLine1 l1 = .ok r1 → line2Ok (pyRstrip l2) = false →
        twoline2rv l1 l2 wc = .error (.fmt 2 LINE2 (pyRstrip l2))) := by
  constructor
  · intro l1 l2 wc h
    have hp : parseLine1 l1 = .error (.fmt 1 LINE1 (pyRstrip l1)) := by
      simp [parseLine1, h, except_throw_eq]
    simp [twoline2rv, hp, except_bind_error]
  · intro l1 l2 wc r1 h1 h2
    have hp : parseLine2 l2 r1.satnum = .error (.fmt 2 LINE2 (pyRstrip l2)) := by
      simp [parseLine2, h2, except_throw_eq]
    simp [twoline2rv, h1, hp, except_bind_ok, except_bind_error]

/-- Witness for C8: a corrupted space at index 8 of line 1, and at index 7 of
line 2, each produce the format error for their line. -/
theorem claim_C8_witness :
    (line1Ok (pyRstrip badT1) = false ∧
      twoline2rv badT1 issL2 gc1 = .error (.fmt 1 LINE1 (pyRstrip badT1))) ∧
    (parseLine1 issL1 = .ok r1ISS ∧ line2Ok (pyRstrip badT2) = false ∧
      twoline2rv issL1 badT2 gc1 = .error (.fmt 2 LINE2 (pyRstrip badT2))) := by
  have ha : line1Ok (pyRstrip badT1) = false := by decide
  have hb : parseLine1 issL1 = .ok r1ISS := by with_unfolding_all rfl
  have hc : line2Ok (pyRstrip badT2) = false := by decide
  exact ⟨⟨ha, claim_C8.1 badT1 issL2 gc1 ha⟩,
         ⟨hb, hc, claim_C8.2 issL1 badT2 gc1 r1ISS hb hc⟩⟩

/-- A one-character slice at an in-range position. -/
theorem pySl_singleton (l : PyStr) (h : 68 < l.length) :
    pySl l 68 69 = [pyGet l 68] := by
  unfold pySl pyGet
  rw [List.drop_eq_getElem_cons h, show 69 - 68 = 1 from rfl, List.take_succ_cons,
    List.take_zero, List.getD_eq_getElem?_getD, List.getElem?_eq_getElem h]
  rfl

/-- **C3 (amended).** `twoline2rv` performs no checksum verification: the
corrupted-checksum pair still builds an Entity.  Rejection of a stored
checksum digit that disagrees with the computed value is performed only by
`verify_checksum`, which raises exactly the checksum complaint. -/
theorem claim_C3_theorem :
    (∀ line rest, 69 ≤ line.length → (pyGet line 68).isDigit = true →
        (pyGet line 68).toNat - 48 ≠ compute_checksum line →
        verify_checksum (line :: rest) =
          .error (.checksumErr ((pyGet line 68).toNat - 48) (compute_checksum line) line)) ∧
    twoline2rv badChk1 issL2 gc1 = .ok sBadChk := by
  constructor
  · intro line rest hlen hdig hne
    unfold verify_checksum
    rw [pySl_singleton line (by omega)]
    dsimp only
    rw [hdig]
    simp only [if_true]
    rw [if_pos hne]
  · with_unfolding_all rfl

/-- Witness for C3: the corrupted ISS line 1 is rejected by
`verify_checksum` with the checksum complaint. -/
theorem claim_C3_witness :
    verify_checksum [badChk1] =
      .error (.checksumErr ((pyGet badChk1 68).toNat - 48) (compute_checksum badChk1) badChk1) :=
  claim_C3_theorem.1 badChk1 [] (by decide) (by decide) (by decide)

/-- **C3 (counterexample).** A pair whose line-1 checksum digit (`'9'`) differs
from the computed checksum (7) is not rejected: `twoline2rv` still builds the
Entity. -/
theorem claim_C3_counterexample :
    (pyGet badChk1 68).isDigit = true ∧
    (pyGet badChk1 68).toNat - 48 ≠ compute_checksum badChk1 ∧
    twoline2rv badChk1 issL2 gc1 = .ok sBadChk :=
  ⟨by decide, by decide, by with_unfolding_all rfl⟩

/-- **C1 (counterexample).** Formatting the Entity parsed from the ISS
reference TLE does not reproduce the original lines: the formatter splices
the 8-character designator field `line[9:17]` into the 6-slot `[9:15]`, so
line 1 comes back with two extra trailing spaces. -/
theorem claim_C1_counterexample :
    twoline2rv issL1 issL2 gc1 = .ok sISS ∧
    rv2twoline sISS = some (issL1 ++ pystr "  ", issL2) ∧
    issL1 ++ pystr "  " ≠ issL1 :=
  ⟨by with_unfolding_all rfl, by with_unfolding_all rfl, by decide⟩

/-- **C1 (amended).** At the ISS reference pair the round-trip reproduces
line 2 exactly, checksum included, and reproduces line 1 only up to two
appended trailing spaces (71 characters instead of 69). -/
theorem claim_C1_theorem :
    twoline2rv issL1 issL2 gc1 = .ok sISS ∧
    rv2twoline sISS = some (issL1 ++ pystr "  ", issL2) ∧
    (issL1 ++ pystr "  ").take 69 = issL1 ∧
    (issL1 ++ pystr "  ").length = 71 ∧ issL1.length = 69 ∧ issL2.length = 69 :=
  ⟨by with_unfolding_all rfl, by with_unfolding_all rfl, by decide, by decide,
   by decide, by decide⟩

/-- **C4 (counterexample).** The formatter does not always return
69-character strings: on the Entity parsed from the ISS reference TLE,
line 1 has 71 characters. -/
theorem claim_C4_counterexample :
    (rv2twoline sISS).map (fun p => (p.1.length, p.2.length)) = some (71, 69) ∧
    (71 : ℕ) ≠ 69 :=
  ⟨by with_unfolding_all rfl, by decide⟩

/-- Inversion of a successful `parseLine2`: the eccentricity value is the
decimal reading of `'0.' ++ line[26:33].replace(' ', '0')`. -/
theorem parseLine2_ecco (l : PyStr) (sat : ℤ) (r2 : RawLine2)
    (h : parseLine2 l sat = .ok r2) :
    pyFloatP ('0' :: '.' ::
        (pySl (pyRstrip l) 26 33).map (fun c => if c = ' ' then '0' else c)) =
      some r2.ecco := by
  unfold parseLine2 at h
  by_cases hok : line2Ok (pyRstrip l) = true
  · rw [if_pos hok] at h
    rcases h1 : pyIntE (pySl (pyRstrip l) 2 7) with e | v <;> rw [h1] at h
    · rw [except_bind_error] at h; exact absurd h (by simp)
    rw [except_bind_ok] at h
    by_cases hm : sat ≠ v
    · rw [if_pos hm, except_throw_eq] at h; exact absurd h (by simp)
    rw [if_neg hm] at h
    rcases h2 : pyFloatE (pySl (pyRstrip l) 8 16) with e | vi <;> rw [h2] at h
    · rw [except_bind_error] at h; exact absurd h (by simp)
    rw [except_bind_ok] at h
    rcases h3 : pyFloatE (pySl (pyRstrip l) 17 25) with e | vn <;> rw [h3] at h
    · rw [except_bind_error] at h; exact absurd h (by simp)
    rw [except_bind_ok] at h
    rcases h4 : pyFloatE ('0' :: '.' ::
        (pySl (pyRstrip l) 26 33).map (fun c => if c = ' ' then '0' else c)) with e | ve <;>
      rw [h4] at h
    · rw [except_bind_error] at h; exact absurd h (by simp)
    rw [except_bind_ok] at h
    rcases h5 : pyFloatE (pySl (pyRstrip l) 34 42) with e | va <;> rw [h5] at h
    · rw [except_bind_error] at h; exact absurd h (by simp)
    rw [except_bind_ok] at h
    rcases h6 : pyFloatE (pySl (pyRstrip l) 43 51) with e | vm <;> rw [h6] at h
    · rw [except_bind_error] at h; exact absurd h (by simp)
    rw [except_bind_ok] at h
    rcases h7 : pyFloatE (pySl (pyRstrip l) 52 63) with e | vk <;> rw [h7] at h
    · rw [except_bind_error] at h; exact absurd h (by simp)
    rw [except_bind_ok] at h
    rcases h8 : pyIntE (pySl (pyRstrip l) 63 68) with e | vr <;> rw [h8] at h
    · rw [except_bind_error] at h; exact absurd h (by simp)
    rw [except_bind_ok] at h
    have hr : r2 = ⟨v, vi, vn, ve, va, vm, vk, vr⟩ := by
      cases h; rfl
    subst hr
    unfold pyFloatE at h4
    rcases h9 : pyFloatP ('0' :: '.' ::
        (pySl (pyRstrip l) 26 33).map (fun c => if c = ' ' then '0' else c)) with _ | q <;>
      rw [h9] at h4
    · exact absurd h4 (by simp)
    · cases h4; rfl
  · rw [if_neg hok, except_throw_eq] at h
    exact absurd h (by simp)

/-- Inversion of a successful `twoline2rv` down to its two raw records. -/
theorem twoline2rv_ok_inv (l1 l2 : PyStr) (wc : GravConst) (s : Satellite)
    (h : twoline2rv l1 l2 wc = .ok s) :
    ∃ r1 r2, parseLine1 l1 = .ok r1 ∧ parseLine2 l2 (RawLine1.satnum r1) = .ok r2 ∧
      s.ecco = r2.ecco := by
  unfold twoline2rv at h
  rcases h1 : parseLine1 l1 with e | r1 <;> rw [h1] at h
  · rw [except_bind_error] at h; exact absurd h (by simp)
  rw [except_bind_ok] at h
  rcases h2 : parseLine2 l2 r1.satnum with e | r2 <;> rw [h2] at h
  · rw [except_bind_error] at h; exact absurd h (by simp)
  rw [except_bind_ok] at h
  refine ⟨r1, r2, rfl, h2, ?_⟩
  dsimp only at h
  split at h
  · rw [except_throw_eq] at h; exact absurd h (by simp)
  · have hs : _ = s := congrArg (fun x => match x with | Except.ok v => v | Except.error _ => junkSat) h
    rw [← hs]
    rfl

/-- Replacing spaces by `'0'` in an all-space string gives all zeros. -/
theorem map_space_zero (l : PyStr) (h : l.all (· = ' ') = true) :
    l.map (fun c => if c = ' ' then '0' else c) = List.replicate l.length '0' := by
  induction l with
  | nil => rfl
  | cons c t ih =>
    simp only [List.all_cons, Bool.and_eq_true, decide_eq_true_eq] at h
    simp [h.1, ih h.2, List.replicate_succ]

/-- `dropWhile` does nothing on a list of non-whitespace characters. -/
theorem dropWhile_no_ws (l : PyStr) (h : ∀ c ∈ l, isPyWs c = false) :
    l.dropWhile isPyWs = l := by
  cases l with
  | nil => rfl
  | cons a t => simp [List.dropWhile_cons, h a (by simp)]

/-- `pyStrip` does nothing on a string of non-whitespace characters. -/
theorem pyStrip_no_ws (l : PyStr) (h : ∀ c ∈ l, isPyWs c = false) :
    pyStrip l = l := by
  unfold pyStrip
  rw [dropWhile_no_ws l h, dropWhile_no_ws _ (fun c hc => h c (List.mem_reverse.mp hc)),
    List.reverse_reverse]

/-- `dropWhile` consumes a run of leading spaces. -/
theorem dropWhile_spaces (k : ℕ) (l : PyStr) :
    (List.replicate k ' ' ++ l).dropWhile isPyWs = l.dropWhile isPyWs := by
  induction k with
  | zero => rfl
  | succ n ih =>
    rw [List.replicate_succ, List.cons_append, List.dropWhile_cons_of_pos (by rfl)]
    exact ih

/-- Stripping ignores a run of leading spaces. -/
theorem pyStrip_spaces_prefix (k : ℕ) (l : PyStr) :
    pyStrip (List.replicate k ' ' ++ l) = pyStrip l := by
  unfold pyStrip
  rw [dropWhile_spaces]

/-- A digit character is not Python whitespace. -/
theorem digit_not_ws (c : Char) (h : c.isDigit = true) : isPyWs c = false := by
  obtain ⟨h1, _⟩ := (isDigit_iff c).mp h
  have hne : ∀ d : Char, d.toNat < 48 → ¬c = d := fun d hd he => by subst he; omega
  simp [isPyWs, hne ' ' (by decide), hne '\t' (by decide), hne '\n' (by decide),
    hne '\x0d' (by decide), hne '\x0b' (by decide), hne '\x0c' (by decide)]

/-- A digit character is not `'-'`. -/
theorem digit_ne_minus (c : Char) (h : c.isDigit = true) : c ≠ '-' := by
  obtain ⟨h1, _⟩ := (isDigit_iff c).mp h
  intro he; subst he; exact absurd h1 (by decide)

/-- A digit character is not `'+'`. -/
theorem digit_ne_plus (c : Char) (h : c.isDigit = true) : c ≠ '+' := by
  obtain ⟨h1, _⟩ := (isDigit_iff c).mp h
  intro he; subst he; exact absurd h1 (by decide)

/-- `takeWhile isDigit` over digits followed by a point. -/
theorem takeWhile_digits_dot (a b : PyStr) (ha : a.all Char.isDigit = true) :
    (a ++ '.' :: b).takeWhile Char.isDigit = a := by
  induction a with
  | nil => rfl
  | cons c t ih =>
    simp only [List.all_cons, Bool.and_eq_true] at ha
    rw [List.cons_append, List.takeWhile_cons_of_pos ha.1, ih ha.2]

/-- Every character of a digits-point-digits body is non-whitespace. -/
theorem body_not_ws (a b : PyStr) (ha : a.all Char.isDigit = true)
    (hb : b.all Char.isDigit = true) :
    ∀ c ∈ a ++ '.' :: b, isPyWs c = false := by
  intro c hc
  rcases List.mem_append.mp hc with h | h
  · exact digit_not_ws c (by simpa using List.all_eq_true.mp ha c h)
  · rcases h with _ | ⟨_, h⟩
    · rfl
    · exact digit_not_ws c (by simpa using List.all_eq_true.mp hb c h)

/-- `signSplit` on an unsigned body with a digit or point head. -/
theorem signSplit_unsigned (a r : PyStr) (ha : a.all Char.isDigit = true)
    (hr : a = [] → signSplit r = (1, r)) :
    signSplit (a ++ r) = (1, a ++ r) := by
  cases a with
  | nil => simpa using hr rfl
  | cons c t =>
    have hc : c.isDigit = true := by simpa using List.all_eq_true.mp ha c (by simp)
    rw [List.cons_append]
    unfold signSplit
    dsimp only
    rw [if_neg (digit_ne_minus c hc), if_neg (digit_ne_plus c hc)]

/-- `signSplit` on a nonempty all-digit string. -/
theorem signSplit_unsigned' (a : PyStr) (ha : a.all Char.isDigit = true) (hne : a ≠ []) :
    signSplit a = (1, a) := by
  cases a with
  | nil => exact absurd rfl hne
  | cons c t =>
    have hc : c.isDigit = true := by simpa using List.all_eq_true.mp ha c (by simp)
    unfold signSplit
    dsimp only
    rw [if_neg (digit_ne_minus c hc), if_neg (digit_ne_plus c hc)]

/-- Python `float` ignores leading spaces. -/
theorem pyFloatP_spaces (k : ℕ) (l : PyStr) :
    pyFloatP (List.replicate k ' ' ++ l) = pyFloatP l := by
  unfold pyFloatP
  rw [ pyStrip_spaces_prefix]

/-- Python `int` ignores leading spaces. -/
theorem pyIntP_spaces (k : ℕ) (l : PyStr) :
    pyIntP (List.replicate k ' ' ++ l) = pyIntP l := by
  unfold pyIntP
  rw [ pyStrip_spaces_prefix]

/-- Python `float` on an unsigned fixed-point digit string reads the exact
decimal value. -/
theorem pyFloatP_digits (a b : PyStr) (ha : a.all Char.isDigit = true)
    (hb : b.all Char.isDigit = true) (hne : a ≠ [] ∨ b ≠ []) :
    pyFloatP (a ++ '.' :: b) =
      some ((charsToNat a : ℚ) + (charsToNat b : ℚ) / 10 ^ b.length) := by
  unfold pyFloatP
  rw [pyStrip_no_ws _ (body_not_ws a b ha hb),
    signSplit_unsigned a ('.' :: b) ha (fun _ => rfl)]
  dsimp only
  rw [takeWhile_digits_dot a b ha, List.drop_left]
  simp only [pyFracP]
  rw [if_pos (And.intro hb hne)]
  norm_num

/-- Python `float` on a `'-'`-prefixed fixed-point digit string. -/
theorem pyFloatP_digits_neg (a b : PyStr) (ha : a.all Char.isDigit = true)
    (hb : b.all Char.isDigit = true) (hne : a ≠ [] ∨ b ≠ []) :
    pyFloatP ('-' :: (a ++ '.' :: b)) =
      some (-((charsToNat a : ℚ) + (charsToNat b : ℚ) / 10 ^ b.length)) := by
  unfold pyFloatP
  have hmem : ∀ c ∈ '-' :: (a ++ '.' :: b), isPyWs c = false := by
    intro c hc
    rcases hc with _ | ⟨_, hc⟩
    · rfl
    · exact body_not_ws a b ha hb c hc
  rw [pyStrip_no_ws _ hmem,
    show signSplit ('-' :: (a ++ '.' :: b)) = (-1, a ++ '.' :: b) from rfl]
  dsimp only
  rw [takeWhile_digits_dot a b ha, List.drop_left]
  simp only [pyFracP]
  rw [if_pos (And.intro hb hne)]
  push_cast
  ring_nf

/-- Python `int` on an unsigned digit string reads the exact value. -/
theorem pyIntP_digits (a : PyStr) (ha : a.all Char.isDigit = true) (hne : a ≠ []) :
    pyIntP a = some ((charsToNat a : ℤ)) := by
  unfold pyIntP
  have hmem : ∀ c ∈ a, isPyWs c = false := fun c hc =>
    digit_not_ws c (by simpa using List.all_eq_true.mp ha c hc)
  rw [pyStrip_no_ws _ hmem]
  rw [signSplit_unsigned' a (by simpa using ha) hne]
  dsimp only
  rw [if_pos (And.intro hne ha)]
  norm_num

/-- Python `int` on a `'-'`-prefixed digit string. -/
theorem pyIntP_digits_neg (a : PyStr) (ha : a.all Char.isDigit = true) (hne : a ≠ []) :
    pyIntP ('-' :: a) = some (-(charsToNat a : ℤ)) := by
  unfold pyIntP
  have hmem : ∀ c ∈ '-' :: a, isPyWs c = false := by
    intro c hc
    rcases hc with _ | ⟨_, hc⟩
    · rfl
    · exact digit_not_ws c (by simpa using List.all_eq_true.mp ha c hc)
  rw [pyStrip_no_ws _ hmem]
  rw [show signSplit ('-' :: a) = (-1, a) from rfl]
  dsimp only
  rw [if_pos (And.intro hne ha)]
  norm_num

/-- Reading a run of `'0'` digits accumulates nothing. -/
theorem charsToNatAux_zeros (k : ℕ) (acc : ℕ) :
    charsToNatAux (List.replicate k '0') acc = acc * 10 ^ k := by
  induction k generalizing acc with
  | zero => simp [charsToNatAux]
  | succ n ih =>
    rw [List.replicate_succ]
    show charsToNatAux (List.replicate n '0') (acc * 10 + ('0'.toNat - 48)) = _
    rw [show '0'.toNat - 48 = 0 from rfl, Nat.add_zero, ih]
    ring

/-- The all-zero eccentricity field decodes to `0.0`. -/
theorem pyFloatP_zeros (k : ℕ) :
    pyFloatP ('0' :: '.' :: List.replicate k '0') = some 0 := by
  have h := pyFloatP_digits ['0'] (List.replicate k '0') (by decide)
    (by
      rw [List.all_eq_true]
      intro c hc
      rw [List.eq_of_mem_replicate hc]
      rfl)
    (Or.inl (by simp))
  rw [show (['0'] ++ '.' :: List.replicate k '0' : PyStr) =
    '0' :: '.' :: List.replicate k '0' from rfl] at h
  have hz : charsToNat (List.replicate k '0') = 0 := by
    unfold charsToNat
    rw [charsToNatAux_zeros]
    ring
  have h0 : charsToNat ['0'] = 0 := rfl
  rw [h, h0, hz]
  norm_num

/-- **C10.** Spaces inside the eccentricity field (columns 27–33 of line 2)
are treated as the digit `'0'` before the implied `"0."` is prepended: for
every accepted pair the eccentricity is the decimal reading of the
space-to-zero-mapped field, and an all-space field decodes to `0.0` rather
than an error. -/
theorem claim_C10 :
    (∀ l1 l2 wc s, twoline2rv l1 l2 wc = .ok s →
        pyFloatP ('0' :: '.' ::
            (pySl (pyRstrip l2) 26 33).map (fun c => if c = ' ' then '0' else c)) =
          some s.ecco) ∧
    (∀ l1 l2 wc s, twoline2rv l1 l2 wc = .ok s →
        (pySl (pyRstrip l2) 26 33).all (· = ' ') = true → s.ecco = 0) := by
  have part1 : ∀ l1 l2 wc s, twoline2rv l1 l2 wc = .ok s →
      pyFloatP ('0' :: '.' ::
          (pySl (pyRstrip l2) 26 33).map (fun c => if c = ' ' then '0' else c)) =
        some s.ecco := by
    intro l1 l2 wc s h
    obtain ⟨r1, r2, _, h2, he⟩ := twoline2rv_ok_inv l1 l2 wc s h
    rw [he]
    exact parseLine2_ecco l2 r1.satnum r2 h2
  refine ⟨part1, fun l1 l2 wc s h hsp => ?_⟩
  have hv := part1 l1 l2 wc s h
  rw [map_space_zero _ hsp, pyFloatP_zeros] at hv
  exact (Option.some.injEq _ _ ▸ hv).symm

/-- Witness for C10: the ISS pair with a blanked eccentricity field parses
with eccentricity `0.0`. -/
theorem claim_C10_witness :
    sECC.ecco = 0 ∧ (pySl (pyRstrip eccL2) 26 33).all (· = ' ') = true := by
  have hok : twoline2rv issL1 eccL2 gc1 = .ok sECC := by with_unfolding_all rfl
  have hsp : (pySl (pyRstrip eccL2) 26 33).all (· = ' ') = true := by decide
  exact ⟨claim_C10.2 issL1 eccL2 gc1 sECC hok hsp, hsp⟩

/-- **C2 (counterexample).** An Entity whose node `10.00007°` is not on the
4-decimal TLE grid is not reproduced by parse-after-format: the node comes
back as `10.0001°`, differing by far more than floating-point round-off. -/
theorem claim_C2_counterexample :
    rv2twoline sOff = some offPair ∧
    twoline2rv offPair.1 offPair.2 gc1 = .ok sOffBack ∧
    sOffBack.nodeo ≠ sOff.nodeo ∧
    |sOffBack.nodeo - sOff.nodeo| ≥ 3 / 100000 * deg2rad := by
  have h1 : rv2twoline sOff = some offPair := by with_unfolding_all rfl
  have h2 : twoline2rv offPair.1 offPair.2 gc1 = .ok sOffBack := by with_unfolding_all rfl
  have hb : sOffBack.nodeo = 100001 / 10000 * deg2rad := by with_unfolding_all rfl
  have ha : sOff.nodeo = 1000007 / 100000 * deg2rad := by with_unfolding_all rfl
  have hd : (0 : ℚ) < deg2rad := by norm_num [deg2rad, piFloat]
  refine ⟨h1, h2, ?_, ?_⟩
  · rw [hb, ha]
    intro heq
    have := mul_right_cancel₀ (ne_of_gt hd) heq
    norm_num at this
  · rw [hb, ha]
    have : (100001 / 10000 - 1000007 / 100000 : ℚ) = 3 / 100000 := by norm_num
    rw [← sub_mul, this, abs_of_pos (by positivity)]

/-- The fuelled digit renderer agrees with `Nat.digits` once the fuel covers
the value. -/
theorem natCharsAux_eq (fuel n : ℕ) (h : n ≤ fuel) :
    natCharsAux fuel n = ((Nat.digits 10 n).map (fun d => Char.ofNat (48 + d))).reverse := by
  induction fuel generalizing n with
  | zero =>
    interval_cases n
    simp [natCharsAux]
  | succ f ih =>
    by_cases hn : n = 0
    · subst hn; simp [natCharsAux]
    · rw [natCharsAux, if_neg hn, ih (n / 10) (by omega),
        Nat.digits_def' (by norm_num : 1 < 10) (Nat.pos_of_ne_zero hn)]
      simp

/-- `str(n)` is the digit string of `n`. -/
theorem natChars_eq (n : ℕ) (h : n ≠ 0) :
    natChars n = ((Nat.digits 10 n).map (fun d => Char.ofNat (48 + d))).reverse := by
  rw [natChars, if_neg h, natCharsAux_eq n n le_rfl]

/-- Length of `str(n)` for positive `n`. -/
theorem natChars_length (n : ℕ) (h : n ≠ 0) :
    (natChars n).length = Nat.log 10 n + 1 := by
  rw [natChars_eq n h]
  simp [Nat.digits_len 10 n (by norm_num) h]

/-- Length of `str(n)` from power-of-ten bounds. -/
theorem natChars_length_of_bounds (n k : ℕ) (h1 : 10 ^ k ≤ n) (h2 : n < 10 ^ (k + 1)) :
    (natChars n).length = k + 1 := by
  have hp : 0 < 10 ^ k := by positivity
  have hn : n ≠ 0 := by omega
  rw [natChars_length n hn, Nat.log_eq_of_pow_le_of_lt_pow h1 h2]

/-- Every character of `str(n)` is a digit. -/
theorem natChars_all_digits (n : ℕ) : (natChars n).all Char.isDigit = true := by
  by_cases h : n = 0
  · subst h; rfl
  · rw [natChars_eq n h, List.all_eq_true]
    intro c hc
    rw [List.mem_reverse] at hc
    obtain ⟨d, hd, rfl⟩ := List.mem_map.mp hc
    exact (ofNat_digit_spec d (Nat.digits_lt_base (by norm_num) hd)).1

/-- Reading digits: the accumulator scales by `10 ^ length`. -/
theorem charsToNatAux_acc (s : PyStr) (acc : ℕ) :
    charsToNatAux s acc = acc * 10 ^ s.length + charsToNatAux s 0 := by
  induction s generalizing acc with
  | nil => simp [charsToNatAux]
  | cons c t ih =>
    rw [charsToNatAux, charsToNatAux, ih, ih (0 * 10 + (c.toNat - 48)),
      List.length_cons, pow_succ]
    ring

/-- Reading a concatenation of digit strings. -/
theorem charsToNat_append (x y : PyStr) :
    charsToNat (x ++ y) = charsToNat x * 10 ^ y.length + charsToNat y := by
  unfold charsToNat
  induction x with
  | nil => simp [charsToNatAux]
  | cons c t ih =>
    rw [List.cons_append, charsToNatAux, charsToNatAux, charsToNatAux_acc (t ++ y), ih,
      charsToNatAux_acc t, List.length_append, pow_add,
      charsToNatAux_acc t (0 * 10 + (c.toNat - 48))]
    ring

/-- Reading back `str(n)` recovers `n`. -/
theorem charsToNat_natChars (n : ℕ) : charsToNat (natChars n) = n := by
  by_cases h : n = 0
  · subst h; rfl
  · rw [natChars_eq n h]
    have : ∀ ds : List ℕ, (∀ d ∈ ds, d < 10) →
        charsToNat ((ds.map (fun d => Char.ofNat (48 + d))).reverse) = Nat.ofDigits 10 ds := by
      intro ds
      induction ds with
      | nil => intro _; rfl
      | cons d t ih =>
        intro hd
        rw [List.map_cons, List.reverse_cons, charsToNat_append, ih (fun x hx => hd x (by simp [hx]))]
        rw [Nat.ofDigits_cons]
        have hv : (Char.ofNat (48 + d)).toNat - 48 = d :=
          (ofNat_digit_spec d (hd d (by simp))).2
        simp [charsToNat, charsToNatAux, hv]
        ring
    rw [this (Nat.digits 10 n) (fun d hd => Nat.digits_lt_base (by norm_num) hd),
      Nat.ofDigits_digits]

/-- `ratPow10` on a natural exponent. -/
theorem ratPow10_natCast (p : ℕ) : ratPow10 (p : ℤ) = (10 : ℚ) ^ p := by
  rw [ratPow10, if_pos (by positivity), Int.toNat_natCast]

/-- Rounding an integer is the identity. -/
theorem roundHalfEvenZ_intCast (m : ℤ) : roundHalfEvenZ (m : ℚ) = m := by
  unfold roundHalfEvenZ
  rw [Int.floor_intCast]
  simp

/-- `padZeros` reaches the requested width. -/
theorem padZeros_length (w : ℕ) (s : PyStr) :
    (padZeros w s).length = max w s.length := by
  simp [padZeros]
  omega

/-- `padZeros` preserves digit-ness. -/
theorem padZeros_all_digits (w : ℕ) (s : PyStr) (h : s.all Char.isDigit = true) :
    (padZeros w s).all Char.isDigit = true := by
  rw [padZeros, List.all_append, h, Bool.and_true]
  rw [List.all_eq_true]
  intro c hc
  rw [List.eq_of_mem_replicate hc]
  rfl

/-- Leading zeros do not change the value read. -/
theorem charsToNat_padZeros (w : ℕ) (s : PyStr) :
    charsToNat (padZeros w s) = charsToNat s := by
  rw [padZeros, charsToNat_append]
  have : charsToNat (List.replicate (w - s.length) '0') = 0 := by
    unfold charsToNat
    rw [charsToNatAux_zeros]
    ring
  rw [this]
  ring

/-- The digit block of the rendering of `n / 10^p`. -/
theorem ffDigits_spec (n p : ℕ) :
    (ffDigits n p).all Char.isDigit = true ∧ charsToNat (ffDigits n p) = n ∧
      p + 1 ≤ (ffDigits n p).length :=
  ⟨padZeros_all_digits _ _ (natChars_all_digits n), by
    rw [ffDigits, charsToNat_padZeros, charsToNat_natChars], by
    rw [ffDigits, padZeros_length]; omega⟩

/-- The fraction block has exactly `p` digits. -/
theorem ffFrac_length (n p : ℕ) : (ffFrac n p).length = p := by
  rw [ffFrac, List.length_drop]
  have := (ffDigits_spec n p).2.2
  omega

/-- The integer block is nonempty. -/
theorem ffInt_length (n p : ℕ) : (ffInt n p).length = (ffDigits n p).length - p := by
  rw [ffInt, List.length_take]
  have := (ffDigits_spec n p).2.2
  omega

/-- Splitting the digit block at the point. -/
theorem ffInt_append_ffFrac (n p : ℕ) : ffInt n p ++ ffFrac n p = ffDigits n p := by
  rw [ffInt, ffFrac, List.take_append_drop]

/-- `"{:.pf}"` of an exact `p`-decimal value `n / 10^p`. -/
theorem formatFixed_grid (n p : ℕ) :
    formatFixed ((n : ℚ) / 10 ^ p) p = ffInt n p ++ '.' :: ffFrac n p := by
  unfold formatFixed
  have hq : (0 : ℚ) ≤ (n : ℚ) / 10 ^ p := by positivity
  rw [if_neg (not_lt.mpr hq), abs_of_nonneg hq, ratPow10_natCast,
    div_mul_cancel₀ _ (by positivity : ((10 : ℚ) ^ p) ≠ 0)]
  rw [show ((n : ℕ) : ℚ) = ((n : ℤ) : ℚ) from by push_cast; ring, roundHalfEvenZ_intCast,
    Int.toNat_natCast]
  rw [ffInt, ffFrac, ffDigits]
  simp

/-- `"{:.pf}"` of the negation of a positive exact `p`-decimal value. -/
theorem formatFixed_grid_neg (n p : ℕ) (hn : 0 < n) :
    formatFixed (-((n : ℚ) / 10 ^ p)) p = '-' :: (ffInt n p ++ '.' :: ffFrac n p) := by
  unfold formatFixed
  have hq : (0 : ℚ) < (n : ℚ) / 10 ^ p := by positivity
  rw [if_pos (by linarith), abs_neg, abs_of_nonneg (le_of_lt hq), ratPow10_natCast,
    div_mul_cancel₀ _ (by positivity : ((10 : ℚ) ^ p) ≠ 0)]
  rw [show ((n : ℕ) : ℚ) = ((n : ℤ) : ℚ) from by push_cast; ring, roundHalfEvenZ_intCast,
    Int.toNat_natCast]
  rw [ffInt, ffFrac, ffDigits]
  simp

/-- Parsing back the fixed-point rendering of `n / 10^p` is exact. -/
theorem pyFloatP_formatFixed (n p : ℕ) :
    pyFloatP (formatFixed ((n : ℚ) / 10 ^ p) p) = some ((n : ℚ) / 10 ^ p) := by
  obtain ⟨hdig, hval, hlen⟩ := ffDigits_spec n p
  have hia : (ffInt n p).all Char.isDigit = true := by
    rw [List.all_eq_true]
    intro c hc
    exact List.all_eq_true.mp hdig c (List.take_subset _ _ hc)
  have hfa : (ffFrac n p).all Char.isDigit = true := by
    rw [List.all_eq_true]
    intro c hc
    exact List.all_eq_true.mp hdig c (List.drop_subset _ _ hc)
  have hine : ffInt n p ≠ [] := by
    have h1 := ffInt_length n p
    intro h
    rw [h] at h1
    simp at h1
    omega
  rw [formatFixed_grid, pyFloatP_digits _ _ hia hfa (Or.inl hine), ffFrac_length]
  have hsplit : charsToNat (ffInt n p) * 10 ^ p + charsToNat (ffFrac n p) = n := by
    have happ := charsToNat_append (ffInt n p) (ffFrac n p)
    rw [ffInt_append_ffFrac, hval, ffFrac_length] at happ
    omega
  congr 1
  have h10 : ((10 : ℚ) ^ p) ≠ 0 := by positivity
  field_simp
  exact_mod_cast hsplit

/-- One splice over the still-blank tail: writing `s` into `[a:b]` of a
partially built 69-cell line extends the built prefix to `b` cells. -/
theorem setSl_step (done s : PyStr) (a b total : ℕ)
    (hd : done.length ≤ a) (hab : a ≤ b) (hb : b ≤ total) (hs : s.length = b - a) :
    setSl (done ++ List.replicate (total - done.length) ' ') a b s =
      (done ++ List.replicate (a - done.length) ' ' ++ s) ++
        List.replicate (total - b) ' ' ∧
    (done ++ List.replicate (a - done.length) ' ' ++ s).length = b := by
  constructor
  · unfold setSl
    rw [List.take_append_eq_append_take, List.take_of_length_le (by omega),
      List.take_replicate, List.drop_append_eq_append_drop,
      List.drop_of_length_le (by omega), List.drop_replicate]
    have h1 : min (a - done.length) (total - done.length) = a - done.length := by omega
    have h2 : total - done.length - (b - done.length) = total - b := by omega
    rw [h1, h2]
    simp [List.append_assoc]
  · simp
    omega

/-- `ratPow10` is the integer power of ten. -/
theorem ratPow10_eq_zpow (k : ℤ) : ratPow10 k = (10 : ℚ) ^ k := by
  cases k with
  | ofNat n =>
    rw [show Int.ofNat n = (n : ℤ) from rfl, ratPow10, if_pos (Int.natCast_nonneg n),
      Int.toNat_natCast, zpow_natCast]
  | negSucc n =>
    rw [ratPow10, if_neg (not_le.mpr (Int.negSucc_lt_zero n)), zpow_negSucc, one_div,
      show (-Int.negSucc n).toNat = n + 1 from rfl]

/-- Powers of ten are positive. -/
theorem ratPow10_pos (k : ℤ) : 0 < ratPow10 k := by
  rw [ratPow10_eq_zpow]
  positivity

/-- Successor law for `ratPow10`. -/
theorem ratPow10_succ (k : ℤ) : ratPow10 (k + 1) = 10 * ratPow10 k := by
  rw [ratPow10_eq_zpow, ratPow10_eq_zpow, zpow_add_one₀ (by norm_num : (10 : ℚ) ≠ 0)]
  ring

/-- Monotonicity of powers of ten. -/
theorem ratPow10_le_ratPow10 (j k : ℤ) (h : j ≤ k) : ratPow10 j ≤ ratPow10 k := by
  rw [ratPow10_eq_zpow, ratPow10_eq_zpow]
  exact zpow_le_zpow_right₀ (by norm_num) h

/-- Digit-count bounds for a positive natural. -/
theorem digitLen_bounds (n : ℕ) (h : n ≠ 0) :
    10 ^ (digitLen n - 1) ≤ n ∧ n < 10 ^ digitLen n := by
  rw [digitLen, natChars_length n h]
  constructor
  · simpa using Nat.pow_log_le_self 10 h
  · exact Nat.lt_pow_succ_log_self (by norm_num) n

/-- The computed floor of `log10` satisfies its defining bounds. -/
theorem floorLog10_spec (q : ℚ) (hq : 0 < q) :
    ratPow10 (floorLog10 q) ≤ q ∧ q < ratPow10 (floorLog10 q + 1) := by
  have hnum : 0 < q.num := Rat.num_pos.mpr hq
  set n := q.num.toNat with hn
  have hn0 : n ≠ 0 := by omega
  have hd0 : q.den ≠ 0 := q.den_nz
  obtain ⟨ha1, ha2⟩ := digitLen_bounds n hn0
  obtain ⟨hb1, hb2⟩ := digitLen_bounds q.den hd0
  set A := digitLen n with hA
  set B := digitLen q.den with hB
  have hA1 : 1 ≤ A := by
    by_contra h
    interval_cases A <;> omega
  have hB1 : 1 ≤ B := by
    by_contra h
    interval_cases B <;> omega
  have hqeq : q = (n : ℚ) / (q.den : ℚ) := by
    have hcast : ((n : ℕ) : ℚ) = (q.num : ℚ) := by
      rw [hn]
      exact_mod_cast congrArg Int.cast (Int.toNat_of_nonneg (le_of_lt hnum))
    rw [hcast, Rat.num_div_den]
  have hdpos : (0 : ℚ) < (q.den : ℚ) := by
    exact_mod_cast Nat.pos_of_ne_zero hd0
  have hup : q < ratPow10 ((A : ℤ) - B + 1) := by
    rw [hqeq, div_lt_iff hdpos, ratPow10_eq_zpow]
    calc (n : ℚ) < 10 ^ A := by exact_mod_cast ha2
    _ = (10 : ℚ) ^ (A : ℤ) := by rw [zpow_natCast]
    _ ≤ (10 : ℚ) ^ ((A : ℤ) - B + 1) * 10 ^ (B - 1 : ℤ) := by
        rw [← zpow_add₀ (by norm_num : (10 : ℚ) ≠ 0)]
        apply zpow_le_zpow_right₀ (by norm_num)
        omega
    _ ≤ (10 : ℚ) ^ ((A : ℤ) - B + 1) * (q.den : ℚ) := by
        apply mul_le_mul_of_nonneg_left _ (by positivity)
        calc (10 : ℚ) ^ ((B : ℤ) - 1) = ((10 ^ (B - 1) : ℕ) : ℚ) := by
              push_cast
              rw [← zpow_natCast]
              congr 1
              omega
        _ ≤ (q.den : ℚ) := by exact_mod_cast hb1
  have hlow : ratPow10 ((A : ℤ) - B - 1) < q := by
    rw [hqeq, lt_div_iff hdpos, ratPow10_eq_zpow]
    calc (10 : ℚ) ^ ((A : ℤ) - B - 1) * (q.den : ℚ) <
        (10 : ℚ) ^ ((A : ℤ) - B - 1) * 10 ^ (B : ℤ) := by
          apply mul_lt_mul_of_pos_left _ (by positivity)
          calc ((q.den : ℕ) : ℚ) < ((10 ^ B : ℕ) : ℚ) := by exact_mod_cast hb2
          _ = (10 : ℚ) ^ (B : ℤ) := by push_cast; rw [zpow_natCast]
    _ = (10 : ℚ) ^ ((A : ℤ) - 1) := by
          rw [← zpow_add₀ (by norm_num : (10 : ℚ) ≠ 0)]
          congr 1
          ring
    _ = ((10 ^ (A - 1) : ℕ) : ℚ) := by
          push_cast
          rw [← zpow_natCast]
          congr 1
          omega
    _ ≤ (n : ℚ) := by exact_mod_cast ha1
  rw [floorLog10]
  by_cases hcase : ratPow10 ((digitLen q.num.toNat : ℤ) - digitLen q.den) ≤ q
  · rw [if_pos hcase]
    exact ⟨hcase, by rw [← hA, ← hB] at *; exact hup⟩
  · rw [if_neg hcase]
    refine ⟨?_, ?_⟩
    · rw [← hA, ← hB] at *
      exact le_of_lt hlow
    · rw [← hA, ← hB] at *
      rw [show (A : ℤ) - B - 1 + 1 = (A : ℤ) - B from by ring]
      exact lt_of_not_le hcase

/-- The floor of `log10` is determined by its bounds. -/
theorem floorLog10_unique (q : ℚ) (k : ℤ) (h1 : ratPow10 k ≤ q)
    (h2 : q < ratPow10 (k + 1)) : floorLog10 q = k := by
  have hq : 0 < q := lt_of_lt_of_le (ratPow10_pos k) h1
  obtain ⟨hf1, hf2⟩ := floorLog10_spec q hq
  by_contra hne
  rcases lt_or_gt_of_ne hne with hlt | hgt
  · exact absurd (lt_of_lt_of_le hf2 (ratPow10_le_ratPow10 _ _ (by omega))) (not_lt.mpr h1)
  · exact absurd (lt_of_lt_of_le h2 (ratPow10_le_ratPow10 _ _ (by omega))) (not_lt.mpr hf1)

/-- `int(log10 q)` for `q` in a decade at or above one. -/
theorem intLog10_nonneg (q : ℚ) (k : ℤ) (hk : 0 ≤ k) (h1 : ratPow10 k ≤ q)
    (h2 : q < ratPow10 (k + 1)) : intLog10 q = k := by
  have h1q : (1 : ℚ) ≤ q := le_trans (by simpa [ratPow10] using ratPow10_le_ratPow10 0 k hk) h1
  rw [intLog10, floorLog10_unique q k h1 h2, if_pos h1q]

/-- `int(log10 q)` strictly inside a decade below one truncates upward. -/
theorem intLog10_neg_strict (q : ℚ) (k : ℤ) (hk : k < 0) (h1 : ratPow10 k < q)
    (h2 : q < ratPow10 (k + 1)) : intLog10 q = k + 1 := by
  have hq1 : ¬ (1 : ℚ) ≤ q :=
    not_le.mpr (lt_of_lt_of_le h2
      (by simpa [ratPow10] using ratPow10_le_ratPow10 (k + 1) 0 (by omega)))
  rw [intLog10, floorLog10_unique q k (le_of_lt h1) h2, if_neg hq1, if_neg (ne_of_gt h1)]

/-- `int(log10)` of an exact negative power of ten. -/
theorem intLog10_pow_neg (k : ℤ) (hk : k < 0) : intLog10 (ratPow10 k) = k := by
  have h2 : ratPow10 k < ratPow10 (k + 1) := by
    rw [ratPow10_succ]
    nlinarith [ratPow10_pos k]
  have hq1 : ¬ (1 : ℚ) ≤ ratPow10 k :=
    not_le.mpr (lt_of_le_of_lt (ratPow10_le_ratPow10 k (-1) (by omega))
      (by norm_num [ratPow10]))
  rw [intLog10, floorLog10_unique _ k le_rfl h2, if_neg hq1, if_pos rfl]

/-- `int(log10 q)` is nonpositive below ten. -/
theorem intLog10_le_zero (q : ℚ) (h0 : 0 < q) (h : q < 10) : intLog10 q ≤ 0 := by
  by_cases h1 : (1 : ℚ) ≤ q
  · rw [intLog10_nonneg q 0 le_rfl (by simpa [ratPow10] using h1)
      (by norm_num [ratPow10]; exact h)]
  · rw [intLog10]
    obtain ⟨hf1, _⟩ := floorLog10_spec q h0
    have hfneg : floorLog10 q < 0 := by
      by_contra hge
      exact h1 (le_trans
        (by simpa [ratPow10] using ratPow10_le_ratPow10 0 _ (not_lt.mp hge)) hf1)
    rw [if_neg h1]
    split <;> omega

/-- Length of `str(n)` is at most the number of available digits. -/
theorem natChars_length_le (n k : ℕ) (hk : 1 ≤ k) (h : n < 10 ^ k) :
    (natChars n).length ≤ k := by
  by_cases h0 : n = 0
  · subst h0
    simpa [natChars] using hk
  · rw [natChars_length n h0]
    have := Nat.log_lt_of_lt_pow h0 h
    omega

/-- The fixed-point rendering of a value below one starts with `"0."`. -/
theorem formatFixed_lt_one (n p : ℕ) (h : n < 10 ^ p) (hp : 1 ≤ p) :
    formatFixed ((n : ℚ) / 10 ^ p) p = '0' :: '.' :: ffFrac n p := by
  rw [formatFixed_grid]
  have hlen : (natChars n).length ≤ p := natChars_length_le n p hp h
  have hd : ffDigits n p = List.replicate (p + 1 - (natChars n).length) '0' ++ natChars n := rfl
  have hdl : (ffDigits n p).length = p + 1 := by
    rw [ffDigits, padZeros_length]
    omega
  have hint : ffInt n p = ['0'] := by
    rw [ffInt, hdl, hd]
    have hk : 1 ≤ p + 1 - (natChars n).length := by omega
    rw [show p + 1 - p = 1 from by omega]
    cases hrep : p + 1 - (natChars n).length with
    | zero => omega
    | succ j =>
      rw [List.replicate_succ, List.cons_append, List.take_succ_cons, List.take_zero]
  rw [hint]
  rfl

/-- The formatter's drag-term normalisation: a gridded magnitude
`m/10^5 · 10^ib` is re-encoded with exponent exactly `ib`. -/
theorem bstar_norm (m : ℕ) (ib : ℤ) (h1 : 10 ^ 4 ≤ m) (h2 : m < 10 ^ 5) (hib : ib ≤ 0) :
    (if ((m : ℚ) / 10 ^ 5 * ratPow10 ib) =
        ratPow10 (intLog10 ((m : ℚ) / 10 ^ 5 * ratPow10 ib)) then
      intLog10 ((m : ℚ) / 10 ^ 5 * ratPow10 ib) + 1
    else intLog10 ((m : ℚ) / 10 ^ 5 * ratPow10 ib)) = ib := by
  set q : ℚ := (m : ℚ) / 10 ^ 5 * ratPow10 ib with hq
  have hP := ratPow10_pos ib
  have hprev : ratPow10 ib = 10 * ratPow10 (ib - 1) := by
    rw [show ib = ib - 1 + 1 from by ring, ratPow10_succ]
    ring_nf
  have hqu : q < ratPow10 ib := by
    have hm2 : (m : ℚ) / 10 ^ 5 < 1 := by
      rw [div_lt_one (by norm_num)]
      exact_mod_cast h2
    calc q = (m : ℚ) / 10 ^ 5 * ratPow10 ib := hq
    _ < 1 * ratPow10 ib := by exact mul_lt_mul_of_pos_right hm2 hP
    _ = ratPow10 ib := by ring
  by_cases hm : m = 10 ^ 4
  · have hqeq : q = ratPow10 (ib - 1) := by
      rw [hq, hm, hprev]
      push_cast
      ring
    have hlog : intLog10 q = ib - 1 := by
      rw [hqeq]
      exact intLog10_pow_neg (ib - 1) (by omega)
    rw [if_pos (by rw [hlog]; exact hqeq), hlog]
    ring
  · have hm1 : (1 : ℚ) / 10 < (m : ℚ) / 10 ^ 5 := by
      rw [div_lt_div_iff (by norm_num) (by norm_num)]
      have : (10 : ℚ) ^ 4 < (m : ℚ) := by
        have : (10 ^ 4 : ℕ) < m := by omega
        exact_mod_cast this
      nlinarith
    have hql : ratPow10 (ib - 1) < q := by
      calc ratPow10 (ib - 1) = 1 / 10 * ratPow10 ib := by
            rw [hprev]; ring
      _ < (m : ℚ) / 10 ^ 5 * ratPow10 ib := mul_lt_mul_of_pos_right hm1 hP
      _ = q := hq.symm
    have hlog : intLog10 q = ib := by
      have := intLog10_neg_strict q (ib - 1) (by omega) hql
        (by rw [show ib - 1 + 1 = ib from by ring]; exact hqu)
      rw [this]
      ring
    rw [hlog, if_neg (ne_of_lt hqu)]

/-- `padSp` reaches the requested width. -/
theorem padSp_length (w : ℕ) (s : PyStr) (h : s.length ≤ w) : (padSp w s).length = w := by
  simp [padSp]
  omega

/-- `padSp` widens by one space at a time. -/
theorem padSp_succ (w : ℕ) (s : PyStr) (h : s.length ≤ w) :
    padSp (w + 1) s = ' ' :: padSp w s := by
  rw [padSp, padSp, show w + 1 - s.length = (w - s.length) + 1 from by omega,
    List.replicate_succ, List.cons_append]

/-- `takeWhile` stops exactly at the first failing element. -/
theorem takeWhile_append_stop (p : Char → Bool) (a : PyStr) (c : Char) (r : PyStr)
    (ha : ∀ x ∈ a, p x = true) (hc : p c = false) :
    (a ++ c :: r).takeWhile p = a := by
  induction a with
  | nil => simp [List.takeWhile_cons, hc]
  | cons x t ih =>
    rw [List.cons_append, List.takeWhile_cons_of_pos (ha x (by simp)),
      ih (fun x hx => ha x (by simp [hx]))]

/-- A digit character is not `'.'`. -/
theorem digit_ne_dot (c : Char) (h : c.isDigit = true) : c ≠ '.' := by
  obtain ⟨h1, _⟩ := (isDigit_iff c).mp h
  intro he; subst he; exact absurd h1 (by decide)

/-- Everything after the last point, when the tail has no point. -/
theorem afterLastDot_eq (x y : PyStr) (hy : '.' ∉ y) :
    afterLastDot (x ++ '.' :: y) = y := by
  unfold afterLastDot
  rw [List.reverse_append, List.reverse_cons, List.append_assoc, List.singleton_append]
  rw [takeWhile_append_stop _ y.reverse '.' x.reverse
    (fun c hc => decide_eq_true (by
      intro he
      exact hy (by rw [← he]; exact List.mem_reverse.mp hc)))
    (by simp)]
  exact List.reverse_reverse y

/-- `formatFixed` decomposed into sign, integer digits, point, fraction. -/
theorem formatFixed_eq_parts (q : ℚ) (p : ℕ) :
    formatFixed q p = (if q < 0 then ['-'] else []) ++
      ffInt (roundHalfEvenZ (|q| * ratPow10 p)).toNat p ++
      '.' :: ffFrac (roundHalfEvenZ (|q| * ratPow10 p)).toNat p := rfl

/-- The fraction block of any `formatFixed` rendering: exactly `p` digits. -/
theorem afterLastDot_formatFixed (q : ℚ) (p : ℕ) :
    afterLastDot (formatFixed q p) =
      ffFrac (roundHalfEvenZ (|q| * ratPow10 p)).toNat p := by
  rw [formatFixed_eq_parts]
  apply afterLastDot_eq
  intro hmem
  have hdig := (ffDigits_spec (roundHalfEvenZ (|q| * ratPow10 p)).toNat p).1
  have : ('.' : Char).isDigit = true :=
    List.all_eq_true.mp hdig '.' (List.drop_subset _ _ hmem)
  exact absurd this (by decide)

/-- The first-derivative field is always sign, point, eight digits. -/
theorem ndotField_spec (s : Satellite) :
    (ndotField s).length = 10 ∧
    ndotField s = (if s.ndot * (xpdotp * 1440) < 0 then '-' else ' ') :: '.' ::
      ffFrac (roundHalfEvenZ (|s.ndot * (xpdotp * 1440)| * ratPow10 8)).toNat 8 := by
  have hfr := ffFrac_length (roundHalfEvenZ (|s.ndot * (xpdotp * 1440)| * ratPow10 8)).toNat 8
  constructor
  · unfold ndotField
    split <;> simp [afterLastDot_formatFixed, hfr]
  · unfold ndotField
    split <;> rw [afterLastDot_formatFixed] <;> norm_num

/-- `str` of a nonnegative integer. -/
theorem strOfInt_nonneg (z : ℤ) (h : 0 ≤ z) : strOfInt z = natChars z.toNat := by
  rw [strOfInt, if_neg (by omega)]

/-- `natChars` is never empty. -/
theorem natChars_ne_nil (n : ℕ) : natChars n ≠ [] := by
  by_cases h : n = 0
  · subst h; simp [natChars]
  · rw [natChars_eq n h]
    simpa using Nat.digits_ne_nil_iff_ne_zero.mpr h

/-- `"{:05d}"` of an in-range satellite number: five digits reading back. -/
theorem fmt05d_spec (z : ℤ) (h1 : 0 ≤ z) (h2 : z < 100000) :
    (fmt05d z).length = 5 ∧ (fmt05d z).all Char.isDigit = true ∧
    (charsToNat (fmt05d z) : ℤ) = z := by
  have hz : z.toNat < 10 ^ 5 := by omega
  have hform : fmt05d z = padZeros 5 (natChars z.toNat) := by
    rw [fmt05d, if_neg (by omega)]
  refine ⟨?_, ?_, ?_⟩
  · rw [hform, padZeros_length]
    have := natChars_length_le z.toNat 5 (by norm_num) hz
    omega
  · rw [hform]
    exact padZeros_all_digits _ _ (natChars_all_digits _)
  · rw [hform, charsToNat_padZeros, charsToNat_natChars]
    omega

/-- Round trip of the two-digit year field for epoch years 1957–2056: the
field is two digits and the century rule restores the year. -/
theorem year_roundtrip (y : ℤ) (h1 : 1957 ≤ y) (h2 : y ≤ 2056) :
    (lastTwo (strOfInt y)).length = 2 ∧ (lastTwo (strOfInt y)).all Char.isDigit = true ∧
    resolveTwoDigitYear ((charsToNat (lastTwo (strOfInt y)) : ℤ)) = y := by
  interval_cases y <;> exact ⟨by decide, by decide, by decide⟩

/-- `padSp` with no room to pad. -/
theorem padSp_of_ge (w : ℕ) (s : PyStr) (h : w ≤ s.length) : padSp w s = s := by
  rw [padSp, show w - s.length = 0 from by omega]
  rfl

/-- One-digit numbers render as one character. -/
theorem natChars_length_lt10 (n : ℕ) (h : n < 10) : (natChars n).length = 1 := by
  interval_cases n <;> decide

/-- The integer block of a sub-one rendering is the single `'0'`. -/
theorem ffInt_lt_one (n p : ℕ) (h : n < 10 ^ p) (hp : 1 ≤ p) : ffInt n p = ['0'] := by
  have hlen : (natChars n).length ≤ p := natChars_length_le n p hp h
  have hdl : (ffDigits n p).length = p + 1 := by
    rw [ffDigits, padZeros_length]
    omega
  rw [ffInt, hdl, show p + 1 - p = 1 from by omega, ffDigits, padZeros]
  cases hrep : p + 1 - (natChars n).length with
  | zero => omega
  | succ j => rw [List.replicate_succ, List.cons_append, List.take_succ_cons, List.take_zero]

/-- The fraction digits of a sub-one rendering read back the value. -/
theorem ffFrac_val_lt_one (n p : ℕ) (h : n < 10 ^ p) (hp : 1 ≤ p) :
    charsToNat (ffFrac n p) = n := by
  have happ := charsToNat_append (ffInt n p) (ffFrac n p)
  rw [ffInt_append_ffFrac, (ffDigits_spec n p).2.1, ffInt_lt_one n p h hp, ffFrac_length] at happ
  have : charsToNat ['0'] = 0 := rfl
  rw [this] at happ
  omega

/-- The fraction block is all digits. -/
theorem ffFrac_all_digits (n p : ℕ) : (ffFrac n p).all Char.isDigit = true := by
  rw [List.all_eq_true]
  intro c hc
  exact List.all_eq_true.mp (ffDigits_spec n p).1 c (List.drop_subset _ _ hc)

/-- The drag-term field of a gridded nonzero `bstar`: sign, the five mantissa
digits, and the signed exponent, eight characters in all. -/
theorem bstarField_eq (s : Satellite) (m : ℕ) (ib : ℤ) (h1 : 10 ^ 4 ≤ m)
    (h2 : m < 10 ^ 5) (h3 : -9 ≤ ib) (h4 : ib ≤ 0)
    (hval : s.bstar = (m : ℚ) / 10 ^ 5 * ratPow10 ib ∨
            s.bstar = -((m : ℚ) / 10 ^ 5 * ratPow10 ib)) :
    bstarField s = (if s.bstar < 0 then '-' else ' ') ::
      (ffFrac m 5 ++ (if ib = 0 then pystr "-0" else '-' :: natChars (-ib).toNat)) ∧
    (bstarField s).length = 8 := by
  have hPpos := ratPow10_pos ib
  have hmagpos : (0 : ℚ) < (m : ℚ) / 10 ^ 5 * ratPow10 ib := by
    have : (0 : ℚ) < (m : ℚ) := by
      have : 0 < m := by omega
      exact_mod_cast this
    positivity
  have habs : |s.bstar| = (m : ℚ) / 10 ^ 5 * ratPow10 ib := by
    rcases hval with hv | hv
    · rw [hv, abs_of_pos hmagpos]
    · rw [hv, abs_neg, abs_of_pos hmagpos]
  have hnz : s.bstar ≠ 0 := by
    intro h0
    rw [h0, abs_zero] at habs
    exact absurd habs.symm (ne_of_gt hmagpos)
  have hexp : bstarExp s = ib := by
    rw [bstarExp, habs]
    exact bstar_norm m ib h1 h2 h4
  have hfrac : |s.bstar| / ratPow10 (bstarExp s) = (m : ℚ) / 10 ^ 5 := by
    rw [hexp, habs]
    exact mul_div_cancel_right₀ _ (ne_of_gt hPpos)
  have hmant : (formatFixed (|s.bstar| / ratPow10 (bstarExp s)) 5).drop 2 = ffFrac m 5 := by
    rw [hfrac, formatFixed_lt_one m 5 h2 (by norm_num)]
    rfl
  have hexpstr : (if bstarExp s = 0 then '-' :: strOfInt (bstarExp s)
      else strOfInt (bstarExp s)) =
      (if ib = 0 then pystr "-0" else '-' :: natChars (-ib).toNat) := by
    rw [hexp]
    by_cases hib0 : ib = 0
    · rw [if_pos hib0, if_pos hib0, hib0]
      rfl
    · rw [if_neg hib0, if_neg hib0, strOfInt, if_pos (by omega)]
  have hform : bstarField s = (if s.bstar < 0 then '-' else ' ') ::
      (ffFrac m 5 ++ (if ib = 0 then pystr "-0" else '-' :: natChars (-ib).toNat)) := by
    rw [bstarField, if_neg hnz, hmant, hexpstr]
  refine ⟨hform, ?_⟩
  rw [hform]
  have h5 : (ffFrac m 5).length = 5 := ffFrac_length m 5
  have hexplen : (if ib = 0 then pystr "-0" else '-' :: natChars (-ib).toNat).length = 2 := by
    by_cases hib0 : ib = 0
    · rw [if_pos hib0]; rfl
    · rw [if_neg hib0]
      simp [natChars_length_lt10 (-ib).toNat (by omega)]
  simp [h5, hexplen]

/-- Cumulative month offset plus day of month stays within the year. -/
theorem doy_core (leap : Bool) (mon day : ℤ) (h1 : 1 ≤ mon) (h2 : mon ≤ 12)
    (h3 : 1 ≤ day) (h4 : day ≤ monthLen leap mon) :
    1 ≤ ((((monthLengths leap).take (mon - 1).toNat).sum : ℕ) : ℤ) + day ∧
    ((((monthLengths leap).take (mon - 1).toNat).sum : ℕ) : ℤ) + day ≤ 366 := by
  rw [monthLen] at h4
  cases leap <;> interval_cases mon <;> simp_all [monthLengths] <;> omega

/-- The 1-based day-of-year of a valid date lies in `[1, 366]`. -/
theorem dayOfYear_bounds (dt : PyDateTime) (h1 : 1 ≤ dt.month) (h2 : dt.month ≤ 12)
    (h3 : 1 ≤ dt.day) (h4 : dt.day ≤ monthLen (isLeapYear dt.year) dt.month) :
    1 ≤ dayOfYear dt ∧ dayOfYear dt ≤ 366 := by
  rw [dayOfYear]
  exact doy_core (isLeapYear dt.year) dt.month dt.day h1 h2 h3 h4

/-- A gridded epoch's fractional day is an exact multiple of `10^-8` days:
the numerator splits into the day-of-year and the `864`-quotient of the
microsecond count. -/
theorem epochdays_repr (s : Satellite) (h : TleGrid s) :
    ∃ Y : ℕ, (Y : ℤ) * 864 =
        (s.epoch.hour * 3600 + s.epoch.minute * 60 + s.epoch.second) * 1000000 +
          s.epoch.usec ∧
      Y < 10 ^ 8 ∧
      s.epochdays = (((dayOfYear s.epoch * 10 ^ 8 + (Y : ℤ) : ℤ) : ℚ)) / 10 ^ 8 := by
  obtain ⟨Y', hY'⟩ := h.usec_grid
  have hh1 := h.hour_lb
  have hh2 := h.hour_ub
  have hm1 := h.min_lb
  have hm2 := h.min_ub
  have hs1 := h.sec_lb
  have hs2 := h.sec_ub
  have hu1 := h.usec_lb
  have hu2 := h.usec_ub
  have hY'0 : 0 ≤ Y' := by omega
  refine ⟨Y'.toNat, by omega, by omega, ?_⟩
  have hq : ((Y'.toNat : ℤ) : ℚ) * 864 =
      ((s.epoch.hour : ℚ) * 3600 + (s.epoch.minute : ℚ) * 60 + (s.epoch.second : ℚ)) *
        1000000 + (s.epoch.usec : ℚ) := by
    exact_mod_cast congrArg (fun z : ℤ => (z : ℚ)) (by omega :
      (Y'.toNat : ℤ) * 864 =
        (s.epoch.hour * 3600 + s.epoch.minute * 60 + s.epoch.second) * 1000000 +
          s.epoch.usec)
  rw [h.epochdays_eq]
  push_cast
  field_simp
  linear_combination (-6000000000 : ℚ) * hq

/-- Length of the padded digit block. -/
theorem ffDigits_length (n p : ℕ) :
    (ffDigits n p).length = max (p + 1) (natChars n).length := by
  rw [ffDigits, padZeros_length]

/-- Length of the gridded fixed-point rendering: one more than its digit
block (the decimal point). -/
theorem formatFixed_grid_length (n p : ℕ) :
    (formatFixed ((n : ℚ) / 10 ^ p) p).length = (ffDigits n p).length + 1 := by
  rw [formatFixed_grid]
  have h1 := ffInt_length n p
  have h2 := ffFrac_length n p
  have h3 := (ffDigits_spec n p).2.2
  simp only [List.length_append, List.length_cons, h1, h2]
  omega

/-- Length of zero-aligned padding. -/
theorem padZeroAlign_length (w : ℕ) (s : PyStr) :
    (padZeroAlign w s).length = max w s.length := by
  simp [padZeroAlign]
  omega

/-- The degree-to-radian factor is nonzero. -/
theorem deg2rad_ne : deg2rad ≠ 0 := by
  norm_num [deg2rad, piFloat]

/-- The revolutions-per-day factor is nonzero. -/
theorem xpdotp_ne : xpdotp ≠ 0 := by
  norm_num [xpdotp, piFloat]

/-- Drag-term field width for gridded entities, zero branch included. -/
theorem bstarField_length (s : Satellite) (h : TleGrid s) : (bstarField s).length = 8 := by
  rcases h.bstar_grid with h0 | ⟨m, ib, h1, h2, h3, h4, hval⟩
  · rw [bstarField, if_pos h0]
    rfl
  · exact (bstarField_eq s m ib h1 h2 h3 h4 hval).2

/-- An angle slot on the 4-decimal-degree grid occupies eight characters. -/
theorem degSlot_length (q : ℚ) (n : ℕ) (hn : n < 10 ^ 7)
    (hval : q = (n : ℚ) / 10 ^ 4 * deg2rad) :
    (padSp 8 (formatFixed (q / deg2rad) 4)).length = 8 := by
  have hq : q / deg2rad = (n : ℚ) / 10 ^ 4 := by
    rw [hval, mul_div_cancel_right₀ _ deg2rad_ne]
  have hlen : (formatFixed ((n : ℚ) / 10 ^ 4) 4).length ≤ 8 := by
    rw [formatFixed_grid_length, ffDigits_length]
    have := natChars_length_le n 7 (by norm_num) hn
    omega
  rw [hq]
  exact padSp_length 8 _ hlen

/-- Columns 1–68 of the canonical line 1 are exactly 68 characters. -/
theorem canonLine1_length (s : Satellite) (h : TleGrid s) : (canonLine1 s).length = 68 := by
  have h5 := (fmt05d_spec s.satnum h.satnum_lb h.satnum_ub).1
  have hyr := (year_roundtrip s.epochyr h.year_lb h.year_ub).1
  have hnd := (ndotField_spec s).1
  have hbs := bstarField_length s h
  have hel : (padSp 4 (strOfInt s.elnum)).length = 4 := by
    apply padSp_length
    rw [strOfInt_nonneg _ h.elnum_lb]
    exact natChars_length_le _ 4 (by norm_num) (by have := h.elnum_ub; have := h.elnum_lb; omega)
  have hep : (padZeroAlign 12 (formatFixed s.epochdays 8)).length = 12 := by
    obtain ⟨Y, hY, hYub, hrepr⟩ := epochdays_repr s h
    obtain ⟨hd1, hd2⟩ := dayOfYear_bounds s.epoch h.mon_lb h.mon_ub h.day_lb h.day_ub
    have hZ : dayOfYear s.epoch * 10 ^ 8 + (Y : ℤ) =
        (((dayOfYear s.epoch).toNat * 10 ^ 8 + Y : ℕ) : ℤ) := by
      push_cast
      omega
    have hcast : ((dayOfYear s.epoch * 10 ^ 8 + (Y : ℤ) : ℤ) : ℚ) =
        (((dayOfYear s.epoch).toNat * 10 ^ 8 + Y : ℕ) : ℚ) := by
      rw [hZ]
      push_cast
      ring
    rw [hrepr, hcast, padZeroAlign_length, formatFixed_grid_length, ffDigits_length]
    have hNub : (dayOfYear s.epoch).toNat * 10 ^ 8 + Y < 10 ^ 11 := by
      have hdn : (dayOfYear s.epoch).toNat ≤ 366 := by omega
      have : (dayOfYear s.epoch).toNat * 10 ^ 8 ≤ 366 * 10 ^ 8 :=
        Nat.mul_le_mul_right _ hdn
      omega
    have hnc := natChars_length_le _ 11 (by norm_num) hNub
    omega
  have p1 : (pystr "1 ").length = 2 := rfl
  have p2 : (pystr " ").length = 1 := rfl
  have p3 : (pystr "   ").length = 3 := rfl
  have p4 : (' ' :: pystr "00000-0").length = 8 := rfl
  have p5 : (pystr " 0 ").length = 3 := rfl
  rw [canonLine1]
  simp only [List.length_append, h5, hyr, hnd, hbs, hel, hep, h.cls_len, h.intl_len,
    p1, p2, p3, p4, p5]

/-- Columns 1–68 of the canonical line 2 are exactly 68 characters. -/
theorem canonLine2_length (s : Satellite) (h : TleGrid s) : (canonLine2 s).length = 68 := by
  have h5 := (fmt05d_spec s.satnum h.satnum_lb h.satnum_ub).1
  obtain ⟨ni, hni0, hni, hvi⟩ := h.incl_grid
  obtain ⟨nn, hnn, hvn⟩ := h.node_grid
  obtain ⟨na, hna, hva⟩ := h.argp_grid
  obtain ⟨nm, hnm, hvm⟩ := h.mo_grid
  obtain ⟨ne, hne, hve⟩ := h.ecc_grid
  obtain ⟨nk, hnk, hvk⟩ := h.nkoz_grid
  have hi := degSlot_length s.inclo ni hni hvi
  have hn := degSlot_length s.nodeo nn hnn hvn
  have ha := degSlot_length s.argpo na hna hva
  have hm := degSlot_length s.mo nm hnm hvm
  have hec : ((padSp 8 (formatFixed s.ecco 7)).drop 2).length = 7 := by
    rw [hve, formatFixed_lt_one ne 7 hne (by norm_num),
      padSp_of_ge 8 _ (by simp [ffFrac_length])]
    simp [ffFrac_length]
  have hk : (padSp 11 (formatFixed (s.no_kozai * xpdotp) 8)).length = 11 := by
    have hq : s.no_kozai * xpdotp = (nk : ℚ) / 10 ^ 8 := by
      rw [hvk, div_mul_cancel₀ _ xpdotp_ne]
    have hlen : (formatFixed ((nk : ℚ) / 10 ^ 8) 8).length ≤ 11 := by
      rw [formatFixed_grid_length, ffDigits_length]
      have := natChars_length_le nk 10 (by norm_num) hnk
      omega
    rw [hq]
    exact padSp_length 11 _ hlen
  have hrev : (padSp 5 (strOfInt s.revnum)).length = 5 := by
    apply padSp_length
    rw [strOfInt_nonneg _ h.revnum_lb]
    exact natChars_length_le _ 5 (by norm_num)
      (by have := h.revnum_ub; have := h.revnum_lb; omega)
  have p1 : (pystr "2 ").length = 2 := rfl
  have p2 : (pystr " ").length = 1 := rfl
  rw [canonLine2]
  simp only [List.length_append, h5, hi, hn, ha, hm, hec, hk, hrev, p1, p2]

/-- One splice step with all arithmetic pre-computed, for rewriting. -/
theorem splice (done s : PyStr) (a b dl g t1 t2 : ℕ) (hdl : done.length = dl)
    (hg : a - dl = g) (ht1 : 69 - dl = t1) (ht2 : 69 - b = t2)
    (hd : dl ≤ a) (hab : a ≤ b) (hb : b ≤ 69) (hs : s.length = b - a) :
    setSl (done ++ List.replicate t1 ' ') a b s =
      (done ++ List.replicate g ' ' ++ s) ++ List.replicate t2 ' ' := by
  subst hdl
  subst hg
  subst ht1
  subst ht2
  exact (setSl_step done s a b 69 hd hab hb hs).1

/-- Assembling line 1 of the formatter, nonzero-drag shape: the splice
chain over a blank 69-cell line lays the segments out in order. -/
theorem build1 (f05 cls intl yr ep nd mant ex eln : PyStr) (sgnc : Char)
    (h05 : f05.length = 5) (hcls : cls.length = 1) (hintl : intl.length = 6)
    (hyr : yr.length = 2) (hep : ep.length = 12) (hnd : nd.length = 10)
    (hmant : mant.length = 5) (hex : ex.length = 2) (heln : eln.length = 4) :
    (setSl (setSl (setSl (setSl (setSl (setSl (setSl (setSl (setSl (setSl (setSl (setSl (setSl (List.replicate 69 ' ') 0 1 (pystr "1")) 2 7 f05) 7 8 cls) 9 15 intl) 18 20 yr) 20 32 ep) 33 43 nd) 45 52 (pystr "00000-0")) 53 54 [sgnc]) 54 59 mant) 59 61 ex) 62 63 (pystr "0")) 64 68 eln) =
      (pystr "1 " ++ f05 ++ cls ++ pystr " " ++ intl ++ pystr "   " ++ yr ++ ep ++
        pystr " " ++ nd ++ pystr " " ++ (' ' :: pystr "00000-0") ++ pystr " " ++
        (sgnc :: (mant ++ ex)) ++ pystr " 0 " ++ eln) ++ List.replicate 1 ' ' := by
  have hb_r0 : (List.replicate 0 ' ' : PyStr) = [] := rfl
  have hb_r1 : (List.replicate 1 ' ' : PyStr) = [' '] := rfl
  have hb_r2 : (List.replicate 2 ' ' : PyStr) = [' ', ' '] := rfl
  have hb_r3 : (List.replicate 3 ' ' : PyStr) = [' ', ' ', ' '] := rfl
  have hb_p1 : pystr "1" = ['1'] := rfl
  have hb_p1s : pystr "1 " = ['1', ' '] := rfl
  have hb_p2 : pystr "2" = ['2'] := rfl
  have hb_p2s : pystr "2 " = ['2', ' '] := rfl
  have hb_ps : pystr " " = [' '] := rfl
  have hb_p3s : pystr "   " = [' ', ' ', ' '] := rfl
  have hb_pm : pystr "00000-0" = ['0', '0', '0', '0', '0', '-', '0'] := rfl
  have hb_pp : pystr "00000+0" = ['0', '0', '0', '0', '0', '+', '0'] := rfl
  have hb_p0 : pystr "0" = ['0'] := rfl
  have hb_p00 : pystr " 0 " = [' ', '0', ' '] := rfl
  rw [show (List.replicate 69 ' ' : PyStr) = [] ++ List.replicate 69 ' ' from rfl]
  rw [splice [] (pystr "1") 0 1 0 0 69 68 rfl (by norm_num)
    (by norm_num) (by norm_num) (by norm_num) (by norm_num) (by norm_num) rfl]
  rw [splice ([] ++ List.replicate 0 ' ' ++ (pystr "1")) f05 2 7 1 1 68 62 (by simp only [List.length_append, List.length_replicate, List.length_nil, List.length_cons, h05, hcls, hintl, hyr, hep, hnd, hmant, hex, heln, hb_p1, hb_p1s, hb_p2, hb_p2s, hb_ps, hb_p3s, hb_pm, hb_pp, hb_p0, hb_p00]) (by norm_num)
    (by norm_num) (by norm_num) (by norm_num) (by norm_num) (by norm_num) (by rw [h05])]
  rw [splice (([] ++ List.replicate 0 ' ' ++ (pystr "1")) ++ List.replicate 1 ' ' ++ f05) cls 7 8 7 0 62 61 (by simp only [List.length_append, List.length_replicate, List.length_nil, List.length_cons, h05, hcls, hintl, hyr, hep, hnd, hmant, hex, heln, hb_p1, hb_p1s, hb_p2, hb_p2s, hb_ps, hb_p3s, hb_pm, hb_pp, hb_p0, hb_p00]) (by norm_num)
    (by norm_num) (by norm_num) (by norm_num) (by norm_num) (by norm_num) (by rw [hcls])]
  rw [splice ((([] ++ List.replicate 0 ' ' ++ (pystr "1")) ++ List.replicate 1 ' ' ++ f05) ++ List.replicate 0 ' ' ++ cls) intl 9 15 8 1 61 54 (by simp only [List.length_append, List.length_replicate, List.length_nil, List.length_cons, h05, hcls, hintl, hyr, hep, hnd, hmant, hex, heln, hb_p1, hb_p1s, hb_p2, hb_p2s, hb_ps, hb_p3s, hb_pm, hb_pp, hb_p0, hb_p00]) (by norm_num)
    (by norm_num) (by norm_num) (by norm_num) (by norm_num) (by norm_num) (by rw [hintl])]
  rw [splice (((([] ++ List.replicate 0 ' ' ++ (pystr "1")) ++ List.replicate 1 ' ' ++ f05) ++ List.replicate 0 ' ' ++ cls) ++ List.replicate 1 ' ' ++ intl) yr 18 20 15 3 54 49 (by simp only [List.length_append, List.length_replicate, List.length_nil, List.length_cons, h05, hcls, hintl, hyr, hep, hnd, hmant, hex, heln, hb_p1, hb_p1s, hb_p2, hb_p2s, hb_ps, hb_p3s, hb_pm, hb_pp, hb_p0, hb_p00]) (by norm_num)
    (by norm_num) (by norm_num) (by norm_num) (by norm_num) (by norm_num) (by rw [hyr])]
  rw [splice ((((([] ++ List.replicate 0 ' ' ++ (pystr "1")) ++ List.replicate 1 ' ' ++ f05) ++ List.replicate 0 ' ' ++ cls) ++ List.replicate 1 ' ' ++ intl) ++ List.replicate 3 ' ' ++ yr) ep 20 32 20 0 49 37 (by simp only [List.length_append, List.length_replicate, List.length_nil, List.length_cons, h05, hcls, hintl, hyr, hep, hnd, hmant, hex, heln, hb_p1, hb_p1s, hb_p2, hb_p2s, hb_ps, hb_p3s, hb_pm, hb_pp, hb_p0, hb_p00]) (by norm_num)
    (by norm_num) (by norm_num) (by norm_num) (by norm_num) (by norm_num) (by rw [hep])]
  rw [splice (((((([] ++ List.replicate 0 ' ' ++ (pystr "1")) ++ List.replicate 1 ' ' ++ f05) ++ List.replicate 0 ' ' ++ cls) ++ List.replicate 1 ' ' ++ intl) ++ List.replicate 3 ' ' ++ yr) ++ List.replicate 0 ' ' ++ ep) nd 33 43 32 1 37 26 (by simp only [List.length_append, List.length_replicate, List.length_nil, List.length_cons, h05, hcls, hintl, hyr, hep, hnd, hmant, hex, heln, hb_p1, hb_p1s, hb_p2, hb_p2s, hb_ps, hb_p3s, hb_pm, hb_pp, hb_p0, hb_p00]) (by norm_num)
    (by norm_num) (by norm_num) (by norm_num) (by norm_num) (by norm_num) (by rw [hnd])]
  rw [splice ((((((([] ++ List.replicate 0 ' ' ++ (pystr "1")) ++ List.replicate 1 ' ' ++ f05) ++ List.replicate 0 ' ' ++ cls) ++ List.replicate 1 ' ' ++ intl) ++ List.replicate 3 ' ' ++ yr) ++ List.replicate 0 ' ' ++ ep) ++ List.replicate 1 ' ' ++ nd) (pystr "00000-0") 45 52 43 2 26 17 (by simp only [List.length_append, List.length_replicate, List.length_nil, List.length_cons, h05, hcls, hintl, hyr, hep, hnd, hmant, hex, heln, hb_p1, hb_p1s, hb_p2, hb_p2s, hb_ps, hb_p3s, hb_pm, hb_pp, hb_p0, hb_p00]) (by norm_num)
    (by norm_num) (by norm_num) (by norm_num) (by norm_num) (by norm_num) rfl]
  rw [splice (((((((([] ++ List.replicate 0 ' ' ++ (pystr "1")) ++ List.replicate 1 ' ' ++ f05) ++ List.replicate 0 ' ' ++ cls) ++ List.replicate 1 ' ' ++ intl) ++ List.replicate 3 ' ' ++ yr) ++ List.replicate 0 ' ' ++ ep) ++ List.replicate 1 ' ' ++ nd) ++ List.replicate 2 ' ' ++ (pystr "00000-0")) [sgnc] 53 54 52 1 17 15 (by simp only [List.length_append, List.length_replicate, List.length_nil, List.length_cons, h05, hcls, hintl, hyr, hep, hnd, hmant, hex, heln, hb_p1, hb_p1s, hb_p2, hb_p2s, hb_ps, hb_p3s, hb_pm, hb_pp, hb_p0, hb_p00]) (by norm_num)
    (by norm_num) (by norm_num) (by norm_num) (by norm_num) (by norm_num) rfl]
  rw [splice ((((((((([] ++ List.replicate 0 ' ' ++ (pystr "1")) ++ List.replicate 1 ' ' ++ f05) ++ List.replicate 0 ' ' ++ cls) ++ List.replicate 1 ' ' ++ intl) ++ List.replicate 3 ' ' ++ yr) ++ List.replicate 0 ' ' ++ ep) ++ List.replicate 1 ' ' ++ nd) ++ List.replicate 2 ' ' ++ (pystr "00000-0")) ++ List.replicate 1 ' ' ++ [sgnc]) mant 54 59 54 0 15 10 (by simp only [List.length_append, List.length_replicate, List.length_nil, List.length_cons, h05, hcls, hintl, hyr, hep, hnd, hmant, hex, heln, hb_p1, hb_p1s, hb_p2, hb_p2s, hb_ps, hb_p3s, hb_pm, hb_pp, hb_p0, hb_p00]) (by norm_num)
    (by norm_num) (by norm_num) (by norm_num) (by norm_num) (by norm_num) (by rw [hmant])]
  rw [splice (((((((((([] ++ List.replicate 0 ' ' ++ (pystr "1")) ++ List.replicate 1 ' ' ++ f05) ++ List.replicate 0 ' ' ++ cls) ++ List.replicate 1 ' ' ++ intl) ++ List.replicate 3 ' ' ++ yr) ++ List.replicate 0 ' ' ++ ep) ++ List.replicate 1 ' ' ++ nd) ++ List.replicate 2 ' ' ++ (pystr "00000-0")) ++ List.replicate 1 ' ' ++ [sgnc]) ++ List.replicate 0 ' ' ++ mant) ex 59 61 59 0 10 8 (by simp only [List.length_append, List.length_replicate, List.length_nil, List.length_cons, h05, hcls, hintl, hyr, hep, hnd, hmant, hex, heln, hb_p1, hb_p1s, hb_p2, hb_p2s, hb_ps, hb_p3s, hb_pm, hb_pp, hb_p0, hb_p00]) (by norm_num)
    (by norm_num) (by norm_num) (by norm_num) (by norm_num) (by norm_num) (by rw [hex])]
  rw [splice ((((((((((([] ++ List.replicate 0 ' ' ++ (pystr "1")) ++ List.replicate 1 ' ' ++ f05) ++ List.replicate 0 ' ' ++ cls) ++ List.replicate 1 ' ' ++ intl) ++ List.replicate 3 ' ' ++ yr) ++ List.replicate 0 ' ' ++ ep) ++ List.replicate 1 ' ' ++ nd) ++ List.replicate 2 ' ' ++ (pystr "00000-0")) ++ List.replicate 1 ' ' ++ [sgnc]) ++ List.replicate 0 ' ' ++ mant) ++ List.replicate 0 ' ' ++ ex) (pystr "0") 62 63 61 1 8 6 (by simp only [List.length_append, List.length_replicate, List.length_nil, List.length_cons, h05, hcls, hintl, hyr, hep, hnd, hmant, hex, heln, hb_p1, hb_p1s, hb_p2, hb_p2s, hb_ps, hb_p3s, hb_pm, hb_pp, hb_p0, hb_p00]) (by norm_num)
    (by norm_num) (by norm_num) (by norm_num) (by norm_num) (by norm_num) rfl]
  rw [splice (((((((((((([] ++ List.replicate 0 ' ' ++ (pystr "1")) ++ List.replicate 1 ' ' ++ f05) ++ List.replicate 0 ' ' ++ cls) ++ List.replicate 1 ' ' ++ intl) ++ List.replicate 3 ' ' ++ yr) ++ List.replicate 0 ' ' ++ ep) ++ List.replicate 1 ' ' ++ nd) ++ List.replicate 2 ' ' ++ (pystr "00000-0")) ++ List.replicate 1 ' ' ++ [sgnc]) ++ List.replicate 0 ' ' ++ mant) ++ List.replicate 0 ' ' ++ ex) ++ List.replicate 1 ' ' ++ (pystr "0")) eln 64 68 63 1 6 1 (by simp only [List.length_append, List.length_replicate, List.length_nil, List.length_cons, h05, hcls, hintl, hyr, hep, hnd, hmant, hex, heln, hb_p1, hb_p1s, hb_p2, hb_p2s, hb_ps, hb_p3s, hb_pm, hb_pp, hb_p0, hb_p00]) (by norm_num)
    (by norm_num) (by norm_num) (by norm_num) (by norm_num) (by norm_num) (by rw [heln])]
  simp only [hb_r0, hb_r1, hb_r2, hb_r3, hb_p1, hb_p1s, hb_p2, hb_p2s, hb_ps, hb_p3s, hb_pm, hb_pp, hb_p0, hb_p00, List.append_assoc, List.cons_append,
    List.nil_append, List.append_nil, List.singleton_append]

/-- Assembling line 1 of the formatter, zero-drag shape. -/
theorem build1z (f05 cls intl yr ep nd eln : PyStr)
    (h05 : f05.length = 5) (hcls : cls.length = 1) (hintl : intl.length = 6)
    (hyr : yr.length = 2) (hep : ep.length = 12) (hnd : nd.length = 10)
    (heln : eln.length = 4) :
    (setSl (setSl (setSl (setSl (setSl (setSl (setSl (setSl (setSl (setSl (setSl (List.replicate 69 ' ') 0 1 (pystr "1")) 2 7 f05) 7 8 cls) 9 15 intl) 18 20 yr) 20 32 ep) 33 43 nd) 45 52 (pystr "00000-0")) 54 61 (pystr "00000+0")) 62 63 (pystr "0")) 64 68 eln) =
      (pystr "1 " ++ f05 ++ cls ++ pystr " " ++ intl ++ pystr "   " ++ yr ++ ep ++
        pystr " " ++ nd ++ pystr " " ++ (' ' :: pystr "00000-0") ++ pystr " " ++
        (' ' :: pystr "00000+0") ++ pystr " 0 " ++ eln) ++ List.replicate 1 ' ' := by
  have hb_r0 : (List.replicate 0 ' ' : PyStr) = [] := rfl
  have hb_r1 : (List.replicate 1 ' ' : PyStr) = [' '] := rfl
  have hb_r2 : (List.replicate 2 ' ' : PyStr) = [' ', ' '] := rfl
  have hb_r3 : (List.replicate 3 ' ' : PyStr) = [' ', ' ', ' '] := rfl
  have hb_p1 : pystr "1" = ['1'] := rfl
  have hb_p1s : pystr "1 " = ['1', ' '] := rfl
  have hb_p2 : pystr "2" = ['2'] := rfl
  have hb_p2s : pystr "2 " = ['2', ' '] := rfl
  have hb_ps : pystr " " = [' '] := rfl
  have hb_p3s : pystr "   " = [' ', ' ', ' '] := rfl
  have hb_pm : pystr "00000-0" = ['0', '0', '0', '0', '0', '-', '0'] := rfl
  have hb_pp : pystr "00000+0" = ['0', '0', '0', '0', '0', '+', '0'] := rfl
  have hb_p0 : pystr "0" = ['0'] := rfl
  have hb_p00 : pystr " 0 " = [' ', '0', ' '] := rfl
  rw [show (List.replicate 69 ' ' : PyStr) = [] ++ List.replicate 69 ' ' from rfl]
  rw [splice [] (pystr "1") 0 1 0 0 69 68 rfl (by norm_num)
    (by norm_num) (by norm_num) (by norm_num) (by norm_num) (by norm_num) rfl]
  rw [splice ([] ++ List.replicate 0 ' ' ++ (pystr "1")) f05 2 7 1 1 68 62 (by simp only [List.length_append, List.length_replicate, List.length_nil, List.length_cons, h05, hcls, hintl, hyr, hep, hnd, heln, hb_p1, hb_p1s, hb_p2, hb_p2s, hb_ps, hb_p3s, hb_pm, hb_pp, hb_p0, hb_p00]) (by norm_num)
    (by norm_num) (by norm_num) (by norm_num) (by norm_num) (by norm_num) (by rw [h05])]
  rw [splice (([] ++ List.replicate 0 ' ' ++ (pystr "1")) ++ List.replicate 1 ' ' ++ f05) cls 7 8 7 0 62 61 (by simp only [List.length_append, List.length_replicate, List.length_nil, List.length_cons, h05, hcls, hintl, hyr, hep, hnd, heln, hb_p1, hb_p1s, hb_p2, hb_p2s, hb_ps, hb_p3s, hb_pm, hb_pp, hb_p0, hb_p00]) (by norm_num)
    (by norm_num) (by norm_num) (by norm_num) (by norm_num) (by norm_num) (by rw [hcls])]
  rw [splice ((([] ++ List.replicate 0 ' ' ++ (pystr "1")) ++ List.replicate 1 ' ' ++ f05) ++ List.replicate 0 ' ' ++ cls) intl 9 15 8 1 61 54 (by simp only [List.length_append, List.length_replicate, List.length_nil, List.length_cons, h05, hcls, hintl, hyr, hep, hnd, heln, hb_p1, hb_p1s, hb_p2, hb_p2s, hb_ps, hb_p3s, hb_pm, hb_pp, hb_p0, hb_p00]) (by norm_num)
    (by norm_num) (by norm_num) (by norm_num) (by norm_num) (by norm_num) (by rw [hintl])]
  rw [splice (((([] ++ List.replicate 0 ' ' ++ (pystr "1")) ++ List.replicate 1 ' ' ++ f05) ++ List.replicate 0 ' ' ++ cls) ++ List.replicate 1 ' ' ++ intl) yr 18 20 15 3 54 49 (by simp only [List.length_append, List.length_replicate, List.length_nil, List.length_cons, h05, hcls, hintl, hyr, hep, hnd, heln, hb_p1, hb_p1s, hb_p2, hb_p2s, hb_ps, hb_p3s, hb_pm, hb_pp, hb_p0, hb_p00]) (by norm_num)
    (by norm_num) (by norm_num) (by norm_num) (by norm_num) (by norm_num) (by rw [hyr])]
  rw [splice ((((([] ++ List.replicate 0 ' ' ++ (pystr "1")) ++ List.replicate 1 ' ' ++ f05) ++ List.replicate 0 ' ' ++ cls) ++ List.replicate 1 ' ' ++ intl) ++ List.replicate 3 ' ' ++ yr) ep 20 32 20 0 49 37 (by simp only [List.length_append, List.length_replicate, List.length_nil, List.length_cons, h05, hcls, hintl, hyr, hep, hnd, heln, hb_p1, hb_p1s, hb_p2, hb_p2s, hb_ps, hb_p3s, hb_pm, hb_pp, hb_p0, hb_p00]) (by norm_num)
    (by norm_num) (by norm_num) (by norm_num) (by norm_num) (by norm_num) (by rw [hep])]
  rw [splice (((((([] ++ List.replicate 0 ' ' ++ (pystr "1")) ++ List.replicate 1 ' ' ++ f05) ++ List.replicate 0 ' ' ++ cls) ++ List.replicate 1 ' ' ++ intl) ++ List.replicate 3 ' ' ++ yr) ++ List.replicate 0 ' ' ++ ep) nd 33 43 32 1 37 26 (by simp only [List.length_append, List.length_replicate, List.length_nil, List.length_cons, h05, hcls, hintl, hyr, hep, hnd, heln, hb_p1, hb_p1s, hb_p2, hb_p2s, hb_ps, hb_p3s, hb_pm, hb_pp, hb_p0, hb_p00]) (by norm_num)
    (by norm_num) (by norm_num) (by norm_num) (by norm_num) (by norm_num) (by rw [hnd])]
  rw [splice ((((((([] ++ List.replicate 0 ' ' ++ (pystr "1")) ++ List.replicate 1 ' ' ++ f05) ++ List.replicate 0 ' ' ++ cls) ++ List.replicate 1 ' ' ++ intl) ++ List.replicate 3 ' ' ++ yr) ++ List.replicate 0 ' ' ++ ep) ++ List.replicate 1 ' ' ++ nd) (pystr "00000-0") 45 52 43 2 26 17 (by simp only [List.length_append, List.length_replicate, List.length_nil, List.length_cons, h05, hcls, hintl, hyr, hep, hnd, heln, hb_p1, hb_p1s, hb_p2, hb_p2s, hb_ps, hb_p3s, hb_pm, hb_pp, hb_p0, hb_p00]) (by norm_num)
    (by norm_num) (by norm_num) (by norm_num) (by norm_num) (by norm_num) rfl]
  rw [splice (((((((([] ++ List.replicate 0 ' ' ++ (pystr "1")) ++ List.replicate 1 ' ' ++ f05) ++ List.replicate 0 ' ' ++ cls) ++ List.replicate 1 ' ' ++ intl) ++ List.replicate 3 ' ' ++ yr) ++ List.replicate 0 ' ' ++ ep) ++ List.replicate 1 ' ' ++ nd) ++ List.replicate 2 ' ' ++ (pystr "00000-0")) (pystr "00000+0") 54 61 52 2 17 8 (by simp only [List.length_append, List.length_replicate, List.length_nil, List.length_cons, h05, hcls, hintl, hyr, hep, hnd, heln, hb_p1, hb_p1s, hb_p2, hb_p2s, hb_ps, hb_p3s, hb_pm, hb_pp, hb_p0, hb_p00]) (by norm_num)
    (by norm_num) (by norm_num) (by norm_num) (by norm_num) (by norm_num) rfl]
  rw [splice ((((((((([] ++ List.replicate 0 ' ' ++ (pystr "1")) ++ List.replicate 1 ' ' ++ f05) ++ List.replicate 0 ' ' ++ cls) ++ List.replicate 1 ' ' ++ intl) ++ List.replicate 3 ' ' ++ yr) ++ List.replicate 0 ' ' ++ ep) ++ List.replicate 1 ' ' ++ nd) ++ List.replicate 2 ' ' ++ (pystr "00000-0")) ++ List.replicate 2 ' ' ++ (pystr "00000+0")) (pystr "0") 62 63 61 1 8 6 (by simp only [List.length_append, List.length_replicate, List.length_nil, List.length_cons, h05, hcls, hintl, hyr, hep, hnd, heln, hb_p1, hb_p1s, hb_p2, hb_p2s, hb_ps, hb_p3s, hb_pm, hb_pp, hb_p0, hb_p00]) (by norm_num)
    (by norm_num) (by norm_num) (by norm_num) (by norm_num) (by norm_num) rfl]
  rw [splice (((((((((([] ++ List.replicate 0 ' ' ++ (pystr "1")) ++ List.replicate 1 ' ' ++ f05) ++ List.replicate 0 ' ' ++ cls) ++ List.replicate 1 ' ' ++ intl) ++ List.replicate 3 ' ' ++ yr) ++ List.replicate 0 ' ' ++ ep) ++ List.replicate 1 ' ' ++ nd) ++ List.replicate 2 ' ' ++ (pystr "00000-0")) ++ List.replicate 2 ' ' ++ (pystr "00000+0")) ++ List.replicate 1 ' ' ++ (pystr "0")) eln 64 68 63 1 6 1 (by simp only [List.length_append, List.length_replicate, List.length_nil, List.length_cons, h05, hcls, hintl, hyr, hep, hnd, heln, hb_p1, hb_p1s, hb_p2, hb_p2s, hb_ps, hb_p3s, hb_pm, hb_pp, hb_p0, hb_p00]) (by norm_num)
    (by norm_num) (by norm_num) (by norm_num) (by norm_num) (by norm_num) (by rw [heln])]
  simp only [hb_r0, hb_r1, hb_r2, hb_r3, hb_p1, hb_p1s, hb_p2, hb_p2s, hb_ps, hb_p3s, hb_pm, hb_pp, hb_p0, hb_p00, List.append_assoc, List.cons_append,
    List.nil_append, List.append_nil, List.singleton_append]

/-- Assembling line 2 of the formatter: inclination branch with a
8-character inclination rendering. -/
theorem build2a (f05 incl node ecc argp mo nkoz rev : PyStr)
    (h05 : f05.length = 5) (hincl : incl.length = 8) (hnode : node.length = 8)
    (hecc : ecc.length = 7) (hargp : argp.length = 8) (hmo : mo.length = 8)
    (hnkoz : nkoz.length = 11) (hrev : rev.length = 5) :
    (setSl (setSl (setSl (setSl (setSl (setSl (setSl (setSl (setSl (List.replicate 69 ' ') 0 1 (pystr "2")) 2 7 f05) 8 16 incl) 17 25 node) 26 33 ecc) 34 42 argp) 43 51 mo) 52 63 nkoz) 63 68 rev) =
      (pystr "2 " ++ f05 ++ pystr " " ++ incl ++ pystr " " ++ node ++ pystr " " ++
        ecc ++ pystr " " ++ argp ++ pystr " " ++ mo ++ pystr " " ++ nkoz ++ rev) ++
      List.replicate 1 ' ' := by
  have hb_r0 : (List.replicate 0 ' ' : PyStr) = [] := rfl
  have hb_r1 : (List.replicate 1 ' ' : PyStr) = [' '] := rfl
  have hb_r2 : (List.replicate 2 ' ' : PyStr) = [' ', ' '] := rfl
  have hb_r3 : (List.replicate 3 ' ' : PyStr) = [' ', ' ', ' '] := rfl
  have hb_p1 : pystr "1" = ['1'] := rfl
  have hb_p1s : pystr "1 " = ['1', ' '] := rfl
  have hb_p2 : pystr "2" = ['2'] := rfl
  have hb_p2s : pystr "2 " = ['2', ' '] := rfl
  have hb_ps : pystr " " = [' '] := rfl
  have hb_p3s : pystr "   " = [' ', ' ', ' '] := rfl
  have hb_pm : pystr "00000-0" = ['0', '0', '0', '0', '0', '-', '0'] := rfl
  have hb_pp : pystr "00000+0" = ['0', '0', '0', '0', '0', '+', '0'] := rfl
  have hb_p0 : pystr "0" = ['0'] := rfl
  have hb_p00 : pystr " 0 " = [' ', '0', ' '] := rfl
  rw [show (List.replicate 69 ' ' : PyStr) = [] ++ List.replicate 69 ' ' from rfl]
  rw [splice [] (pystr "2") 0 1 0 0 69 68 rfl (by norm_num)
    (by norm_num) (by norm_num) (by norm_num) (by norm_num) (by norm_num) rfl]
  rw [splice ([] ++ List.replicate 0 ' ' ++ (pystr "2")) f05 2 7 1 1 68 62 (by simp only [List.length_append, List.length_replicate, List.length_nil, List.length_cons, h05, hincl, hnode, hecc, hargp, hmo, hnkoz, hrev, hb_p1, hb_p1s, hb_p2, hb_p2s, hb_ps, hb_p3s, hb_pm, hb_pp, hb_p0, hb_p00]) (by norm_num)
    (by norm_num) (by norm_num) (by norm_num) (by norm_num) (by norm_num) (by rw [h05])]
  rw [splice (([] ++ List.replicate 0 ' ' ++ (pystr "2")) ++ List.replicate 1 ' ' ++ f05) incl 8 16 7 1 62 53 (by simp only [List.length_append, List.length_replicate, List.length_nil, List.length_cons, h05, hincl, hnode, hecc, hargp, hmo, hnkoz, hrev, hb_p1, hb_p1s, hb_p2, hb_p2s, hb_ps, hb_p3s, hb_pm, hb_pp, hb_p0, hb_p00]) (by norm_num)
    (by norm_num) (by norm_num) (by norm_num) (by norm_num) (by norm_num) (by rw [hincl])]
  rw [splice ((([] ++ List.replicate 0 ' ' ++ (pystr "2")) ++ List.replicate 1 ' ' ++ f05) ++ List.replicate 1 ' ' ++ incl) node 17 25 16 1 53 44 (by simp only [List.length_append, List.length_replicate, List.length_nil, List.length_cons, h05, hincl, hnode, hecc, hargp, hmo, hnkoz, hrev, hb_p1, hb_p1s, hb_p2, hb_p2s, hb_ps, hb_p3s, hb_pm, hb_pp, hb_p0, hb_p00]) (by norm_num)
    (by norm_num) (by norm_num) (by norm_num) (by norm_num) (by norm_num) (by rw [hnode])]
  rw [splice (((([] ++ List.replicate 0 ' ' ++ (pystr "2")) ++ List.replicate 1 ' ' ++ f05) ++ List.replicate 1 ' ' ++ incl) ++ List.replicate 1 ' ' ++ node) ecc 26 33 25 1 44 36 (by simp only [List.length_append, List.length_replicate, List.length_nil, List.length_cons, h05, hincl, hnode, hecc, hargp, hmo, hnkoz, hrev, hb_p1, hb_p1s, hb_p2, hb_p2s, hb_ps, hb_p3s, hb_pm, hb_pp, hb_p0, hb_p00]) (by norm_num)
    (by norm_num) (by norm_num) (by norm_num) (by norm_num) (by norm_num) (by rw [hecc])]
  rw [splice ((((([] ++ List.replicate 0 ' ' ++ (pystr "2")) ++ List.replicate 1 ' ' ++ f05) ++ List.replicate 1 ' ' ++ incl) ++ List.replicate 1 ' ' ++ node) ++ List.replicate 1 ' ' ++ ecc) argp 34 42 33 1 36 27 (by simp only [List.length_append, List.length_replicate, List.length_nil, List.length_cons, h05, hincl, hnode, hecc, hargp, hmo, hnkoz, hrev, hb_p1, hb_p1s, hb_p2, hb_p2s, hb_ps, hb_p3s, hb_pm, hb_pp, hb_p0, hb_p00]) (by norm_num)
    (by norm_num) (by norm_num) (by norm_num) (by norm_num) (by norm_num) (by rw [hargp])]
  rw [splice (((((([] ++ List.replicate 0 ' ' ++ (pystr "2")) ++ List.replicate 1 ' ' ++ f05) ++ List.replicate 1 ' ' ++ incl) ++ List.replicate 1 ' ' ++ node) ++ List.replicate 1 ' ' ++ ecc) ++ List.replicate 1 ' ' ++ argp) mo 43 51 42 1 27 18 (by simp only [List.length_append, List.length_replicate, List.length_nil, List.length_cons, h05, hincl, hnode, hecc, hargp, hmo, hnkoz, hrev, hb_p1, hb_p1s, hb_p2, hb_p2s, hb_ps, hb_p3s, hb_pm, hb_pp, hb_p0, hb_p00]) (by norm_num)
    (by norm_num) (by norm_num) (by norm_num) (by norm_num) (by norm_num) (by rw [hmo])]
  rw [splice ((((((([] ++ List.replicate 0 ' ' ++ (pystr "2")) ++ List.replicate 1 ' ' ++ f05) ++ List.replicate 1 ' ' ++ incl) ++ List.replicate 1 ' ' ++ node) ++ List.replicate 1 ' ' ++ ecc) ++ List.replicate 1 ' ' ++ argp) ++ List.replicate 1 ' ' ++ mo) nkoz 52 63 51 1 18 6 (by simp only [List.length_append, List.length_replicate, List.length_nil, List.length_cons, h05, hincl, hnode, hecc, hargp, hmo, hnkoz, hrev, hb_p1, hb_p1s, hb_p2, hb_p2s, hb_ps, hb_p3s, hb_pm, hb_pp, hb_p0, hb_p00]) (by norm_num)
    (by norm_num) (by norm_num) (by norm_num) (by norm_num) (by norm_num) (by rw [hnkoz])]
  rw [splice (((((((([] ++ List.replicate 0 ' ' ++ (pystr "2")) ++ List.replicate 1 ' ' ++ f05) ++ List.replicate 1 ' ' ++ incl) ++ List.replicate 1 ' ' ++ node) ++ List.replicate 1 ' ' ++ ecc) ++ List.replicate 1 ' ' ++ argp) ++ List.replicate 1 ' ' ++ mo) ++ List.replicate 1 ' ' ++ nkoz) rev 63 68 63 0 6 1 (by simp only [List.length_append, List.length_replicate, List.length_nil, List.length_cons, h05, hincl, hnode, hecc, hargp, hmo, hnkoz, hrev, hb_p1, hb_p1s, hb_p2, hb_p2s, hb_ps, hb_p3s, hb_pm, hb_pp, hb_p0, hb_p00]) (by norm_num)
    (by norm_num) (by norm_num) (by norm_num) (by norm_num) (by norm_num) (by rw [hrev])]
  simp only [hb_r0, hb_r1, hb_r2, hb_r3, hb_p1, hb_p1s, hb_p2, hb_p2s, hb_ps, hb_p3s, hb_pm, hb_pp, hb_p0, hb_p00, List.append_assoc, List.cons_append,
    List.nil_append, List.append_nil, List.singleton_append]

/-- Assembling line 2 of the formatter: inclination branch with a
7-character inclination rendering. -/
theorem build2b (f05 incl node ecc argp mo nkoz rev : PyStr)
    (h05 : f05.length = 5) (hincl : incl.length = 7) (hnode : node.length = 8)
    (hecc : ecc.length = 7) (hargp : argp.length = 8) (hmo : mo.length = 8)
    (hnkoz : nkoz.length = 11) (hrev : rev.length = 5) :
    (setSl (setSl (setSl (setSl (setSl (setSl (setSl (setSl (setSl (List.replicate 69 ' ') 0 1 (pystr "2")) 2 7 f05) 9 16 incl) 17 25 node) 26 33 ecc) 34 42 argp) 43 51 mo) 52 63 nkoz) 63 68 rev) =
      (pystr "2 " ++ f05 ++ pystr " " ++ (' ' :: incl) ++ pystr " " ++ node ++ pystr " " ++
        ecc ++ pystr " " ++ argp ++ pystr " " ++ mo ++ pystr " " ++ nkoz ++ rev) ++
      List.replicate 1 ' ' := by
  have hb_r0 : (List.replicate 0 ' ' : PyStr) = [] := rfl
  have hb_r1 : (List.replicate 1 ' ' : PyStr) = [' '] := rfl
  have hb_r2 : (List.replicate 2 ' ' : PyStr) = [' ', ' '] := rfl
  have hb_r3 : (List.replicate 3 ' ' : PyStr) = [' ', ' ', ' '] := rfl
  have hb_p1 : pystr "1" = ['1'] := rfl
  have hb_p1s : pystr "1 " = ['1', ' '] := rfl
  have hb_p2 : pystr "2" = ['2'] := rfl
  have hb_p2s : pystr "2 " = ['2', ' '] := rfl
  have hb_ps : pystr " " = [' '] := rfl
  have hb_p3s : pystr "   " = [' ', ' ', ' '] := rfl
  have hb_pm : pystr "00000-0" = ['0', '0', '0', '0', '0', '-', '0'] := rfl
  have hb_pp : pystr "00000+0" = ['0', '0', '0', '0', '0', '+', '0'] := rfl
  have hb_p0 : pystr "0" = ['0'] := rfl
  have hb_p00 : pystr " 0 " = [' ', '0', ' '] := rfl
  rw [show (List.replicate 69 ' ' : PyStr) = [] ++ List.replicate 69 ' ' from rfl]
  rw [splice [] (pystr "2") 0 1 0 0 69 68 rfl (by norm_num)
    (by norm_num) (by norm_num) (by norm_num) (by norm_num) (by norm_num) rfl]
  rw [splice ([] ++ List.replicate 0 ' ' ++ (pystr "2")) f05 2 7 1 1 68 62 (by simp only [List.length_append, List.length_replicate, List.length_nil, List.length_cons, h05, hincl, hnode, hecc, hargp, hmo, hnkoz, hrev, hb_p1, hb_p1s, hb_p2, hb_p2s, hb_ps, hb_p3s, hb_pm, hb_pp, hb_p0, hb_p00]) (by norm_num)
    (by norm_num) (by norm_num) (by norm_num) (by norm_num) (by norm_num) (by rw [h05])]
  rw [splice (([] ++ List.replicate 0 ' ' ++ (pystr "2")) ++ List.replicate 1 ' ' ++ f05) incl 9 16 7 2 62 53 (by simp only [List.length_append, List.length_replicate, List.length_nil, List.length_cons, h05, hincl, hnode, hecc, hargp, hmo, hnkoz, hrev, hb_p1, hb_p1s, hb_p2, hb_p2s, hb_ps, hb_p3s, hb_pm, hb_pp, hb_p0, hb_p00]) (by norm_num)
    (by norm_num) (by norm_num) (by norm_num) (by norm_num) (by norm_num) (by rw [hincl])]
  rw [splice ((([] ++ List.replicate 0 ' ' ++ (pystr "2")) ++ List.replicate 1 ' ' ++ f05) ++ List.replicate 2 ' ' ++ incl) node 17 25 16 1 53 44 (by simp only [List.length_append, List.length_replicate, List.length_nil, List.length_cons, h05, hincl, hnode, hecc, hargp, hmo, hnkoz, hrev, hb_p1, hb_p1s, hb_p2, hb_p2s, hb_ps, hb_p3s, hb_pm, hb_pp, hb_p0, hb_p00]) (by norm_num)
    (by norm_num) (by norm_num) (by norm_num) (by norm_num) (by norm_num) (by rw [hnode])]
  rw [splice (((([] ++ List.replicate 0 ' ' ++ (pystr "2")) ++ List.replicate 1 ' ' ++ f05) ++ List.replicate 2 ' ' ++ incl) ++ List.replicate 1 ' ' ++ node) ecc 26 33 25 1 44 36 (by simp only [List.length_append, List.length_replicate, List.length_nil, List.length_cons, h05, hincl, hnode, hecc, hargp, hmo, hnkoz, hrev, hb_p1, hb_p1s, hb_p2, hb_p2s, hb_ps, hb_p3s, hb_pm, hb_pp, hb_p0, hb_p00]) (by norm_num)
    (by norm_num) (by norm_num) (by norm_num) (by norm_num) (by norm_num) (by rw [hecc])]
  rw [splice ((((([] ++ List.replicate 0 ' ' ++ (pystr "2")) ++ List.replicate 1 ' ' ++ f05) ++ List.replicate 2 ' ' ++ incl) ++ List.replicate 1 ' ' ++ node) ++ List.replicate 1 ' ' ++ ecc) argp 34 42 33 1 36 27 (by simp only [List.length_append, List.length_replicate, List.length_nil, List.length_cons, h05, hincl, hnode, hecc, hargp, hmo, hnkoz, hrev, hb_p1, hb_p1s, hb_p2, hb_p2s, hb_ps, hb_p3s, hb_pm, hb_pp, hb_p0, hb_p00]) (by norm_num)
    (by norm_num) (by norm_num) (by norm_num) (by norm_num) (by norm_num) (by rw [hargp])]
  rw [splice (((((([] ++ List.replicate 0 ' ' ++ (pystr "2")) ++ List.replicate 1 ' ' ++ f05) ++ List.replicate 2 ' ' ++ incl) ++ List.replicate 1 ' ' ++ node) ++ List.replicate 1 ' ' ++ ecc) ++ List.replicate 1 ' ' ++ argp) mo 43 51 42 1 27 18 (by simp only [List.length_append, List.length_replicate, List.length_nil, List.length_cons, h05, hincl, hnode, hecc, hargp, hmo, hnkoz, hrev, hb_p1, hb_p1s, hb_p2, hb_p2s, hb_ps, hb_p3s, hb_pm, hb_pp, hb_p0, hb_p00]) (by norm_num)
    (by norm_num) (by norm_num) (by norm_num) (by norm_num) (by norm_num) (by rw [hmo])]
  rw [splice ((((((([] ++ List.replicate 0 ' ' ++ (pystr "2")) ++ List.replicate 1 ' ' ++ f05) ++ List.replicate 2 ' ' ++ incl) ++ List.replicate 1 ' ' ++ node) ++ List.replicate 1 ' ' ++ ecc) ++ List.replicate 1 ' ' ++ argp) ++ List.replicate 1 ' ' ++ mo) nkoz 52 63 51 1 18 6 (by simp only [List.length_append, List.length_replicate, List.length_nil, List.length_cons, h05, hincl, hnode, hecc, hargp, hmo, hnkoz, hrev, hb_p1, hb_p1s, hb_p2, hb_p2s, hb_ps, hb_p3s, hb_pm, hb_pp, hb_p0, hb_p00]) (by norm_num)
    (by norm_num) (by norm_num) (by norm_num) (by norm_num) (by norm_num) (by rw [hnkoz])]
  rw [splice (((((((([] ++ List.replicate 0 ' ' ++ (pystr "2")) ++ List.replicate 1 ' ' ++ f05) ++ List.replicate 2 ' ' ++ incl) ++ List.replicate 1 ' ' ++ node) ++ List.replicate 1 ' ' ++ ecc) ++ List.replicate 1 ' ' ++ argp) ++ List.replicate 1 ' ' ++ mo) ++ List.replicate 1 ' ' ++ nkoz) rev 63 68 63 0 6 1 (by simp only [List.length_append, List.length_replicate, List.length_nil, List.length_cons, h05, hincl, hnode, hecc, hargp, hmo, hnkoz, hrev, hb_p1, hb_p1s, hb_p2, hb_p2s, hb_ps, hb_p3s, hb_pm, hb_pp, hb_p0, hb_p00]) (by norm_num)
    (by norm_num) (by norm_num) (by norm_num) (by norm_num) (by norm_num) (by rw [hrev])]
  simp only [hb_r0, hb_r1, hb_r2, hb_r3, hb_p1, hb_p1s, hb_p2, hb_p2s, hb_ps, hb_p3s, hb_pm, hb_pp, hb_p0, hb_p00, List.append_assoc, List.cons_append,
    List.nil_append, List.append_nil, List.singleton_append]

/-- Assembling line 2 of the formatter: inclination branch with a
6-character inclination rendering. -/
theorem build2c (f05 incl node ecc argp mo nkoz rev : PyStr)
    (h05 : f05.length = 5) (hincl : incl.length = 6) (hnode : node.length = 8)
    (hecc : ecc.length = 7) (hargp : argp.length = 8) (hmo : mo.length = 8)
    (hnkoz : nkoz.length = 11) (hrev : rev.length = 5) :
    (setSl (setSl (setSl (setSl (setSl (setSl (setSl (setSl (setSl (List.replicate 69 ' ') 0 1 (pystr "2")) 2 7 f05) 10 16 incl) 17 25 node) 26 33 ecc) 34 42 argp) 43 51 mo) 52 63 nkoz) 63 68 rev) =
      (pystr "2 " ++ f05 ++ pystr " " ++ (' ' :: ' ' :: incl) ++ pystr " " ++ node ++ pystr " " ++
        ecc ++ pystr " " ++ argp ++ pystr " " ++ mo ++ pystr " " ++ nkoz ++ rev) ++
      List.replicate 1 ' ' := by
  have hb_r0 : (List.replicate 0 ' ' : PyStr) = [] := rfl
  have hb_r1 : (List.replicate 1 ' ' : PyStr) = [' '] := rfl
  have hb_r2 : (List.replicate 2 ' ' : PyStr) = [' ', ' '] := rfl
  have hb_r3 : (List.replicate 3 ' ' : PyStr) = [' ', ' ', ' '] := rfl
  have hb_p1 : pystr "1" = ['1'] := rfl
  have hb_p1s : pystr "1 " = ['1', ' '] := rfl
  have hb_p2 : pystr "2" = ['2'] := rfl
  have hb_p2s : pystr "2 " = ['2', ' '] := rfl
  have hb_ps : pystr " " = [' '] := rfl
  have hb_p3s : pystr "   " = [' ', ' ', ' '] := rfl
  have hb_pm : pystr "00000-0" = ['0', '0', '0', '0', '0', '-', '0'] := rfl
  have hb_pp : pystr "00000+0" = ['0', '0', '0', '0', '0', '+', '0'] := rfl
  have hb_p0 : pystr "0" = ['0'] := rfl
  have hb_p00 : pystr " 0 " = [' ', '0', ' '] := rfl
  rw [show (List.replicate 69 ' ' : PyStr) = [] ++ List.replicate 69 ' ' from rfl]
  rw [splice [] (pystr "2") 0 1 0 0 69 68 rfl (by norm_num)
    (by norm_num) (by norm_num) (by norm_num) (by norm_num) (by norm_num) rfl]
  rw [splice ([] ++ List.replicate 0 ' ' ++ (pystr "2")) f05 2 7 1 1 68 62 (by simp only [List.length_append, List.length_replicate, List.length_nil, List.length_cons, h05, hincl, hnode, hecc, hargp, hmo, hnkoz, hrev, hb_p1, hb_p1s, hb_p2, hb_p2s, hb_ps, hb_p3s, hb_pm, hb_pp, hb_p0, hb_p00]) (by norm_num)
    (by norm_num) (by norm_num) (by norm_num) (by norm_num) (by norm_num) (by rw [h05])]
  rw [splice (([] ++ List.replicate 0 ' ' ++ (pystr "2")) ++ List.replicate 1 ' ' ++ f05) incl 10 16 7 3 62 53 (by simp only [List.length_append, List.length_replicate, List.length_nil, List.length_cons, h05, hincl, hnode, hecc, hargp, hmo, hnkoz, hrev, hb_p1, hb_p1s, hb_p2, hb_p2s, hb_ps, hb_p3s, hb_pm, hb_pp, hb_p0, hb_p00]) (by norm_num)
    (by norm_num) (by norm_num) (by norm_num) (by norm_num) (by norm_num) (by rw [hincl])]
  rw [splice ((([] ++ List.replicate 0 ' ' ++ (pystr "2")) ++ List.replicate 1 ' ' ++ f05) ++ List.replicate 3 ' ' ++ incl) node 17 25 16 1 53 44 (by simp only [List.length_append, List.length_replicate, List.length_nil, List.length_cons, h05, hincl, hnode, hecc, hargp, hmo, hnkoz, hrev, hb_p1, hb_p1s, hb_p2, hb_p2s, hb_ps, hb_p3s, hb_pm, hb_pp, hb_p0, hb_p00]) (by norm_num)
    (by norm_num) (by norm_num) (by norm_num) (by norm_num) (by norm_num) (by rw [hnode])]
  rw [splice (((([] ++ List.replicate 0 ' ' ++ (pystr "2")) ++ List.replicate 1 ' ' ++ f05) ++ List.replicate 3 ' ' ++ incl) ++ List.replicate 1 ' ' ++ node) ecc 26 33 25 1 44 36 (by simp only [List.length_append, List.length_replicate, List.length_nil, List.length_cons, h05, hincl, hnode, hecc, hargp, hmo, hnkoz, hrev, hb_p1, hb_p1s, hb_p2, hb_p2s, hb_ps, hb_p3s, hb_pm, hb_pp, hb_p0, hb_p00]) (by norm_num)
    (by norm_num) (by norm_num) (by norm_num) (by norm_num) (by norm_num) (by rw [hecc])]
  rw [splice ((((([] ++ List.replicate 0 ' ' ++ (pystr "2")) ++ List.replicate 1 ' ' ++ f05) ++ List.replicate 3 ' ' ++ incl) ++ List.replicate 1 ' ' ++ node) ++ List.replicate 1 ' ' ++ ecc) argp 34 42 33 1 36 27 (by simp only [List.length_append, List.length_replicate, List.length_nil, List.length_cons, h05, hincl, hnode, hecc, hargp, hmo, hnkoz, hrev, hb_p1, hb_p1s, hb_p2, hb_p2s, hb_ps, hb_p3s, hb_pm, hb_pp, hb_p0, hb_p00]) (by norm_num)
    (by norm_num) (by norm_num) (by norm_num) (by norm_num) (by norm_num) (by rw [hargp])]
  rw [splice (((((([] ++ List.replicate 0 ' ' ++ (pystr "2")) ++ List.replicate 1 ' ' ++ f05) ++ List.replicate 3 ' ' ++ incl) ++ List.replicate 1 ' ' ++ node) ++ List.replicate 1 ' ' ++ ecc) ++ List.replicate 1 ' ' ++ argp) mo 43 51 42 1 27 18 (by simp only [List.length_append, List.length_replicate, List.length_nil, List.length_cons, h05, hincl, hnode, hecc, hargp, hmo, hnkoz, hrev, hb_p1, hb_p1s, hb_p2, hb_p2s, hb_ps, hb_p3s, hb_pm, hb_pp, hb_p0, hb_p00]) (by norm_num)
    (by norm_num) (by norm_num) (by norm_num) (by norm_num) (by norm_num) (by rw [hmo])]
  rw [splice ((((((([] ++ List.replicate 0 ' ' ++ (pystr "2")) ++ List.replicate 1 ' ' ++ f05) ++ List.replicate 3 ' ' ++ incl) ++ List.replicate 1 ' ' ++ node) ++ List.replicate 1 ' ' ++ ecc) ++ List.replicate 1 ' ' ++ argp) ++ List.replicate 1 ' ' ++ mo) nkoz 52 63 51 1 18 6 (by simp only [List.length_append, List.length_replicate, List.length_nil, List.length_cons, h05, hincl, hnode, hecc, hargp, hmo, hnkoz, hrev, hb_p1, hb_p1s, hb_p2, hb_p2s, hb_ps, hb_p3s, hb_pm, hb_pp, hb_p0, hb_p00]) (by norm_num)
    (by norm_num) (by norm_num) (by norm_num) (by norm_num) (by norm_num) (by rw [hnkoz])]
  rw [splice (((((((([] ++ List.replicate 0 ' ' ++ (pystr "2")) ++ List.replicate 1 ' ' ++ f05) ++ List.replicate 3 ' ' ++ incl) ++ List.replicate 1 ' ' ++ node) ++ List.replicate 1 ' ' ++ ecc) ++ List.replicate 1 ' ' ++ argp) ++ List.replicate 1 ' ' ++ mo) ++ List.replicate 1 ' ' ++ nkoz) rev 63 68 63 0 6 1 (by simp only [List.length_append, List.length_replicate, List.length_nil, List.length_cons, h05, hincl, hnode, hecc, hargp, hmo, hnkoz, hrev, hb_p1, hb_p1s, hb_p2, hb_p2s, hb_ps, hb_p3s, hb_pm, hb_pp, hb_p0, hb_p00]) (by norm_num)
    (by norm_num) (by norm_num) (by norm_num) (by norm_num) (by norm_num) (by rw [hrev])]
  simp only [hb_r0, hb_r1, hb_r2, hb_r3, hb_p1, hb_p1s, hb_p2, hb_p2s, hb_ps, hb_p3s, hb_pm, hb_pp, hb_p0, hb_p00, List.append_assoc, List.cons_append,
    List.nil_append, List.append_nil, List.singleton_append]

/-- The checksum only reads the first 68 characters. -/
theorem compute_checksum_take (D t : PyStr) (hD : D.length = 68) :
    compute_checksum (D ++ t) = compute_checksum D := by
  rw [compute_checksum, compute_checksum, List.take_append_eq_append_take,
    List.take_of_length_le (by omega), show 68 - D.length = 0 from by omega]
  simp

/-- Splicing the checksum into cell 68 of a fully built line appends it. -/
theorem final_glue (D : PyStr) (hD : D.length = 68) :
    setSl (D ++ List.replicate 1 ' ') 68 69
        (natChars (compute_checksum (D ++ List.replicate 1 ' '))) =
      D ++ natChars (compute_checksum D) := by
  rw [compute_checksum_take D (List.replicate 1 ' ') hD]
  rw [setSl, List.take_append_eq_append_take, List.take_of_length_le (by omega),
    show 68 - D.length = 0 from by omega,
    List.drop_eq_nil_of_le (by simp [hD])]
  simp

/-- The epoch-day column block is always twelve characters for gridded
entities. -/
theorem epochSlot_length (s : Satellite) (h : TleGrid s) :
    (padZeroAlign 12 (formatFixed s.epochdays 8)).length = 12 := by
  obtain ⟨Y, hY, hYub, hrepr⟩ := epochdays_repr s h
  obtain ⟨hd1, hd2⟩ := dayOfYear_bounds s.epoch h.mon_lb h.mon_ub h.day_lb h.day_ub
  have hZ : dayOfYear s.epoch * 10 ^ 8 + (Y : ℤ) =
      (((dayOfYear s.epoch).toNat * 10 ^ 8 + Y : ℕ) : ℤ) := by
    push_cast
    omega
  have hcast : ((dayOfYear s.epoch * 10 ^ 8 + (Y : ℤ) : ℤ) : ℚ) =
      (((dayOfYear s.epoch).toNat * 10 ^ 8 + Y : ℕ) : ℚ) := by
    rw [hZ]
    push_cast
    ring
  rw [hrepr, hcast, padZeroAlign_length, formatFixed_grid_length, ffDigits_length]
  have hNub : (dayOfYear s.epoch).toNat * 10 ^ 8 + Y < 10 ^ 11 := by
    have hdn : (dayOfYear s.epoch).toNat ≤ 366 := by omega
    have : (dayOfYear s.epoch).toNat * 10 ^ 8 ≤ 366 * 10 ^ 8 :=
      Nat.mul_le_mul_right _ hdn
    omega
  have hnc := natChars_length_le _ 11 (by norm_num) hNub
  omega

/-- A gridded nonzero drag term really is nonzero. -/
theorem bstar_grid_ne (s : Satellite) (m : ℕ) (ib : ℤ) (h1 : 10 ^ 4 ≤ m)
    (hval : s.bstar = (m : ℚ) / 10 ^ 5 * ratPow10 ib ∨
            s.bstar = -((m : ℚ) / 10 ^ 5 * ratPow10 ib)) : s.bstar ≠ 0 := by
  have hP := ratPow10_pos ib
  have hmagpos : (0 : ℚ) < (m : ℚ) / 10 ^ 5 * ratPow10 ib := by
    have : (0 : ℚ) < (m : ℚ) := by
      have : 0 < m := by omega
      exact_mod_cast this
    positivity
  rcases hval with hv | hv <;> rw [hv]
  · exact ne_of_gt hmagpos
  · exact ne_of_lt (neg_lt_zero.mpr hmagpos)

/-- The two variable blocks of a gridded drag-term field: the mantissa
digits and the signed exponent. -/
theorem bstar_parts (s : Satellite) (m : ℕ) (ib : ℤ) (h1 : 10 ^ 4 ≤ m)
    (h2 : m < 10 ^ 5) (h3 : -9 ≤ ib) (h4 : ib ≤ 0)
    (hval : s.bstar = (m : ℚ) / 10 ^ 5 * ratPow10 ib ∨
            s.bstar = -((m : ℚ) / 10 ^ 5 * ratPow10 ib)) :
    (formatFixed (|s.bstar| / ratPow10 (bstarExp s)) 5).drop 2 = ffFrac m 5 ∧
    (if bstarExp s = 0 then '-' :: strOfInt (bstarExp s)
      else strOfInt (bstarExp s)) =
      (if ib = 0 then pystr "-0" else '-' :: natChars (-ib).toNat) := by
  have hP := ratPow10_pos ib
  have hmagpos : (0 : ℚ) < (m : ℚ) / 10 ^ 5 * ratPow10 ib := by
    have : (0 : ℚ) < (m : ℚ) := by
      have : 0 < m := by omega
      exact_mod_cast this
    positivity
  have habs : |s.bstar| = (m : ℚ) / 10 ^ 5 * ratPow10 ib := by
    rcases hval with hv | hv
    · rw [hv, abs_of_pos hmagpos]
    · rw [hv, abs_neg, abs_of_pos hmagpos]
  have hexp : bstarExp s = ib := by
    rw [bstarExp, habs]
    exact bstar_norm m ib h1 h2 h4
  constructor
  · rw [hexp, habs, mul_div_cancel_right₀ _ (ne_of_gt hP),
      formatFixed_lt_one m 5 h2 (by norm_num)]
    rfl
  · rw [hexp]
    by_cases hib0 : ib = 0
    · rw [if_pos hib0, if_pos hib0, hib0]
      rfl
    · rw [if_neg hib0, if_neg hib0, strOfInt, if_pos (by omega)]

/-- Core of the line-1 assembly: with the second-derivative branch taken and
the first-derivative field folded, the remaining splices produce the
canonical line with its checksum appended. -/
theorem line1_core (s : Satellite) (h : TleGrid s)
    (h05 : (fmt05d s.satnum).length = 5)
    (hyr : (lastTwo (strOfInt s.epochyr)).length = 2)
    (hep : (padZeroAlign 12 (formatFixed s.epochdays 8)).length = 12)
    (heln : (padSp 4 (strOfInt s.elnum)).length = 4) :
    setSl (setSl (setSl (if s.bstar = 0 then setSl (setSl (setSl (setSl (setSl (setSl (setSl (setSl (setSl (List.replicate 69 ' ') 0 1 (pystr "1")) 2 7 (fmt05d s.satnum)) 7 8 s.classification) 9 15 s.intldesg) 18 20 (lastTwo (strOfInt s.epochyr))) 20 32 (padZeroAlign 12 (formatFixed s.epochdays 8))) 33 43 (ndotField s)) 45 52 (pystr "00000-0")) 54 61 (pystr "00000+0") else setSl (setSl (setSl (setSl (setSl (setSl (setSl (setSl (setSl (setSl (setSl (List.replicate 69 ' ') 0 1 (pystr "1")) 2 7 (fmt05d s.satnum)) 7 8 s.classification) 9 15 s.intldesg) 18 20 (lastTwo (strOfInt s.epochyr))) 20 32 (padZeroAlign 12 (formatFixed s.epochdays 8))) 33 43 (ndotField s)) 45 52 (pystr "00000-0")) 53 54 (if s.bstar < 0 then pystr "-" else pystr " ")) 54 59 ((formatFixed (|s.bstar| / ratPow10 (if |s.bstar| = ratPow10 (intLog10 |s.bstar|) then intLog10 |s.bstar| + 1 else intLog10 |s.bstar|)) 5).drop 2)) 59 61 (if (if |s.bstar| = ratPow10 (intLog10 |s.bstar|) then intLog10 |s.bstar| + 1 else intLog10 |s.bstar|) = 0 then '-' :: strOfInt (if |s.bstar| = ratPow10 (intLog10 |s.bstar|) then intLog10 |s.bstar| + 1 else intLog10 |s.bstar|) else strOfInt (if |s.bstar| = ratPow10 (intLog10 |s.bstar|) then intLog10 |s.bstar| + 1 else intLog10 |s.bstar|))) 62 63 (pystr "0")) 64 68 (padSp 4 (strOfInt s.elnum))) 68 69 (natChars (compute_checksum (setSl (setSl (if s.bstar = 0 then setSl (setSl (setSl (setSl (setSl (setSl (setSl (setSl (setSl (List.replicate 69 ' ') 0 1 (pystr "1")) 2 7 (fmt05d s.satnum)) 7 8 s.classification) 9 15 s.intldesg) 18 20 (lastTwo (strOfInt s.epochyr))) 20 32 (padZeroAlign 12 (formatFixed s.epochdays 8))) 33 43 (ndotField s)) 45 52 (pystr "00000-0")) 54 61 (pystr "00000+0") else setSl (setSl (setSl (setSl (setSl (setSl (setSl (setSl (setSl (setSl (setSl (List.replicate 69 ' ') 0 1 (pystr "1")) 2 7 (fmt05d s.satnum)) 7 8 s.classification) 9 15 s.intldesg) 18 20 (lastTwo (strOfInt s.epochyr))) 20 32 (padZeroAlign 12 (formatFixed s.epochdays 8))) 33 43 (ndotField s)) 45 52 (pystr "00000-0")) 53 54 (if s.bstar < 0 then pystr "-" else pystr " ")) 54 59 ((formatFixed (|s.bstar| / ratPow10 (if |s.bstar| = ratPow10 (intLog10 |s.bstar|) then intLog10 |s.bstar| + 1 else intLog10 |s.bstar|)) 5).drop 2)) 59 61 (if (if |s.bstar| = ratPow10 (intLog10 |s.bstar|) then intLog10 |s.bstar| + 1 else intLog10 |s.bstar|) = 0 then '-' :: strOfInt (if |s.bstar| = ratPow10 (intLog10 |s.bstar|) then intLog10 |s.bstar| + 1 else intLog10 |s.bstar|) else strOfInt (if |s.bstar| = ratPow10 (intLog10 |s.bstar|) then intLog10 |s.bstar| + 1 else intLog10 |s.bstar|))) 62 63 (pystr "0")) 64 68 (padSp 4 (strOfInt s.elnum))))) =
      canonLine1 s ++ natChars (compute_checksum (canonLine1 s)) := by
  rcases h.bstar_grid with h0 | ⟨m, ib, h1, h2, h3, h4, hval⟩
  · rw [if_pos h0]
    rw [build1z (fmt05d s.satnum) s.classification s.intldesg (lastTwo (strOfInt s.epochyr))
      (padZeroAlign 12 (formatFixed s.epochdays 8)) (ndotField s) (padSp 4 (strOfInt s.elnum))
      h05 h.cls_len h.intl_len hyr hep (ndotField_spec s).1 heln]
    have hBF0 : bstarField s = ' ' :: pystr "00000+0" := by rw [bstarField, if_pos h0]
    have hlen := canonLine1_length s h
    simp only [canonLine1] at hlen ⊢
    rw [hBF0] at hlen ⊢
    exact final_glue _ hlen
  · have hnz := bstar_grid_ne s m ib h1 hval
    rw [if_neg hnz]
    have hfold : (if |s.bstar| = ratPow10 (intLog10 |s.bstar|) then intLog10 |s.bstar| + 1
        else intLog10 |s.bstar|) = bstarExp s := rfl
    rw [hfold]
    obtain ⟨hm, he⟩ := bstar_parts s m ib h1 h2 h3 h4 hval
    rw [hm, he]
    have hsgn : (if s.bstar < 0 then pystr "-" else pystr " ") =
        [if s.bstar < 0 then '-' else ' '] := by
      split <;> rfl
    rw [hsgn]
    have hexlen : (if ib = 0 then pystr "-0" else '-' :: natChars (-ib).toNat).length = 2 := by
      split
      · rfl
      · simp [natChars_length_lt10 (-ib).toNat (by omega)]
    rw [build1 (fmt05d s.satnum) s.classification s.intldesg (lastTwo (strOfInt s.epochyr))
      (padZeroAlign 12 (formatFixed s.epochdays 8)) (ndotField s) (ffFrac m 5)
      (if ib = 0 then pystr "-0" else '-' :: natChars (-ib).toNat) (padSp 4 (strOfInt s.elnum))
      (if s.bstar < 0 then '-' else ' ')
      h05 h.cls_len h.intl_len hyr hep (ndotField_spec s).1 (ffFrac_length m 5) hexlen heln]
    have hBF := (bstarField_eq s m ib h1 h2 h3 h4 hval).1
    have hlen := canonLine1_length s h
    simp only [canonLine1] at hlen ⊢
    rw [hBF] at hlen ⊢
    exact final_glue _ hlen

/-- The line-1 formatter output is the canonical 68 columns plus checksum. -/
theorem line1_canonical (s : Satellite) (h : TleGrid s) :
    rv2twolineL1 s = canonLine1 s ++ natChars (compute_checksum (canonLine1 s)) := by
  have h05 := (fmt05d_spec s.satnum h.satnum_lb h.satnum_ub).1
  have hyr := (year_roundtrip s.epochyr h.year_lb h.year_ub).1
  have hep := epochSlot_length s h
  have heln : (padSp 4 (strOfInt s.elnum)).length = 4 := by
    apply padSp_length
    rw [strOfInt_nonneg _ h.elnum_lb]
    exact natChars_length_le _ 4 (by norm_num)
      (by have := h.elnum_ub; have := h.elnum_lb; omega)
  simp only [rv2twolineL1]
  rw [if_pos h.nddot_zero]
  by_cases hnd : s.ndot * (xpdotp * 1440) < 0
  · rw [if_pos hnd,
      show ('-' :: '.' :: afterLastDot (formatFixed (s.ndot * (xpdotp * 1440)) 8)) =
        ndotField s from by rw [ndotField, if_pos hnd]]
    exact line1_core s h h05 hyr hep heln
  · rw [if_neg hnd,
      show (' ' :: '.' :: afterLastDot (formatFixed (s.ndot * (xpdotp * 1440)) 8)) =
        ndotField s from by rw [ndotField, if_neg hnd]]
    exact line1_core s h h05 hyr hep heln

/-- `int(log10)` pins a gridded angle below its branch decade. -/
theorem incl_decade_lt (ni : ℕ) (k : ℕ) (h1 : 10 ^ (4 + k) ≤ ni) (h2 : ni < 10 ^ (5 + k)) :
    intLog10 ((ni : ℚ) / 10 ^ 4) = k := by
  have hlo : ratPow10 k ≤ (ni : ℚ) / 10 ^ 4 := by
    rw [ratPow10_natCast, le_div_iff (by norm_num)]
    have : ((10 : ℚ) ^ (4 + k)) ≤ (ni : ℚ) := by exact_mod_cast h1
    calc (10 : ℚ) ^ k * 10 ^ 4 = 10 ^ (4 + k) := by ring
    _ ≤ (ni : ℚ) := this
  have hhi : (ni : ℚ) / 10 ^ 4 < ratPow10 (k + 1) := by
    rw [show ((k : ℤ) + 1) = ((k + 1 : ℕ) : ℤ) from by push_cast; ring,
      ratPow10_natCast, div_lt_iff (by norm_num)]
    have : (ni : ℚ) < (10 : ℚ) ^ (5 + k) := by exact_mod_cast h2
    calc (ni : ℚ) < (10 : ℚ) ^ (5 + k) := this
    _ = 10 ^ (k + 1) * 10 ^ 4 := by ring
  exact intLog10_nonneg _ k (by positivity) hlo hhi

/-- The line-2 formatter output is the canonical 68 columns plus checksum. -/
theorem line2_canonical (s : Satellite) (h : TleGrid s) :
    rv2twolineL2 s = canonLine2 s ++ natChars (compute_checksum (canonLine2 s)) := by
  have h05 := (fmt05d_spec s.satnum h.satnum_lb h.satnum_ub).1
  obtain ⟨ni, hni0, hni, hvi⟩ := h.incl_grid
  obtain ⟨nn, hnn, hvn⟩ := h.node_grid
  obtain ⟨na, hna, hva⟩ := h.argp_grid
  obtain ⟨nm, hnm, hvm⟩ := h.mo_grid
  obtain ⟨nee, hnee, hve⟩ := h.ecc_grid
  obtain ⟨nk, hnk, hvk⟩ := h.nkoz_grid
  have hq : s.inclo / deg2rad = (ni : ℚ) / 10 ^ 4 := by
    rw [hvi, mul_div_cancel_right₀ _ deg2rad_ne]
  have hnode := degSlot_length s.nodeo nn hnn hvn
  have hargp := degSlot_length s.argpo na hna hva
  have hmo := degSlot_length s.mo nm hnm hvm
  have hecc : ((padSp 8 (formatFixed s.ecco 7)).drop 2).length = 7 := by
    rw [hve, formatFixed_lt_one nee 7 hnee (by norm_num),
      padSp_of_ge 8 _ (by simp [ffFrac_length])]
    simp [ffFrac_length]
  have hnkoz : (padSp 11 (formatFixed (s.no_kozai * xpdotp) 8)).length = 11 := by
    have hqk : s.no_kozai * xpdotp = (nk : ℚ) / 10 ^ 8 := by
      rw [hvk, div_mul_cancel₀ _ xpdotp_ne]
    have hlenk : (formatFixed ((nk : ℚ) / 10 ^ 8) 8).length ≤ 11 := by
      rw [formatFixed_grid_length, ffDigits_length]
      have := natChars_length_le nk 10 (by norm_num) hnk
      omega
    rw [hqk]
    exact padSp_length 11 _ hlenk
  have hrev : (padSp 5 (strOfInt s.revnum)).length = 5 := by
    apply padSp_length
    rw [strOfInt_nonneg _ h.revnum_lb]
    exact natChars_length_le _ 5 (by norm_num)
      (by have := h.revnum_ub; have := h.revnum_lb; omega)
  have hlen := canonLine2_length s h
  simp only [rv2twolineL2]
  by_cases hi2 : intLog10 (s.inclo / deg2rad) = 2
  · rw [if_pos hi2]
    have hincl : (padSp 8 (formatFixed (s.inclo / deg2rad) 4)).length = 8 :=
      degSlot_length s.inclo ni hni hvi
    rw [build2a (fmt05d s.satnum) (padSp 8 (formatFixed (s.inclo / deg2rad) 4))
      (padSp 8 (formatFixed (s.nodeo / deg2rad) 4))
      ((padSp 8 (formatFixed s.ecco 7)).drop 2)
      (padSp 8 (formatFixed (s.argpo / deg2rad) 4))
      (padSp 8 (formatFixed (s.mo / deg2rad) 4))
      (padSp 11 (formatFixed (s.no_kozai * xpdotp) 8))
      (padSp 5 (strOfInt s.revnum))
      h05 hincl hnode hecc hargp hmo hnkoz hrev]
    simp only [canonLine2] at hlen ⊢
    exact final_glue _ hlen
  · rw [if_neg hi2]
    by_cases hi1 : intLog10 (s.inclo / deg2rad) = 1
    · rw [if_pos hi1]
      have hni6 : ni < 10 ^ 6 := by
        by_contra hge
        push_neg at hge
        have := incl_decade_lt ni 2 (by omega) (by omega)
        rw [hq] at hi2
        exact hi2 this
      have hF7 : (formatFixed (s.inclo / deg2rad) 4).length ≤ 7 := by
        rw [hq, formatFixed_grid_length, ffDigits_length]
        have := natChars_length_le ni 6 (by norm_num) hni6
        omega
      have hpad : padSp 8 (formatFixed (s.inclo / deg2rad) 4) =
          ' ' :: padSp 7 (formatFixed (s.inclo / deg2rad) 4) := padSp_succ 7 _ hF7
      rw [build2b (fmt05d s.satnum) (padSp 7 (formatFixed (s.inclo / deg2rad) 4))
        (padSp 8 (formatFixed (s.nodeo / deg2rad) 4))
        ((padSp 8 (formatFixed s.ecco 7)).drop 2)
        (padSp 8 (formatFixed (s.argpo / deg2rad) 4))
        (padSp 8 (formatFixed (s.mo / deg2rad) 4))
        (padSp 11 (formatFixed (s.no_kozai * xpdotp) 8))
        (padSp 5 (strOfInt s.revnum))
        h05 (padSp_length 7 _ hF7) hnode hecc hargp hmo hnkoz hrev]
      simp only [canonLine2] at hlen ⊢
      rw [hpad] at hlen ⊢
      exact final_glue _ hlen
    · rw [if_neg hi1]
      have hni5 : ni < 10 ^ 5 := by
        by_contra hge
        push_neg at hge
        by_cases h6 : ni < 10 ^ 6
        · have := incl_decade_lt ni 1 (by omega) (by omega)
          rw [hq] at hi1
          exact hi1 this
        · push_neg at h6
          have := incl_decade_lt ni 2 (by omega) (by omega)
          rw [hq] at hi2
          exact hi2 this
      have hF6 : (formatFixed (s.inclo / deg2rad) 4).length ≤ 6 := by
        rw [hq, formatFixed_grid_length, ffDigits_length]
        have := natChars_length_le ni 5 (by norm_num) hni5
        omega
      have hF7 : (formatFixed (s.inclo / deg2rad) 4).length ≤ 7 := le_trans hF6 (by norm_num)
      have hpad : padSp 8 (formatFixed (s.inclo / deg2rad) 4) =
          ' ' :: ' ' :: padSp 6 (formatFixed (s.inclo / deg2rad) 4) := by
        rw [padSp_succ 7 _ hF7, padSp_succ 6 _ hF6]
      rw [build2c (fmt05d s.satnum) (padSp 6 (formatFixed (s.inclo / deg2rad) 4))
        (padSp 8 (formatFixed (s.nodeo / deg2rad) 4))
        ((padSp 8 (formatFixed s.ecco 7)).drop 2)
        (padSp 8 (formatFixed (s.argpo / deg2rad) 4))
        (padSp 8 (formatFixed (s.mo / deg2rad) 4))
        (padSp 11 (formatFixed (s.no_kozai * xpdotp) 8))
        (padSp 5 (strOfInt s.revnum))
        h05 (padSp_length 6 _ hF6) hnode hecc hargp hmo hnkoz hrev]
      simp only [canonLine2] at hlen ⊢
      rw [hpad] at hlen ⊢
      exact final_glue _ hlen

/-- The checksum is a single decimal digit. -/
theorem compute_checksum_lt (l : PyStr) : compute_checksum l < 10 := by
  rw [compute_checksum]
  exact Nat.mod_lt _ (by norm_num)

/-- The reference gridded Entity `sGrid` satisfies every grid constraint. -/
theorem tleGrid_sGrid : TleGrid sGrid where
  satnum_lb := by decide
  satnum_ub := by decide
  cls_len := rfl
  intl_len := rfl
  elnum_lb := by decide
  elnum_ub := by decide
  revnum_lb := by decide
  revnum_ub := by decide
  year_lb := by decide
  year_ub := by decide
  year_eq := rfl
  mon_lb := by decide
  mon_ub := by decide
  day_lb := by decide
  day_ub := by decide
  hour_lb := by decide
  hour_ub := by decide
  min_lb := by decide
  min_ub := by decide
  sec_lb := by decide
  sec_ub := by decide
  usec_lb := by decide
  usec_ub := by decide
  usec_grid := ⟨50000000, by decide⟩
  epochdays_eq := rfl
  incl_grid := ⟨516416, by norm_num, by norm_num, by norm_num [sGrid, mkSatellite]⟩
  node_grid := ⟨2474627, by norm_num, by norm_num [sGrid, mkSatellite]⟩
  argp_grid := ⟨1305360, by norm_num, by norm_num [sGrid, mkSatellite]⟩
  mo_grid := ⟨3250288, by norm_num, by norm_num [sGrid, mkSatellite]⟩
  ecc_grid := ⟨6703, by norm_num, by norm_num [sGrid, mkSatellite]⟩
  nkoz_grid := ⟨1572125391, by norm_num, by norm_num [sGrid, mkSatellite]⟩
  ndot_grid := ⟨-2182, by norm_num, by norm_num, by norm_num [sGrid, mkSatellite]⟩
  nddot_zero := rfl
  bstar_grid := Or.inr ⟨11606, -4, by norm_num, by norm_num, by norm_num, by norm_num,
    Or.inr (by norm_num [sGrid, mkSatellite])⟩

/-- **C4** (amended): for every directly constructed Entity whose fields are
on the nominal TLE grid — one-character classification, six-character
designator, in-range identifiers, zero second derivative, drag term zero or
with a five-digit mantissa, and angles, eccentricity and mean motion on
their column grids — `rv2twoline` succeeds and both returned lines are
exactly 69 characters long. -/
theorem claim_C4_theorem (s : Satellite) (h : TleGrid s) :
    ∃ l1 l2, rv2twoline s = some (l1, l2) ∧ l1.length = 69 ∧ l2.length = 69 := by
  obtain ⟨ni, hni0, hni, hvi⟩ := h.incl_grid
  have hpos : 0 < s.inclo / deg2rad := by
    rw [hvi, mul_div_cancel_right₀ _ deg2rad_ne]
    have : (0 : ℚ) < (ni : ℚ) := by exact_mod_cast hni0
    positivity
  refine ⟨rv2twolineL1 s, rv2twolineL2 s, ?_, ?_, ?_⟩
  · rw [rv2twoline, if_neg (not_le.mpr hpos)]
  · rw [line1_canonical s h]
    have hcs := natChars_length_lt10 _ (compute_checksum_lt (canonLine1 s))
    simp [canonLine1_length s h, hcs]
  · rw [line2_canonical s h]
    have hcs := natChars_length_lt10 _ (compute_checksum_lt (canonLine2 s))
    simp [canonLine2_length s h, hcs]

/-- Witness for the amended C4 at the concrete gridded Entity `sGrid`. -/
theorem claim_C4_witness :
    ∃ l1 l2, rv2twoline sGrid = some (l1, l2) ∧ l1.length = 69 ∧ l2.length = 69 :=
  claim_C4_theorem sGrid tleGrid_sGrid

/-- Slices and template check of a canonical-layout line 1. -/
theorem slice1 (f05 cls intl yr epi epf nf mant ex eln : PyStr)
    (sgn bsgn cd : Char)
    (h05 : f05.length = 5) (hcls : cls.length = 1) (hintl : intl.length = 6)
    (hyr : yr.length = 2) (hepi : epi.length = 3) (hepf : epf.length = 8)
    (hnf : nf.length = 8) (hmant : mant.length = 5) (hex : ex.length = 2)
    (heln : eln.length = 4) :
    line1Ok (pystr "1 " ++ f05 ++ cls ++ pystr " " ++ intl ++ pystr "   " ++ yr ++
      (epi ++ '.' :: epf) ++ pystr " " ++ (sgn :: '.' :: nf) ++ pystr " " ++
      (' ' :: pystr "00000-0") ++ pystr " " ++ (bsgn :: (mant ++ ex)) ++
      pystr " 0 " ++ eln ++ [cd]) = true ∧
    pySl (pystr "1 " ++ f05 ++ cls ++ pystr " " ++ intl ++ pystr "   " ++ yr ++
      (epi ++ '.' :: epf) ++ pystr " " ++ (sgn :: '.' :: nf) ++ pystr " " ++
      (' ' :: pystr "00000-0") ++ pystr " " ++ (bsgn :: (mant ++ ex)) ++
      pystr " 0 " ++ eln ++ [cd]) 2 7 = f05 ∧
    pySl (pystr "1 " ++ f05 ++ cls ++ pystr " " ++ intl ++ pystr "   " ++ yr ++
      (epi ++ '.' :: epf) ++ pystr " " ++ (sgn :: '.' :: nf) ++ pystr " " ++
      (' ' :: pystr "00000-0") ++ pystr " " ++ (bsgn :: (mant ++ ex)) ++
      pystr " 0 " ++ eln ++ [cd]) 7 8 = cls ∧
    pySl (pystr "1 " ++ f05 ++ cls ++ pystr " " ++ intl ++ pystr "   " ++ yr ++
      (epi ++ '.' :: epf) ++ pystr " " ++ (sgn :: '.' :: nf) ++ pystr " " ++
      (' ' :: pystr "00000-0") ++ pystr " " ++ (bsgn :: (mant ++ ex)) ++
      pystr " 0 " ++ eln ++ [cd]) 9 17 = intl ++ [' ', ' '] ∧
    pySl (pystr "1 " ++ f05 ++ cls ++ pystr " " ++ intl ++ pystr "   " ++ yr ++
      (epi ++ '.' :: epf) ++ pystr " " ++ (sgn :: '.' :: nf) ++ pystr " " ++
      (' ' :: pystr "00000-0") ++ pystr " " ++ (bsgn :: (mant ++ ex)) ++
      pystr " 0 " ++ eln ++ [cd]) 18 20 = yr ∧
    pySl (pystr "1 " ++ f05 ++ cls ++ pystr " " ++ intl ++ pystr "   " ++ yr ++
      (epi ++ '.' :: epf) ++ pystr " " ++ (sgn :: '.' :: nf) ++ pystr " " ++
      (' ' :: pystr "00000-0") ++ pystr " " ++ (bsgn :: (mant ++ ex)) ++
      pystr " 0 " ++ eln ++ [cd]) 20 32 = epi ++ '.' :: epf ∧
    pySl (pystr "1 " ++ f05 ++ cls ++ pystr " " ++ intl ++ pystr "   " ++ yr ++
      (epi ++ '.' :: epf) ++ pystr " " ++ (sgn :: '.' :: nf) ++ pystr " " ++
      (' ' :: pystr "00000-0") ++ pystr " " ++ (bsgn :: (mant ++ ex)) ++
      pystr " 0 " ++ eln ++ [cd]) 33 43 = sgn :: '.' :: nf ∧
    pySl (pystr "1 " ++ f05 ++ cls ++ pystr " " ++ intl ++ pystr "   " ++ yr ++
      (epi ++ '.' :: epf) ++ pystr " " ++ (sgn :: '.' :: nf) ++ pystr " " ++
      (' ' :: pystr "00000-0") ++ pystr " " ++ (bsgn :: (mant ++ ex)) ++
      pystr " 0 " ++ eln ++ [cd]) 44 45 ++ '.' :: pySl (pystr "1 " ++ f05 ++ cls ++ pystr " " ++ intl ++ pystr "   " ++ yr ++
      (epi ++ '.' :: epf) ++ pystr " " ++ (sgn :: '.' :: nf) ++ pystr " " ++
      (' ' :: pystr "00000-0") ++ pystr " " ++ (bsgn :: (mant ++ ex)) ++
      pystr " 0 " ++ eln ++ [cd]) 45 50 = [' ', '.', '0', '0', '0', '0', '0'] ∧
    pySl (pystr "1 " ++ f05 ++ cls ++ pystr " " ++ intl ++ pystr "   " ++ yr ++
      (epi ++ '.' :: epf) ++ pystr " " ++ (sgn :: '.' :: nf) ++ pystr " " ++
      (' ' :: pystr "00000-0") ++ pystr " " ++ (bsgn :: (mant ++ ex)) ++
      pystr " 0 " ++ eln ++ [cd]) 50 52 = ['-', '0'] ∧
    pySl (pystr "1 " ++ f05 ++ cls ++ pystr " " ++ intl ++ pystr "   " ++ yr ++
      (epi ++ '.' :: epf) ++ pystr " " ++ (sgn :: '.' :: nf) ++ pystr " " ++
      (' ' :: pystr "00000-0") ++ pystr " " ++ (bsgn :: (mant ++ ex)) ++
      pystr " 0 " ++ eln ++ [cd]) 53 54 ++ '.' :: pySl (pystr "1 " ++ f05 ++ cls ++ pystr " " ++ intl ++ pystr "   " ++ yr ++
      (epi ++ '.' :: epf) ++ pystr " " ++ (sgn :: '.' :: nf) ++ pystr " " ++
      (' ' :: pystr "00000-0") ++ pystr " " ++ (bsgn :: (mant ++ ex)) ++
      pystr " 0 " ++ eln ++ [cd]) 54 59 = bsgn :: '.' :: mant ∧
    pySl (pystr "1 " ++ f05 ++ cls ++ pystr " " ++ intl ++ pystr "   " ++ yr ++
      (epi ++ '.' :: epf) ++ pystr " " ++ (sgn :: '.' :: nf) ++ pystr " " ++
      (' ' :: pystr "00000-0") ++ pystr " " ++ (bsgn :: (mant ++ ex)) ++
      pystr " 0 " ++ eln ++ [cd]) 59 61 = ex ∧
    pySl (pystr "1 " ++ f05 ++ cls ++ pystr " " ++ intl ++ pystr "   " ++ yr ++
      (epi ++ '.' :: epf) ++ pystr " " ++ (sgn :: '.' :: nf) ++ pystr " " ++
      (' ' :: pystr "00000-0") ++ pystr " " ++ (bsgn :: (mant ++ ex)) ++
      pystr " 0 " ++ eln ++ [cd]) 64 68 = eln := by
  obtain ⟨f051, f05, rfl⟩ := List.exists_of_length_succ f05 (show f05.length = 4 + 1 from h05)
  replace h05 : f05.length = 4 := by simpa using h05
  obtain ⟨f052, f05, rfl⟩ := List.exists_of_length_succ f05 (show f05.length = 3 + 1 from h05)
  replace h05 : f05.length = 3 := by simpa using h05
  obtain ⟨f053, f05, rfl⟩ := List.exists_of_length_succ f05 (show f05.length = 2 + 1 from h05)
  replace h05 : f05.length = 2 := by simpa using h05
  obtain ⟨f054, f05, rfl⟩ := List.exists_of_length_succ f05 (show f05.length = 1 + 1 from h05)
  replace h05 : f05.length = 1 := by simpa using h05
  obtain ⟨f055, f05, rfl⟩ := List.exists_of_length_succ f05 (show f05.length = 0 + 1 from h05)
  obtain rfl : f05 = [] := by simpa using h05
  obtain ⟨cls1, cls, rfl⟩ := List.exists_of_length_succ cls (show cls.length = 0 + 1 from hcls)
  obtain rfl : cls = [] := by simpa using hcls
  obtain ⟨intl1, intl, rfl⟩ := List.exists_of_length_succ intl (show intl.length = 5 + 1 from hintl)
  replace hintl : intl.length = 5 := by simpa using hintl
  obtain ⟨intl2, intl, rfl⟩ := List.exists_of_length_succ intl (show intl.length = 4 + 1 from hintl)
  replace hintl : intl.length = 4 := by simpa using hintl
  obtain ⟨intl3, intl, rfl⟩ := List.exists_of_length_succ intl (show intl.length = 3 + 1 from hintl)
  replace hintl : intl.length = 3 := by simpa using hintl
  obtain ⟨intl4, intl, rfl⟩ := List.exists_of_length_succ intl (show intl.length = 2 + 1 from hintl)
  replace hintl : intl.length = 2 := by simpa using hintl
  obtain ⟨intl5, intl, rfl⟩ := List.exists_of_length_succ intl (show intl.length = 1 + 1 from hintl)
  replace hintl : intl.length = 1 := by simpa using hintl
  obtain ⟨intl6, intl, rfl⟩ := List.exists_of_length_succ intl (show intl.length = 0 + 1 from hintl)
  obtain rfl : intl = [] := by simpa using hintl
  obtain ⟨yr1, yr, rfl⟩ := List.exists_of_length_succ yr (show yr.length = 1 + 1 from hyr)
  replace hyr : yr.length = 1 := by simpa using hyr
  obtain ⟨yr2, yr, rfl⟩ := List.exists_of_length_succ yr (show yr.length = 0 + 1 from hyr)
  obtain rfl : yr = [] := by simpa using hyr
  obtain ⟨epi1, epi, rfl⟩ := List.exists_of_length_succ epi (show epi.length = 2 + 1 from hepi)
  replace hepi : epi.length = 2 := by simpa using hepi
  obtain ⟨epi2, epi, rfl⟩ := List.exists_of_length_succ epi (show epi.length = 1 + 1 from hepi)
  replace hepi : epi.length = 1 := by simpa using hepi
  obtain ⟨epi3, epi, rfl⟩ := List.exists_of_length_succ epi (show epi.length = 0 + 1 from hepi)
  obtain rfl : epi = [] := by simpa using hepi
  obtain ⟨epf1, epf, rfl⟩ := List.exists_of_length_succ epf (show epf.length = 7 + 1 from hepf)
  replace hepf : epf.length = 7 := by simpa using hepf
  obtain ⟨epf2, epf, rfl⟩ := List.exists_of_length_succ epf (show epf.length = 6 + 1 from hepf)
  replace hepf : epf.length = 6 := by simpa using hepf
  obtain ⟨epf3, epf, rfl⟩ := List.exists_of_length_succ epf (show epf.length = 5 + 1 from hepf)
  replace hepf : epf.length = 5 := by simpa using hepf
  obtain ⟨epf4, epf, rfl⟩ := List.exists_of_length_succ epf (show epf.length = 4 + 1 from hepf)
  replace hepf : epf.length = 4 := by simpa using hepf
  obtain ⟨epf5, epf, rfl⟩ := List.exists_of_length_succ epf (show epf.length = 3 + 1 from hepf)
  replace hepf : epf.length = 3 := by simpa using hepf
  obtain ⟨epf6, epf, rfl⟩ := List.exists_of_length_succ epf (show epf.length = 2 + 1 from hepf)
  replace hepf : epf.length = 2 := by simpa using hepf
  obtain ⟨epf7, epf, rfl⟩ := List.exists_of_length_succ epf (show epf.length = 1 + 1 from hepf)
  replace hepf : epf.length = 1 := by simpa using hepf
  obtain ⟨epf8, epf, rfl⟩ := List.exists_of_length_succ epf (show epf.length = 0 + 1 from hepf)
  obtain rfl : epf = [] := by simpa using hepf
  obtain ⟨nf1, nf, rfl⟩ := List.exists_of_length_succ nf (show nf.length = 7 + 1 from hnf)
  replace hnf : nf.length = 7 := by simpa using hnf
  obtain ⟨nf2, nf, rfl⟩ := List.exists_of_length_succ nf (show nf.length = 6 + 1 from hnf)
  replace hnf : nf.length = 6 := by simpa using hnf
  obtain ⟨nf3, nf, rfl⟩ := List.exists_of_length_succ nf (show nf.length = 5 + 1 from hnf)
  replace hnf : nf.length = 5 := by simpa using hnf
  obtain ⟨nf4, nf, rfl⟩ := List.exists_of_length_succ nf (show nf.length = 4 + 1 from hnf)
  replace hnf : nf.length = 4 := by simpa using hnf
  obtain ⟨nf5, nf, rfl⟩ := List.exists_of_length_succ nf (show nf.length = 3 + 1 from hnf)
  replace hnf : nf.length = 3 := by simpa using hnf
  obtain ⟨nf6, nf, rfl⟩ := List.exists_of_length_succ nf (show nf.length = 2 + 1 from hnf)
  replace hnf : nf.length = 2 := by simpa using hnf
  obtain ⟨nf7, nf, rfl⟩ := List.exists_of_length_succ nf (show nf.length = 1 + 1 from hnf)
  replace hnf : nf.length = 1 := by simpa using hnf
  obtain ⟨nf8, nf, rfl⟩ := List.exists_of_length_succ nf (show nf.length = 0 + 1 from hnf)
  obtain rfl : nf = [] := by simpa using hnf
  obtain ⟨mant1, mant, rfl⟩ := List.exists_of_length_succ mant (show mant.length = 4 + 1 from hmant)
  replace hmant : mant.length = 4 := by simpa using hmant
  obtain ⟨mant2, mant, rfl⟩ := List.exists_of_length_succ mant (show mant.length = 3 + 1 from hmant)
  replace hmant : mant.length = 3 := by simpa using hmant
  obtain ⟨mant3, mant, rfl⟩ := List.exists_of_length_succ mant (show mant.length = 2 + 1 from hmant)
  replace hmant : mant.length = 2 := by simpa using hmant
  obtain ⟨mant4, mant, rfl⟩ := List.exists_of_length_succ mant (show mant.length = 1 + 1 from hmant)
  replace hmant : mant.length = 1 := by simpa using hmant
  obtain ⟨mant5, mant, rfl⟩ := List.exists_of_length_succ mant (show mant.length = 0 + 1 from hmant)
  obtain rfl : mant = [] := by simpa using hmant
  obtain ⟨ex1, ex, rfl⟩ := List.exists_of_length_succ ex (show ex.length = 1 + 1 from hex)
  replace hex : ex.length = 1 := by simpa using hex
  obtain ⟨ex2, ex, rfl⟩ := List.exists_of_length_succ ex (show ex.length = 0 + 1 from hex)
  obtain rfl : ex = [] := by simpa using hex
  obtain ⟨eln1, eln, rfl⟩ := List.exists_of_length_succ eln (show eln.length = 3 + 1 from heln)
  replace heln : eln.length = 3 := by simpa using heln
  obtain ⟨eln2, eln, rfl⟩ := List.exists_of_length_succ eln (show eln.length = 2 + 1 from heln)
  replace heln : eln.length = 2 := by simpa using heln
  obtain ⟨eln3, eln, rfl⟩ := List.exists_of_length_succ eln (show eln.length = 1 + 1 from heln)
  replace heln : eln.length = 1 := by simpa using heln
  obtain ⟨eln4, eln, rfl⟩ := List.exists_of_length_succ eln (show eln.length = 0 + 1 from heln)
  obtain rfl : eln = [] := by simpa using heln
  have hb_p1s : pystr "1 " = ['1', ' '] := rfl
  have hb_p2s : pystr "2 " = ['2', ' '] := rfl
  have hb_ps : pystr " " = [' '] := rfl
  have hb_p3s : pystr "   " = [' ', ' ', ' '] := rfl
  have hb_pm : pystr "00000-0" = ['0', '0', '0', '0', '0', '-', '0'] := rfl
  have hb_p00 : pystr " 0 " = [' ', '0', ' '] := rfl
  simp only [hb_p1s, hb_p2s, hb_ps, hb_p3s, hb_pm, hb_p00, List.append_assoc,
    List.cons_append, List.nil_append]
  exact ⟨rfl, rfl, rfl, rfl, rfl, rfl, rfl, rfl, rfl, rfl, rfl, rfl⟩

/-- Slices and template check of a canonical-layout line 2. -/
theorem slice2 (f05 ii iff4 ndi ndf ecc7 ai af4 mi mf4 ki kf8 rev5 : PyStr)
    (cd : Char)
    (h05 : f05.length = 5) (hii : ii.length = 3) (hif : iff4.length = 4)
    (hndi : ndi.length = 3) (hndf : ndf.length = 4) (hecc : ecc7.length = 7)
    (hai : ai.length = 3) (haf : af4.length = 4) (hmi : mi.length = 3)
    (hmf : mf4.length = 4) (hki : ki.length = 2) (hkf : kf8.length = 8)
    (hrev : rev5.length = 5) :
    line2Ok (pystr "2 " ++ f05 ++ pystr " " ++ (ii ++ '.' :: iff4) ++ pystr " " ++
      (ndi ++ '.' :: ndf) ++ pystr " " ++ ecc7 ++ pystr " " ++ (ai ++ '.' :: af4) ++
      pystr " " ++ (mi ++ '.' :: mf4) ++ pystr " " ++ (ki ++ '.' :: kf8) ++
      rev5 ++ [cd]) = true ∧
    pySl (pystr "2 " ++ f05 ++ pystr " " ++ (ii ++ '.' :: iff4) ++ pystr " " ++
      (ndi ++ '.' :: ndf) ++ pystr " " ++ ecc7 ++ pystr " " ++ (ai ++ '.' :: af4) ++
      pystr " " ++ (mi ++ '.' :: mf4) ++ pystr " " ++ (ki ++ '.' :: kf8) ++
      rev5 ++ [cd]) 2 7 = f05 ∧
    pySl (pystr "2 " ++ f05 ++ pystr " " ++ (ii ++ '.' :: iff4) ++ pystr " " ++
      (ndi ++ '.' :: ndf) ++ pystr " " ++ ecc7 ++ pystr " " ++ (ai ++ '.' :: af4) ++
      pystr " " ++ (mi ++ '.' :: mf4) ++ pystr " " ++ (ki ++ '.' :: kf8) ++
      rev5 ++ [cd]) 8 16 = ii ++ '.' :: iff4 ∧
    pySl (pystr "2 " ++ f05 ++ pystr " " ++ (ii ++ '.' :: iff4) ++ pystr " " ++
      (ndi ++ '.' :: ndf) ++ pystr " " ++ ecc7 ++ pystr " " ++ (ai ++ '.' :: af4) ++
      pystr " " ++ (mi ++ '.' :: mf4) ++ pystr " " ++ (ki ++ '.' :: kf8) ++
      rev5 ++ [cd]) 17 25 = ndi ++ '.' :: ndf ∧
    pySl (pystr "2 " ++ f05 ++ pystr " " ++ (ii ++ '.' :: iff4) ++ pystr " " ++
      (ndi ++ '.' :: ndf) ++ pystr " " ++ ecc7 ++ pystr " " ++ (ai ++ '.' :: af4) ++
      pystr " " ++ (mi ++ '.' :: mf4) ++ pystr " " ++ (ki ++ '.' :: kf8) ++
      rev5 ++ [cd]) 26 33 = ecc7 ∧
    pySl (pystr "2 " ++ f05 ++ pystr " " ++ (ii ++ '.' :: iff4) ++ pystr " " ++
      (ndi ++ '.' :: ndf) ++ pystr " " ++ ecc7 ++ pystr " " ++ (ai ++ '.' :: af4) ++
      pystr " " ++ (mi ++ '.' :: mf4) ++ pystr " " ++ (ki ++ '.' :: kf8) ++
      rev5 ++ [cd]) 34 42 = ai ++ '.' :: af4 ∧
    pySl (pystr "2 " ++ f05 ++ pystr " " ++ (ii ++ '.' :: iff4) ++ pystr " " ++
      (ndi ++ '.' :: ndf) ++ pystr " " ++ ecc7 ++ pystr " " ++ (ai ++ '.' :: af4) ++
      pystr " " ++ (mi ++ '.' :: mf4) ++ pystr " " ++ (ki ++ '.' :: kf8) ++
      rev5 ++ [cd]) 43 51 = mi ++ '.' :: mf4 ∧
    pySl (pystr "2 " ++ f05 ++ pystr " " ++ (ii ++ '.' :: iff4) ++ pystr " " ++
      (ndi ++ '.' :: ndf) ++ pystr " " ++ ecc7 ++ pystr " " ++ (ai ++ '.' :: af4) ++
      pystr " " ++ (mi ++ '.' :: mf4) ++ pystr " " ++ (ki ++ '.' :: kf8) ++
      rev5 ++ [cd]) 52 63 = ki ++ '.' :: kf8 ∧
    pySl (pystr "2 " ++ f05 ++ pystr " " ++ (ii ++ '.' :: iff4) ++ pystr " " ++
      (ndi ++ '.' :: ndf) ++ pystr " " ++ ecc7 ++ pystr " " ++ (ai ++ '.' :: af4) ++
      pystr " " ++ (mi ++ '.' :: mf4) ++ pystr " " ++ (ki ++ '.' :: kf8) ++
      rev5 ++ [cd]) 63 68 = rev5 := by
  obtain ⟨f051, f05, rfl⟩ := List.exists_of_length_succ f05 (show f05.length = 4 + 1 from h05)
  replace h05 : f05.length = 4 := by simpa using h05
  obtain ⟨f052, f05, rfl⟩ := List.exists_of_length_succ f05 (show f05.length = 3 + 1 from h05)
  replace h05 : f05.length = 3 := by simpa using h05
  obtain ⟨f053, f05, rfl⟩ := List.exists_of_length_succ f05 (show f05.length = 2 + 1 from h05)
  replace h05 : f05.length = 2 := by simpa using h05
  obtain ⟨f054, f05, rfl⟩ := List.exists_of_length_succ f05 (show f05.length = 1 + 1 from h05)
  replace h05 : f05.length = 1 := by simpa using h05
  obtain ⟨f055, f05, rfl⟩ := List.exists_of_length_succ f05 (show f05.length = 0 + 1 from h05)
  obtain rfl : f05 = [] := by simpa using h05
  obtain ⟨ii1, ii, rfl⟩ := List.exists_of_length_succ ii (show ii.length = 2 + 1 from hii)
  replace hii : ii.length = 2 := by simpa using hii
  obtain ⟨ii2, ii, rfl⟩ := List.exists_of_length_succ ii (show ii.length = 1 + 1 from hii)
  replace hii : ii.length = 1 := by simpa using hii
  obtain ⟨ii3, ii, rfl⟩ := List.exists_of_length_succ ii (show ii.length = 0 + 1 from hii)
  obtain rfl : ii = [] := by simpa using hii
  obtain ⟨iff41, iff4, rfl⟩ := List.exists_of_length_succ iff4 (show iff4.length = 3 + 1 from hif)
  replace hif : iff4.length = 3 := by simpa using hif
  obtain ⟨iff42, iff4, rfl⟩ := List.exists_of_length_succ iff4 (show iff4.length = 2 + 1 from hif)
  replace hif : iff4.length = 2 := by simpa using hif
  obtain ⟨iff43, iff4, rfl⟩ := List.exists_of_length_succ iff4 (show iff4.length = 1 + 1 from hif)
  replace hif : iff4.length = 1 := by simpa using hif
  obtain ⟨iff44, iff4, rfl⟩ := List.exists_of_length_succ iff4 (show iff4.length = 0 + 1 from hif)
  obtain rfl : iff4 = [] := by simpa using hif
  obtain ⟨ndi1, ndi, rfl⟩ := List.exists_of_length_succ ndi (show ndi.length = 2 + 1 from hndi)
  replace hndi : ndi.length = 2 := by simpa using hndi
  obtain ⟨ndi2, ndi, rfl⟩ := List.exists_of_length_succ ndi (show ndi.length = 1 + 1 from hndi)
  replace hndi : ndi.length = 1 := by simpa using hndi
  obtain ⟨ndi3, ndi, rfl⟩ := List.exists_of_length_succ ndi (show ndi.length = 0 + 1 from hndi)
  obtain rfl : ndi = [] := by simpa using hndi
  obtain ⟨ndf1, ndf, rfl⟩ := List.exists_of_length_succ ndf (show ndf.length = 3 + 1 from hndf)
  replace hndf : ndf.length = 3 := by simpa using hndf
  obtain ⟨ndf2, ndf, rfl⟩ := List.exists_of_length_succ ndf (show ndf.length = 2 + 1 from hndf)
  replace hndf : ndf.length = 2 := by simpa using hndf
  obtain ⟨ndf3, ndf, rfl⟩ := List.exists_of_length_succ ndf (show ndf.length = 1 + 1 from hndf)
  replace hndf : ndf.length = 1 := by simpa using hndf
  obtain ⟨ndf4, ndf, rfl⟩ := List.exists_of_length_succ ndf (show ndf.length = 0 + 1 from hndf)
  obtain rfl : ndf = [] := by simpa using hndf
  obtain ⟨ecc71, ecc7, rfl⟩ := List.exists_of_length_succ ecc7 (show ecc7.length = 6 + 1 from hecc)
  replace hecc : ecc7.length = 6 := by simpa using hecc
  obtain ⟨ecc72, ecc7, rfl⟩ := List.exists_of_length_succ ecc7 (show ecc7.length = 5 + 1 from hecc)
  replace hecc : ecc7.length = 5 := by simpa using hecc
  obtain ⟨ecc73, ecc7, rfl⟩ := List.exists_of_length_succ ecc7 (show ecc7.length = 4 + 1 from hecc)
  replace hecc : ecc7.length = 4 := by simpa using hecc
  obtain ⟨ecc74, ecc7, rfl⟩ := List.exists_of_length_succ ecc7 (show ecc7.length = 3 + 1 from hecc)
  replace hecc : ecc7.length = 3 := by simpa using hecc
  obtain ⟨ecc75, ecc7, rfl⟩ := List.exists_of_length_succ ecc7 (show ecc7.length = 2 + 1 from hecc)
  replace hecc : ecc7.length = 2 := by simpa using hecc
  obtain ⟨ecc76, ecc7, rfl⟩ := List.exists_of_length_succ ecc7 (show ecc7.length = 1 + 1 from hecc)
  replace hecc : ecc7.length = 1 := by simpa using hecc
  obtain ⟨ecc77, ecc7, rfl⟩ := List.exists_of_length_succ ecc7 (show ecc7.length = 0 + 1 from hecc)
  obtain rfl : ecc7 = [] := by simpa using hecc
  obtain ⟨ai1, ai, rfl⟩ := List.exists_of_length_succ ai (show ai.length = 2 + 1 from hai)
  replace hai : ai.length = 2 := by simpa using hai
  obtain ⟨ai2, ai, rfl⟩ := List.exists_of_length_succ ai (show ai.length = 1 + 1 from hai)
  replace hai : ai.length = 1 := by simpa using hai
  obtain ⟨ai3, ai, rfl⟩ := List.exists_of_length_succ ai (show ai.length = 0 + 1 from hai)
  obtain rfl : ai = [] := by simpa using hai
  obtain ⟨af41, af4, rfl⟩ := List.exists_of_length_succ af4 (show af4.length = 3 + 1 from haf)
  replace haf : af4.length = 3 := by simpa using haf
  obtain ⟨af42, af4, rfl⟩ := List.exists_of_length_succ af4 (show af4.length = 2 + 1 from haf)
  replace haf : af4.length = 2 := by simpa using haf
  obtain ⟨af43, af4, rfl⟩ := List.exists_of_length_succ af4 (show af4.length = 1 + 1 from haf)
  replace haf : af4.length = 1 := by simpa using haf
  obtain ⟨af44, af4, rfl⟩ := List.exists_of_length_succ af4 (show af4.length = 0 + 1 from haf)
  obtain rfl : af4 = [] := by simpa using haf
  obtain ⟨mi1, mi, rfl⟩ := List.exists_of_length_succ mi (show mi.length = 2 + 1 from hmi)
  replace hmi : mi.length = 2 := by simpa using hmi
  obtain ⟨mi2, mi, rfl⟩ := List.exists_of_length_succ mi (show mi.length = 1 + 1 from hmi)
  replace hmi : mi.length = 1 := by simpa using hmi
  obtain ⟨mi3, mi, rfl⟩ := List.exists_of_length_succ mi (show mi.length = 0 + 1 from hmi)
  obtain rfl : mi = [] := by simpa using hmi
  obtain ⟨mf41, mf4, rfl⟩ := List.exists_of_length_succ mf4 (show mf4.length = 3 + 1 from hmf)
  replace hmf : mf4.length = 3 := by simpa using hmf
  obtain ⟨mf42, mf4, rfl⟩ := List.exists_of_length_succ mf4 (show mf4.length = 2 + 1 from hmf)
  replace hmf : mf4.length = 2 := by simpa using hmf
  obtain ⟨mf43, mf4, rfl⟩ := List.exists_of_length_succ mf4 (show mf4.length = 1 + 1 from hmf)
  replace hmf : mf4.length = 1 := by simpa using hmf
  obtain ⟨mf44, mf4, rfl⟩ := List.exists_of_length_succ mf4 (show mf4.length = 0 + 1 from hmf)
  obtain rfl : mf4 = [] := by simpa using hmf
  obtain ⟨ki1, ki, rfl⟩ := List.exists_of_length_succ ki (show ki.length = 1 + 1 from hki)
  replace hki : ki.length = 1 := by simpa using hki
  obtain ⟨ki2, ki, rfl⟩ := List.exists_of_length_succ ki (show ki.length = 0 + 1 from hki)
  obtain rfl : ki = [] := by simpa using hki
  obtain ⟨kf81, kf8, rfl⟩ := List.exists_of_length_succ kf8 (show kf8.length = 7 + 1 from hkf)
  replace hkf : kf8.length = 7 := by simpa using hkf
  obtain ⟨kf82, kf8, rfl⟩ := List.exists_of_length_succ kf8 (show kf8.length = 6 + 1 from hkf)
  replace hkf : kf8.length = 6 := by simpa using hkf
  obtain ⟨kf83, kf8, rfl⟩ := List.exists_of_length_succ kf8 (show kf8.length = 5 + 1 from hkf)
  replace hkf : kf8.length = 5 := by simpa using hkf
  obtain ⟨kf84, kf8, rfl⟩ := List.exists_of_length_succ kf8 (show kf8.length = 4 + 1 from hkf)
  replace hkf : kf8.length = 4 := by simpa using hkf
  obtain ⟨kf85, kf8, rfl⟩ := List.exists_of_length_succ kf8 (show kf8.length = 3 + 1 from hkf)
  replace hkf : kf8.length = 3 := by simpa using hkf
  obtain ⟨kf86, kf8, rfl⟩ := List.exists_of_length_succ kf8 (show kf8.length = 2 + 1 from hkf)
  replace hkf : kf8.length = 2 := by simpa using hkf
  obtain ⟨kf87, kf8, rfl⟩ := List.exists_of_length_succ kf8 (show kf8.length = 1 + 1 from hkf)
  replace hkf : kf8.length = 1 := by simpa using hkf
  obtain ⟨kf88, kf8, rfl⟩ := List.exists_of_length_succ kf8 (show kf8.length = 0 + 1 from hkf)
  obtain rfl : kf8 = [] := by simpa using hkf
  obtain ⟨rev51, rev5, rfl⟩ := List.exists_of_length_succ rev5 (show rev5.length = 4 + 1 from hrev)
  replace hrev : rev5.length = 4 := by simpa using hrev
  obtain ⟨rev52, rev5, rfl⟩ := List.exists_of_length_succ rev5 (show rev5.length = 3 + 1 from hrev)
  replace hrev : rev5.length = 3 := by simpa using hrev
  obtain ⟨rev53, rev5, rfl⟩ := List.exists_of_length_succ rev5 (show rev5.length = 2 + 1 from hrev)
  replace hrev : rev5.length = 2 := by simpa using hrev
  obtain ⟨rev54, rev5, rfl⟩ := List.exists_of_length_succ rev5 (show rev5.length = 1 + 1 from hrev)
  replace hrev : rev5.length = 1 := by simpa using hrev
  obtain ⟨rev55, rev5, rfl⟩ := List.exists_of_length_succ rev5 (show rev5.length = 0 + 1 from hrev)
  obtain rfl : rev5 = [] := by simpa using hrev
  have hb_p1s : pystr "1 " = ['1', ' '] := rfl
  have hb_p2s : pystr "2 " = ['2', ' '] := rfl
  have hb_ps : pystr " " = [' '] := rfl
  have hb_p3s : pystr "   " = [' ', ' ', ' '] := rfl
  have hb_pm : pystr "00000-0" = ['0', '0', '0', '0', '0', '-', '0'] := rfl
  have hb_p00 : pystr " 0 " = [' ', '0', ' '] := rfl
  simp only [hb_p1s, hb_p2s, hb_ps, hb_p3s, hb_pm, hb_p00, List.append_assoc,
    List.cons_append, List.nil_append]
  exact ⟨rfl, rfl, rfl, rfl, rfl, rfl, rfl, rfl, rfl⟩

/-- `rstrip` is a no-op on a line ending in a digit. -/
theorem pyRstrip_digit (D : PyStr) (d : Char) (hd : d.isDigit = true) :
    pyRstrip (D ++ [d]) = D ++ [d] := by
  rw [pyRstrip]
  have hrev : (D ++ [d]).reverse = d :: D.reverse := by simp
  rw [hrev, List.dropWhile_cons_of_neg (by simp [digit_not_ws d hd])]
  simp

/-- The checksum renders as a single digit character. -/
theorem natChars_checksum (l : PyStr) :
    ∃ c, natChars (compute_checksum l) = [c] ∧ c.isDigit = true := by
  have h := compute_checksum_lt l
  set n := compute_checksum l with hn
  clear_value n
  interval_cases n
  · exact ⟨'0', rfl, rfl⟩
  · exact ⟨'1', rfl, rfl⟩
  · exact ⟨'2', rfl, rfl⟩
  · exact ⟨'3', rfl, rfl⟩
  · exact ⟨'4', rfl, rfl⟩
  · exact ⟨'5', rfl, rfl⟩
  · exact ⟨'6', rfl, rfl⟩
  · exact ⟨'7', rfl, rfl⟩
  · exact ⟨'8', rfl, rfl⟩
  · exact ⟨'9', rfl, rfl⟩

/-- The zero-aligned epoch-day block splits at its decimal point. -/
theorem ep_decomp (N : ℕ) (h : N < 10 ^ 11) :
    padZeroAlign 12 (formatFixed ((N : ℚ) / 10 ^ 8) 8) =
      padZeros 3 (ffInt N 8) ++ '.' :: ffFrac N 8 := by
  rw [formatFixed_grid, padZeroAlign, padZeros]
  have hlen : (ffInt N 8 ++ '.' :: ffFrac N 8).length = (ffInt N 8).length + 9 := by
    simp [ffFrac_length]
  rw [hlen, show 12 - ((ffInt N 8).length + 9) = 3 - (ffInt N 8).length from by omega]
  simp [List.append_assoc]

/-- A space-padded fixed-point slot splits at its decimal point. -/
theorem slot_decomp (n p f w : ℕ) (hw : w = f + p + 1) :
    padSp w (formatFixed ((n : ℚ) / 10 ^ p) p) =
      padSp f (ffInt n p) ++ '.' :: ffFrac n p := by
  subst hw
  rw [formatFixed_grid, padSp, padSp]
  have hlen : (ffInt n p ++ '.' :: ffFrac n p).length = (ffInt n p).length + p + 1 := by
    simp [ffFrac_length]
    omega
  rw [hlen, show f + p + 1 - ((ffInt n p).length + p + 1) = f - (ffInt n p).length
    from by omega]
  simp [List.append_assoc]

/-- The width of the integer block of a gridded slot. -/
theorem ffInt_length_le (n p f : ℕ) (hf : 1 ≤ f) (h : n < 10 ^ (p + f)) :
    (ffInt n p).length ≤ f := by
  rw [ffInt_length, ffDigits_length]
  have := natChars_length_le n (p + f) (by omega) h
  omega

/-- Parsing a space-padded gridded slot returns the exact value. -/
theorem pyFloatP_padSp_grid (n p f : ℕ) :
    pyFloatP (padSp f (ffInt n p) ++ '.' :: ffFrac n p) = some ((n : ℚ) / 10 ^ p) := by
  rw [padSp, List.append_assoc, pyFloatP_spaces, ← formatFixed_grid, pyFloatP_formatFixed]

/-- Parsing a zero-padded gridded slot returns the exact value. -/
theorem pyFloatP_padZeros_grid (n p w : ℕ) :
    pyFloatP (padZeros w (ffInt n p) ++ '.' :: ffFrac n p) = some ((n : ℚ) / 10 ^ p) := by
  obtain ⟨hdig, hval, hlen⟩ := ffDigits_spec n p
  have hia : (ffInt n p).all Char.isDigit = true := by
    rw [List.all_eq_true]
    intro c hc
    exact List.all_eq_true.mp hdig c (List.take_subset _ _ hc)
  have hfa : (ffFrac n p).all Char.isDigit = true := by
    rw [List.all_eq_true]
    intro c hc
    exact List.all_eq_true.mp hdig c (List.drop_subset _ _ hc)
  have hine : padZeros w (ffInt n p) ≠ [] := by
    have h1 := ffInt_length n p
    have h2 := padZeros_length w (ffInt n p)
    intro hcon
    rw [hcon] at h2
    simp at h2
    omega
  have hza : (padZeros w (ffInt n p)).all Char.isDigit = true :=
    padZeros_all_digits _ _ hia
  rw [pyFloatP_digits _ _ hza hfa (Or.inl hine), ffFrac_length, charsToNat_padZeros]
  have hsplit : charsToNat (ffInt n p) * 10 ^ p + charsToNat (ffFrac n p) = n := by
    have happ := charsToNat_append (ffInt n p) (ffFrac n p)
    rw [ffInt_append_ffFrac, hval, ffFrac_length] at happ
    omega
  congr 1
  have h10 : ((10 : ℚ) ^ p) ≠ 0 := by positivity
  field_simp
  exact_mod_cast hsplit

/-- `int(...)` on a successfully parsed string. -/
theorem pyIntE_of_some (s : PyStr) (v : ℤ) (h : pyIntP s = some v) : pyIntE s = .ok v := by
  unfold pyIntE
  rw [h]

/-- `float(...)` on a successfully parsed string. -/
theorem pyFloatE_of_some (s : PyStr) (v : ℚ) (h : pyFloatP s = some v) :
    pyFloatE s = .ok v := by
  unfold pyFloatE
  rw [h]

/-- The satellite-number block parses back to its value. -/
theorem fmt05d_parse (z : ℤ) (h1 : 0 ≤ z) (h2 : z < 100000) :
    pyIntE (fmt05d z) = .ok z := by
  obtain ⟨hlen, hdig, hval⟩ := fmt05d_spec z h1 h2
  have hne : fmt05d z ≠ [] := by
    intro hcon
    rw [hcon] at hlen
    simp at hlen
  refine pyIntE_of_some _ _ ?_
  rw [pyIntP_digits _ hdig hne, hval]

/-- A space-padded nonnegative integer block parses back to its value. -/
theorem padSp_int_parse (z : ℤ) (w k : ℕ) (h1 : 0 ≤ z) (h2 : z < 10 ^ k) (hk : 1 ≤ k) :
    pyIntE (padSp w (strOfInt z)) = .ok z := by
  refine pyIntE_of_some _ _ ?_
  rw [strOfInt_nonneg z h1, padSp, pyIntP_spaces,
    pyIntP_digits _ (natChars_all_digits _) (natChars_ne_nil _), charsToNat_natChars]
  congr 1
  omega

/-- The two-digit-year block parses back. -/
theorem yr_parse (y : ℤ) (h1 : 1957 ≤ y) (h2 : y ≤ 2056) :
    pyIntE (lastTwo (strOfInt y)) = .ok ((charsToNat (lastTwo (strOfInt y)) : ℤ)) := by
  obtain ⟨hlen, hdig, _⟩ := year_roundtrip y h1 h2
  refine pyIntE_of_some _ _ ?_
  rw [pyIntP_digits _ hdig (by intro hcon; rw [hcon] at hlen; simp at hlen)]

/-- The cumulative-month scan inverts the day-of-year computation. -/
theorem doySplit_inv (ml : List ℕ) (j : ℕ) (day : ℤ) (hd1 : 1 ≤ day)
    (hd2 : day ≤ ((ml.getD j 0 : ℕ) : ℤ)) :
    doySplit ml ((((ml.take j).sum : ℕ) : ℤ) + day) = ((j : ℤ) + 1, day) := by
  induction ml generalizing j with
  | nil =>
    have hz : ((([] : List ℕ).getD j 0 : ℕ) : ℤ) = 0 := by cases j <;> rfl
    rw [hz] at hd2
    omega
  | cons m rest ih =>
    cases j with
    | zero =>
      simp only [List.take_zero, List.sum_nil, Nat.cast_zero, zero_add]
      rw [doySplit, if_pos (by simpa using hd2)]
    | succ j' =>
      have hd2' : day ≤ ((rest.getD j' 0 : ℕ) : ℤ) := by simpa using hd2
      have hS : (0 : ℤ) ≤ (((rest.take j').sum : ℕ) : ℤ) := by positivity
      have harg : ((((m :: rest).take (j' + 1)).sum : ℕ) : ℤ) + day =
          (m : ℤ) + (((((rest.take j').sum : ℕ) : ℤ)) + day) := by
        rw [List.take_succ_cons, List.sum_cons, Nat.cast_add]
        ring
      rw [harg]
      simp only [doySplit]
      rw [if_neg (by omega)]
      rw [show (m : ℤ) + (((((rest.take j').sum : ℕ) : ℤ)) + day) - (m : ℤ) =
        ((((rest.take j').sum : ℕ) : ℤ)) + day from by ring]
      rw [ih j' hd2']
      rw [show ((j' : ℤ) + 1 + 1) = (((j' + 1 : ℕ) : ℤ) + 1) from by push_cast; ring]

/-- `days2mdhms` inverts the epoch-day encoding of a valid timestamp on the
`10^-8`-day grid. -/
theorem days2mdhms_inv (dt : PyDateTime) (Y : ℕ)
    (hmon1 : 1 ≤ dt.month) (hmon2 : dt.month ≤ 12)
    (hday1 : 1 ≤ dt.day) (hday2 : dt.day ≤ monthLen (isLeapYear dt.year) dt.month)
    (hh1 : 0 ≤ dt.hour) (hh2 : dt.hour < 24)
    (hm1 : 0 ≤ dt.minute) (hm2 : dt.minute < 60)
    (hs1 : 0 ≤ dt.second) (hs2 : dt.second < 60)
    (hu1 : 0 ≤ dt.usec) (hu2 : dt.usec < 1000000)
    (hY : (Y : ℤ) * 864 =
      (dt.hour * 3600 + dt.minute * 60 + dt.second) * 1000000 + dt.usec) :
    days2mdhms dt.year (((dayOfYear dt * 10 ^ 8 + (Y : ℤ) : ℤ) : ℚ) / 10 ^ 8) =
      (dt.month, dt.day, dt.hour, dt.minute,
        (dt.second : ℚ) + (dt.usec : ℚ) / 1000000) := by
  have hYub : Y < 10 ^ 8 := by omega
  have hq : (((dayOfYear dt * 10 ^ 8 + (Y : ℤ) : ℤ) : ℚ)) / 10 ^ 8 =
      (dayOfYear dt : ℚ) + (Y : ℚ) / 10 ^ 8 := by
    rw [div_eq_iff (by norm_num : ((10 : ℚ) ^ 8) ≠ 0)]
    push_cast
    ring
  have hYlt1 : (Y : ℚ) / 10 ^ 8 < 1 := by
    rw [div_lt_one (by norm_num)]
    exact_mod_cast hYub
  have hY0 : (0 : ℚ) ≤ (Y : ℚ) / 10 ^ 8 := by positivity
  have hfl : ⌊(dayOfYear dt : ℚ) + (Y : ℚ) / 10 ^ 8⌋ = dayOfYear dt := by
    rw [Int.floor_eq_iff]
    constructor
    · linarith
    · push_cast
      linarith
  have hsplit : doySplit (monthLengths (isLeapYear dt.year)) (dayOfYear dt) =
      (dt.month, dt.day) := by
    rw [dayOfYear]
    rw [monthLen] at hday2
    rw [doySplit_inv (monthLengths (isLeapYear dt.year)) (dt.month - 1).toNat dt.day
      hday1 hday2]
    rw [show (((dt.month - 1).toNat : ℤ) + 1) = dt.month from by omega]
  have hhr : ⌊(Y : ℚ) * 24 / 10 ^ 8⌋ = dt.hour := by
    rw [Int.floor_eq_iff]
    constructor
    · rw [le_div_iff (by norm_num : (0 : ℚ) < 10 ^ 8)]
      exact_mod_cast (by omega : dt.hour * 10 ^ 8 ≤ (Y : ℤ) * 24)
    · rw [div_lt_iff (by norm_num : (0 : ℚ) < 10 ^ 8)]
      push_cast
      exact_mod_cast (by omega : (Y : ℤ) * 24 < (dt.hour + 1) * 10 ^ 8)
  have htemp : ((dayOfYear dt : ℚ) + (Y : ℚ) / 10 ^ 8 - (dayOfYear dt : ℚ)) * 24 =
      (Y : ℚ) * 24 / 10 ^ 8 := by ring
  have htemp2 : ((Y : ℚ) * 24 / 10 ^ 8 - (dt.hour : ℚ)) * 60 =
      (((Y : ℤ) * 1440 - dt.hour * 60 * 10 ^ 8 : ℤ) : ℚ) / 10 ^ 8 := by
    push_cast
    field_simp
    ring
  have hmin : ⌊(((Y : ℤ) * 1440 - dt.hour * 60 * 10 ^ 8 : ℤ) : ℚ) / 10 ^ 8⌋ =
      dt.minute := by
    rw [Int.floor_eq_iff]
    constructor
    · rw [le_div_iff (by norm_num : (0 : ℚ) < 10 ^ 8)]
      exact_mod_cast (by omega :
        dt.minute * 10 ^ 8 ≤ (Y : ℤ) * 1440 - dt.hour * 60 * 10 ^ 8)
    · rw [div_lt_iff (by norm_num : (0 : ℚ) < 10 ^ 8)]
      push_cast
      exact_mod_cast (by omega :
        (Y : ℤ) * 1440 - dt.hour * 60 * 10 ^ 8 < (dt.minute + 1) * 10 ^ 8)
  have hsec : ((((Y : ℤ) * 1440 - dt.hour * 60 * 10 ^ 8 : ℤ) : ℚ) / 10 ^ 8 -
      (dt.minute : ℚ)) * 60 = (dt.second : ℚ) + (dt.usec : ℚ) / 1000000 := by
    have hYq : (Y : ℚ) * 864 =
        ((dt.hour : ℚ) * 3600 + (dt.minute : ℚ) * 60 + (dt.second : ℚ)) * 1000000 +
          (dt.usec : ℚ) := by exact_mod_cast hY
    push_cast
    field_simp
    linarith [hYq]
  rw [hq]
  simp only [days2mdhms]
  rw [hfl, hsplit, htemp, hhr, htemp2, hmin, hsec]

/-- Space-to-zero replacement is the identity on digit strings. -/
theorem map_digits_id (l : PyStr) (h : l.all Char.isDigit = true) :
    l.map (fun c => if c = ' ' then '0' else c) = l := by
  induction l with
  | nil => rfl
  | cons c t ih =>
    simp only [List.all_cons, Bool.and_eq_true] at h
    rw [List.map_cons, ih h.2, if_neg]
    intro hcon
    subst hcon
    exact absurd h.1 (by decide)

/-- Parsing the eccentricity digits prefixed by `"0."` is exact. -/
theorem ecc_parse (n : ℕ) (h : n < 10 ^ 7) :
    pyFloatP ('0' :: '.' :: ffFrac n 7) = some ((n : ℚ) / 10 ^ 7) := by
  have hd := pyFloatP_digits ['0'] (ffFrac n 7) (by decide) (ffFrac_all_digits n 7)
    (Or.inl (by simp))
  rw [show (['0'] ++ '.' :: ffFrac n 7 : PyStr) = '0' :: '.' :: ffFrac n 7 from rfl] at hd
  rw [hd, ffFrac_val_lt_one n 7 h (by norm_num), ffFrac_length,
    show ((charsToNat ['0'] : ℕ) : ℚ) = 0 from rfl]
  rw [zero_add]

set_option maxHeartbeats 1600000 in
/-- Parsing the first-derivative field (sign, point, eight digits) is exact. -/
theorem ndot_field_parse (z : ℤ) (q : ℚ) (h2 : -(10 : ℤ) ^ 8 < z) (h3 : z < 10 ^ 8)
    (hq : q = (z : ℚ) / 10 ^ 8) :
    pyFloatP ((if q < 0 then '-' else ' ') :: '.' :: ffFrac (|z|).toNat 8) =
      some ((z : ℚ) / 10 ^ 8) := by
  have hfa := ffFrac_all_digits (|z|).toNat 8
  have hfv : charsToNat (ffFrac (|z|).toNat 8) = (|z|).toNat :=
    ffFrac_val_lt_one _ 8 (by have := abs_lt.mpr ⟨by omega, h3⟩; omega) (by norm_num)
  have hflen := ffFrac_length (|z|).toNat 8
  have hfne : ffFrac (|z|).toNat 8 ≠ [] := by
    intro hcon
    rw [hcon] at hflen
    simp at hflen
  by_cases hlt : q < 0
  · have hzneg : z < 0 := by
      by_contra hge
      push_neg at hge
      have : (0 : ℚ) ≤ q := by
        rw [hq]
        positivity
      linarith
    rw [if_pos hlt]
    have hd := pyFloatP_digits_neg [] (ffFrac (|z|).toNat 8) rfl hfa (Or.inr hfne)
    rw [show (([] : PyStr) ++ '.' :: ffFrac (|z|).toNat 8) = '.' :: ffFrac (|z|).toNat 8
      from rfl] at hd
    rw [hd, hfv, hflen, show ((charsToNat ([] : PyStr) : ℕ) : ℚ) = 0 from rfl]
    have hcast : (((|z|).toNat : ℕ) : ℚ) = -(z : ℚ) := by
      rw [abs_of_neg hzneg]
      have h1 : ((-z).toNat : ℤ) = -z := Int.toNat_of_nonneg (by omega)
      calc (((-z).toNat : ℕ) : ℚ) = (((-z).toNat : ℤ) : ℚ) := by norm_cast
      _ = ((-z : ℤ) : ℚ) := by rw [h1]
      _ = -(z : ℚ) := by push_cast; ring
    rw [hcast]
    congr 1
    ring
  · have hznn : 0 ≤ z := by
      by_contra hneg
      push_neg at hneg
      have hqneg : q < 0 := by
        rw [hq]
        apply div_neg_of_neg_of_pos
        · exact_mod_cast hneg
        · norm_num
      exact hlt hqneg
    rw [if_neg hlt]
    rw [show ((' ' :: '.' :: ffFrac (|z|).toNat 8) : PyStr) =
      List.replicate 1 ' ' ++ (([] : PyStr) ++ '.' :: ffFrac (|z|).toNat 8) from rfl,
      pyFloatP_spaces, pyFloatP_digits [] _ rfl hfa (Or.inr hfne), hfv, hflen,
      show ((charsToNat ([] : PyStr) : ℕ) : ℚ) = 0 from rfl]
    have hcast : (((|z|).toNat : ℕ) : ℚ) = (z : ℚ) := by
      rw [abs_of_nonneg hznn]
      have h1 : (z.toNat : ℤ) = z := Int.toNat_of_nonneg hznn
      calc ((z.toNat : ℕ) : ℚ) = ((z.toNat : ℤ) : ℚ) := by norm_cast
      _ = (z : ℚ) := by rw [h1]
    rw [hcast, zero_add]

set_option maxHeartbeats 4000000 in
/-- Core of the canonical line-1 parse: with the drag-term blocks abstracted,
`parseLine1` of the formatted line succeeds and recovers the grid values. -/
theorem parse1_core (s : Satellite) (h : TleGrid s) (mant ex : PyStr) (bsgn : Char)
    (B : ℚ) (E : ℤ) (hmantl : mant.length = 5) (hexl : ex.length = 2)
    (hBF2 : bstarField s = bsgn :: (mant ++ ex))
    (hbv : pyFloatP (bsgn :: '.' :: mant) = some B)
    (hbe : pyIntP ex = some E)
    (hprod : B * ratPow10 E = s.bstar) :
    ∃ r1 : RawLine1, parseLine1 (rv2twolineL1 s) = .ok r1 ∧
      r1.satnum = s.satnum ∧
      r1.classification = s.classification ∧
      resolveTwoDigitYear r1.two_digit_year = s.epoch.year ∧
      (∃ Y : ℕ, (Y : ℤ) * 864 =
          (s.epoch.hour * 3600 + s.epoch.minute * 60 + s.epoch.second) * 1000000 +
            s.epoch.usec ∧ Y < 10 ^ 8 ∧
        r1.epochdays = ((dayOfYear s.epoch * 10 ^ 8 + (Y : ℤ) : ℤ) : ℚ) / 10 ^ 8) ∧
      r1.ndot / (xpdotp * 1440) = s.ndot ∧
      r1.nddot * ratPow10 r1.nexp / (xpdotp * 1440 * 1440) = s.nddot ∧
      r1.bstar * ratPow10 r1.ibexp = s.bstar ∧
      r1.elnum = s.elnum := by
  obtain ⟨cd, hcd, hcdd⟩ := natChars_checksum (canonLine1 s)
  obtain ⟨Y, hY, hYub, hrepr⟩ := epochdays_repr s h
  obtain ⟨hd1, hd2⟩ := dayOfYear_bounds s.epoch h.mon_lb h.mon_ub h.day_lb h.day_ub
  have hZ : dayOfYear s.epoch * 10 ^ 8 + (Y : ℤ) =
      (((dayOfYear s.epoch).toNat * 10 ^ 8 + Y : ℕ) : ℤ) := by
    push_cast
    omega
  obtain ⟨N, hNdef⟩ : ∃ N : ℕ, N = (dayOfYear s.epoch).toNat * 10 ^ 8 + Y := ⟨_, rfl⟩
  have hZcast : dayOfYear s.epoch * 10 ^ 8 + (Y : ℤ) = (N : ℤ) := by
    rw [hNdef]
    exact hZ
  have hsate : s.epochdays = (N : ℚ) / 10 ^ 8 := by
    rw [hrepr, hZcast, Int.cast_natCast]
  have hNub : N < 10 ^ 11 := by
    rw [hNdef]
    have hdn : (dayOfYear s.epoch).toNat ≤ 366 := by omega
    have : (dayOfYear s.epoch).toNat * 10 ^ 8 ≤ 366 * 10 ^ 8 :=
      Nat.mul_le_mul_right _ hdn
    omega
  have hepd : padZeroAlign 12 (formatFixed s.epochdays 8) =
      padZeros 3 (ffInt N 8) ++ '.' :: ffFrac N 8 := by
    rw [hsate]
    exact ep_decomp N hNub
  have hepil : (padZeros 3 (ffInt N 8)).length = 3 := by
    rw [padZeros_length]
    have := ffInt_length_le N 8 3 (by norm_num) hNub
    omega
  obtain ⟨z, hz1, hz2, hzv⟩ := h.ndot_grid
  have hxp : (xpdotp * 1440 : ℚ) ≠ 0 := mul_ne_zero xpdotp_ne (by norm_num)
  have hmin : s.ndot * (xpdotp * 1440) = (z : ℚ) / 10 ^ 8 := by
    rw [hzv, div_mul_cancel₀ _ hxp]
  have hr8 : ratPow10 (8 : ℤ) = 10 ^ 8 := by with_unfolding_all rfl
  have habs : |s.ndot * (xpdotp * 1440)| * ratPow10 8 = ((|z| : ℤ) : ℚ) := by
    rw [hmin, hr8, abs_div, show |(10 : ℚ) ^ 8| = 10 ^ 8 from abs_of_pos (by norm_num),
      div_mul_cancel₀ _ (by norm_num : ((10 : ℚ) ^ 8) ≠ 0), Int.cast_abs]
  have hndf2 : ndotField s = (if s.ndot * (xpdotp * 1440) < 0 then '-' else ' ') ::
      '.' :: ffFrac (|z|).toNat 8 := by
    rw [(ndotField_spec s).2, habs, roundHalfEvenZ_intCast]
  have hndv : pyFloatP ((if s.ndot * (xpdotp * 1440) < 0 then '-' else ' ') ::
      '.' :: ffFrac (|z|).toNat 8) = some ((z : ℚ) / 10 ^ 8) :=
    ndot_field_parse z _ hz1 hz2 hmin
  have hyrl := year_roundtrip s.epochyr h.year_lb h.year_ub
  have helnl : (padSp 4 (strOfInt s.elnum)).length = 4 := by
    apply padSp_length
    rw [strOfInt_nonneg _ h.elnum_lb]
    exact natChars_length_le _ 4 (by norm_num)
      (by have := h.elnum_ub; have := h.elnum_lb; omega)
  have hclsne : s.classification ≠ [] := by
    intro hcon
    have hc := h.cls_len
    rw [hcon] at hc
    simp at hc
  have hline2 : rv2twolineL1 s =
      pystr "1 " ++ fmt05d s.satnum ++ s.classification ++ pystr " " ++ s.intldesg ++
      pystr "   " ++ lastTwo (strOfInt s.epochyr) ++
      (padZeros 3 (ffInt N 8) ++ '.' :: ffFrac N 8) ++ pystr " " ++
      ((if s.ndot * (xpdotp * 1440) < 0 then '-' else ' ') ::
        '.' :: ffFrac (|z|).toNat 8) ++
      pystr " " ++ (' ' :: pystr "00000-0") ++ pystr " " ++ (bsgn :: (mant ++ ex)) ++
      pystr " 0 " ++ padSp 4 (strOfInt s.elnum) ++ [cd] := by
    rw [line1_canonical s h, hcd]
    simp only [canonLine1]
    rw [hepd, hndf2, hBF2]
  obtain ⟨hOk, h27, h78, h917, h1820, h2032, h3343, h4450, h5052, h5359, h5961, h6468⟩ :=
    slice1 (fmt05d s.satnum) s.classification s.intldesg (lastTwo (strOfInt s.epochyr))
      (padZeros 3 (ffInt N 8)) (ffFrac N 8) (ffFrac (|z|).toNat 8) mant ex
      (padSp 4 (strOfInt s.elnum))
      (if s.ndot * (xpdotp * 1440) < 0 then '-' else ' ') bsgn cd
      (fmt05d_spec s.satnum h.satnum_lb h.satnum_ub).1 h.cls_len h.intl_len hyrl.1
      hepil (ffFrac_length N 8) (ffFrac_length (|z|).toNat 8) hmantl hexl helnl
  have hnddotv : pyFloatE [' ', '.', '0', '0', '0', '0', '0'] = .ok 0 := by
    with_unfolding_all rfl
  have hnexpv : pyIntE ['-', '0'] = .ok 0 := by
    with_unfolding_all rfl
  refine ⟨⟨s.satnum, s.classification, s.intldesg ++ [' ', ' '],
    (charsToNat (lastTwo (strOfInt s.epochyr)) : ℤ), (N : ℚ) / 10 ^ 8,
    (z : ℚ) / 10 ^ 8, 0, 0, B, E, s.elnum⟩, ?_, rfl, rfl, ?_, ?_, ?_, ?_, hprod, rfl⟩
  · rw [hline2]
    simp only [parseLine1]
    rw [pyRstrip_digit _ cd hcdd]
    rw [if_pos hOk]
    rw [h27, fmt05d_parse s.satnum h.satnum_lb h.satnum_ub, except_bind_ok]
    rw [h78, if_neg hclsne, h917]
    rw [h1820, yr_parse s.epochyr h.year_lb h.year_ub, except_bind_ok]
    rw [h2032, pyFloatE_of_some _ _ (pyFloatP_padZeros_grid N 8 3), except_bind_ok]
    rw [h3343, pyFloatE_of_some _ _ hndv, except_bind_ok]
    rw [h4450, hnddotv, except_bind_ok]
    rw [h5052, hnexpv, except_bind_ok]
    rw [h5359, pyFloatE_of_some _ _ hbv, except_bind_ok]
    rw [h5961, pyIntE_of_some _ _ hbe, except_bind_ok]
    rw [h6468, padSp_int_parse s.elnum 4 4 h.elnum_lb
      (by have := h.elnum_ub; omega) (by norm_num), except_bind_ok]
    rfl
  · exact h.year_eq ▸ hyrl.2.2
  · exact ⟨Y, hY, hYub, by rw [hZcast, Int.cast_natCast]⟩
  · exact hzv.symm
  · rw [h.nddot_zero]
    norm_num

/-- Canonical line-1 parse for every gridded Entity: `parseLine1` of the
formatter's line 1 succeeds and recovers each stored quantity. -/
theorem parse1_canonical (s : Satellite) (h : TleGrid s) :
    ∃ r1 : RawLine1, parseLine1 (rv2twolineL1 s) = .ok r1 ∧
      r1.satnum = s.satnum ∧
      r1.classification = s.classification ∧
      resolveTwoDigitYear r1.two_digit_year = s.epoch.year ∧
      (∃ Y : ℕ, (Y : ℤ) * 864 =
          (s.epoch.hour * 3600 + s.epoch.minute * 60 + s.epoch.second) * 1000000 +
            s.epoch.usec ∧ Y < 10 ^ 8 ∧
        r1.epochdays = ((dayOfYear s.epoch * 10 ^ 8 + (Y : ℤ) : ℤ) : ℚ) / 10 ^ 8) ∧
      r1.ndot / (xpdotp * 1440) = s.ndot ∧
      r1.nddot * ratPow10 r1.nexp / (xpdotp * 1440 * 1440) = s.nddot ∧
      r1.bstar * ratPow10 r1.ibexp = s.bstar ∧
      r1.elnum = s.elnum := by
  rcases h.bstar_grid with h0 | ⟨m, ib, h1, h2, h3, h4, hval⟩
  · refine parse1_core s h (pystr "00000") (pystr "+0") ' ' 0 0 rfl rfl ?_ ?_ ?_ ?_
    · rw [bstarField, if_pos h0]
      with_unfolding_all rfl
    · with_unfolding_all rfl
    · with_unfolding_all rfl
    · rw [zero_mul, h0]
  · have hP := ratPow10_pos ib
    have hmagpos : (0 : ℚ) < (m : ℚ) / 10 ^ 5 * ratPow10 ib := by
      have : (0 : ℚ) < (m : ℚ) := by
        have : 0 < m := by omega
        exact_mod_cast this
      positivity
    have hfa := ffFrac_all_digits m 5
    have hfv : charsToNat (ffFrac m 5) = m := ffFrac_val_lt_one m 5 h2 (by norm_num)
    have hflen := ffFrac_length m 5
    have hfne : ffFrac m 5 ≠ [] := by
      intro hcon
      rw [hcon] at hflen
      simp at hflen
    have hexlen : (if ib = 0 then pystr "-0" else '-' :: natChars (-ib).toNat).length = 2 := by
      split
      · rfl
      · simp [natChars_length_lt10 (-ib).toNat (by omega)]
    have hbe' : pyIntP (if ib = 0 then pystr "-0" else '-' :: natChars (-ib).toNat) =
        some ib := by
      by_cases hib : ib = 0
      · rw [if_pos hib, hib]
        with_unfolding_all rfl
      · rw [if_neg hib,
          pyIntP_digits_neg _ (natChars_all_digits _) (natChars_ne_nil _),
          charsToNat_natChars]
        congr 1
        omega
    rcases hval with hv | hv
    · have hpos : ¬ s.bstar < 0 := by
        rw [hv]
        exact not_lt.mpr (le_of_lt hmagpos)
      have hbvpos : pyFloatP (' ' :: '.' :: ffFrac m 5) = some ((m : ℚ) / 10 ^ 5) := by
        rw [show ((' ' :: '.' :: ffFrac m 5) : PyStr) =
          List.replicate 1 ' ' ++ (([] : PyStr) ++ '.' :: ffFrac m 5) from rfl,
          pyFloatP_spaces, pyFloatP_digits [] _ rfl hfa (Or.inr hfne), hfv, hflen,
          show ((charsToNat ([] : PyStr) : ℕ) : ℚ) = 0 from rfl, zero_add]
      refine parse1_core s h (ffFrac m 5)
        (if ib = 0 then pystr "-0" else '-' :: natChars (-ib).toNat) ' '
        ((m : ℚ) / 10 ^ 5) ib hflen hexlen ?_ hbvpos hbe' ?_
      · rw [(bstarField_eq s m ib h1 h2 h3 h4 (Or.inl hv)).1, if_neg hpos]
      · exact hv.symm
    · have hneg : s.bstar < 0 := by
        rw [hv]
        exact neg_lt_zero.mpr hmagpos
      have hbvneg : pyFloatP ('-' :: '.' :: ffFrac m 5) =
          some (-((m : ℚ) / 10 ^ 5)) := by
        have hd := pyFloatP_digits_neg [] (ffFrac m 5) rfl hfa (Or.inr hfne)
        rw [show (([] : PyStr) ++ '.' :: ffFrac m 5) = '.' :: ffFrac m 5 from rfl] at hd
        rw [hd, hfv, hflen, show ((charsToNat ([] : PyStr) : ℕ) : ℚ) = 0 from rfl,
          zero_add]
      refine parse1_core s h (ffFrac m 5)
        (if ib = 0 then pystr "-0" else '-' :: natChars (-ib).toNat) '-'
        (-((m : ℚ) / 10 ^ 5)) ib hflen hexlen ?_ hbvneg hbe' ?_
      · rw [(bstarField_eq s m ib h1 h2 h3 h4 (Or.inr hv)).1, if_pos hneg]
      · rw [hv]
        ring

set_option maxHeartbeats 1600000 in
/-- Canonical line-2 parse for every gridded Entity: `parseLine2` of the
formatter's line 2 succeeds and recovers each stored quantity. -/
theorem parse2_canonical (s : Satellite) (h : TleGrid s) :
    ∃ r2 : RawLine2, parseLine2 (rv2twolineL2 s) s.satnum = .ok r2 ∧
      r2.satnum = s.satnum ∧ r2.inclo * deg2rad = s.inclo ∧
      r2.nodeo * deg2rad = s.nodeo ∧ r2.ecco = s.ecco ∧
      r2.argpo * deg2rad = s.argpo ∧ r2.mo * deg2rad = s.mo ∧
      r2.no_kozai / xpdotp = s.no_kozai ∧ r2.revnum = s.revnum := by
  obtain ⟨cd, hcd, hcdd⟩ := natChars_checksum (canonLine2 s)
  obtain ⟨ni, hni0, hni, hvi⟩ := h.incl_grid
  obtain ⟨nn, hnn, hvn⟩ := h.node_grid
  obtain ⟨na, hna, hva⟩ := h.argp_grid
  obtain ⟨nm, hnm, hvm⟩ := h.mo_grid
  obtain ⟨nee, hnee, hve⟩ := h.ecc_grid
  obtain ⟨nk, hnk, hvk⟩ := h.nkoz_grid
  have hqi : s.inclo / deg2rad = (ni : ℚ) / 10 ^ 4 := by
    rw [hvi, mul_div_cancel_right₀ _ deg2rad_ne]
  have hqn : s.nodeo / deg2rad = (nn : ℚ) / 10 ^ 4 := by
    rw [hvn, mul_div_cancel_right₀ _ deg2rad_ne]
  have hqa : s.argpo / deg2rad = (na : ℚ) / 10 ^ 4 := by
    rw [hva, mul_div_cancel_right₀ _ deg2rad_ne]
  have hqm : s.mo / deg2rad = (nm : ℚ) / 10 ^ 4 := by
    rw [hvm, mul_div_cancel_right₀ _ deg2rad_ne]
  have hqk : s.no_kozai * xpdotp = (nk : ℚ) / 10 ^ 8 := by
    rw [hvk, div_mul_cancel₀ _ xpdotp_ne]
  have hdi : padSp 8 (formatFixed (s.inclo / deg2rad) 4) =
      padSp 3 (ffInt ni 4) ++ '.' :: ffFrac ni 4 := by
    rw [hqi]
    exact slot_decomp ni 4 3 8 (by norm_num)
  have hdn : padSp 8 (formatFixed (s.nodeo / deg2rad) 4) =
      padSp 3 (ffInt nn 4) ++ '.' :: ffFrac nn 4 := by
    rw [hqn]
    exact slot_decomp nn 4 3 8 (by norm_num)
  have hda : padSp 8 (formatFixed (s.argpo / deg2rad) 4) =
      padSp 3 (ffInt na 4) ++ '.' :: ffFrac na 4 := by
    rw [hqa]
    exact slot_decomp na 4 3 8 (by norm_num)
  have hdm : padSp 8 (formatFixed (s.mo / deg2rad) 4) =
      padSp 3 (ffInt nm 4) ++ '.' :: ffFrac nm 4 := by
    rw [hqm]
    exact slot_decomp nm 4 3 8 (by norm_num)
  have hde : (padSp 8 (formatFixed s.ecco 7)).drop 2 = ffFrac nee 7 := by
    rw [hve, formatFixed_lt_one nee 7 hnee (by norm_num),
      padSp_of_ge 8 _ (by simp [ffFrac_length])]
    rfl
  have hdk : padSp 11 (formatFixed (s.no_kozai * xpdotp) 8) =
      padSp 2 (ffInt nk 8) ++ '.' :: ffFrac nk 8 := by
    rw [hqk]
    exact slot_decomp nk 8 2 11 (by norm_num)
  have hiil : (padSp 3 (ffInt ni 4)).length = 3 :=
    padSp_length 3 _ (ffInt_length_le ni 4 3 (by norm_num) hni)
  have hnil : (padSp 3 (ffInt nn 4)).length = 3 :=
    padSp_length 3 _ (ffInt_length_le nn 4 3 (by norm_num) hnn)
  have hail : (padSp 3 (ffInt na 4)).length = 3 :=
    padSp_length 3 _ (ffInt_length_le na 4 3 (by norm_num) hna)
  have hmil : (padSp 3 (ffInt nm 4)).length = 3 :=
    padSp_length 3 _ (ffInt_length_le nm 4 3 (by norm_num) hnm)
  have hkil : (padSp 2 (ffInt nk 8)).length = 2 :=
    padSp_length 2 _ (ffInt_length_le nk 8 2 (by norm_num) hnk)
  have hrevl : (padSp 5 (strOfInt s.revnum)).length = 5 := by
    apply padSp_length
    rw [strOfInt_nonneg _ h.revnum_lb]
    exact natChars_length_le _ 5 (by norm_num)
      (by have := h.revnum_ub; have := h.revnum_lb; omega)
  have hline2 : rv2twolineL2 s =
      pystr "2 " ++ fmt05d s.satnum ++ pystr " " ++
      (padSp 3 (ffInt ni 4) ++ '.' :: ffFrac ni 4) ++ pystr " " ++
      (padSp 3 (ffInt nn 4) ++ '.' :: ffFrac nn 4) ++ pystr " " ++
      ffFrac nee 7 ++ pystr " " ++
      (padSp 3 (ffInt na 4) ++ '.' :: ffFrac na 4) ++ pystr " " ++
      (padSp 3 (ffInt nm 4) ++ '.' :: ffFrac nm 4) ++ pystr " " ++
      (padSp 2 (ffInt nk 8) ++ '.' :: ffFrac nk 8) ++
      padSp 5 (strOfInt s.revnum) ++ [cd] := by
    rw [line2_canonical s h, hcd]
    simp only [canonLine2]
    rw [hdi, hdn, hde, hda, hdm, hdk]
  obtain ⟨hOk, h27, h816, h1725, h2633, h3442, h4351, h5263, h6368⟩ :=
    slice2 (fmt05d s.satnum) (padSp 3 (ffInt ni 4)) (ffFrac ni 4)
      (padSp 3 (ffInt nn 4)) (ffFrac nn 4) (ffFrac nee 7)
      (padSp 3 (ffInt na 4)) (ffFrac na 4) (padSp 3 (ffInt nm 4)) (ffFrac nm 4)
      (padSp 2 (ffInt nk 8)) (ffFrac nk 8) (padSp 5 (strOfInt s.revnum)) cd
      (fmt05d_spec s.satnum h.satnum_lb h.satnum_ub).1 hiil (ffFrac_length ni 4)
      hnil (ffFrac_length nn 4) (ffFrac_length nee 7) hail (ffFrac_length na 4)
      hmil (ffFrac_length nm 4) hkil (ffFrac_length nk 8) hrevl
  have hmapid : (ffFrac nee 7).map (fun c => if c = ' ' then '0' else c) =
      ffFrac nee 7 := map_digits_id _ (ffFrac_all_digits nee 7)
  refine ⟨⟨s.satnum, (ni : ℚ) / 10 ^ 4, (nn : ℚ) / 10 ^ 4, (nee : ℚ) / 10 ^ 7,
    (na : ℚ) / 10 ^ 4, (nm : ℚ) / 10 ^ 4, (nk : ℚ) / 10 ^ 8, s.revnum⟩,
    ?_, rfl, hvi.symm, hvn.symm, hve.symm, hva.symm, hvm.symm, hvk.symm, rfl⟩
  rw [hline2]
  simp only [parseLine2]
  rw [pyRstrip_digit _ cd hcdd, if_pos hOk]
  rw [h27, fmt05d_parse s.satnum h.satnum_lb h.satnum_ub, except_bind_ok]
  rw [if_neg (show ¬ s.satnum ≠ s.satnum from by simp)]
  rw [h816, pyFloatE_of_some _ _ (pyFloatP_padSp_grid ni 4 3), except_bind_ok]
  rw [h1725, pyFloatE_of_some _ _ (pyFloatP_padSp_grid nn 4 3), except_bind_ok]
  rw [h2633, hmapid, pyFloatE_of_some _ _ (ecc_parse nee hnee), except_bind_ok]
  rw [h3442, pyFloatE_of_some _ _ (pyFloatP_padSp_grid na 4 3), except_bind_ok]
  rw [h4351, pyFloatE_of_some _ _ (pyFloatP_padSp_grid nm 4 3), except_bind_ok]
  rw [h5263, pyFloatE_of_some _ _ (pyFloatP_padSp_grid nk 8 2), except_bind_ok]
  rw [h6368, padSp_int_parse s.revnum 5 5 h.revnum_lb
    (by have := h.revnum_ub; omega) (by norm_num), except_bind_ok]
  rfl

set_option maxHeartbeats 1600000 in
/-- **C2** (amended): `parse(format(e))` is the identity on the canonical
elements of every directly constructed Entity whose elements lie exactly on
the TLE grid — values representable in the columns (4 decimal digits of a
degree for the angles, 7 for eccentricity, 8 for the mean-motion fields), a
six-character designator, zero second derivative, drag term zero or with a
five-digit mantissa, identifiers in range, and the epoch on the
`10^-8`-day grid.  Off that grid the round trip only reproduces values to
the columns' resolution (see the counterexample). -/
theorem claim_C2_theorem (s : Satellite) (h : TleGrid s) (wc : GravConst) :
    ∃ l1 l2 s', rv2twoline s = some (l1, l2) ∧ twoline2rv l1 l2 wc = .ok s' ∧
      s'.satnum = s.satnum ∧ s'.classification = s.classification ∧
      s'.epoch = s.epoch ∧ s'.epochyr = s.epochyr ∧ s'.epochdays = s.epochdays ∧
      s'.bstar = s.bstar ∧ s'.inclo = s.inclo ∧ s'.nodeo = s.nodeo ∧
      s'.ecco = s.ecco ∧ s'.argpo = s.argpo ∧ s'.mo = s.mo ∧
      s'.no_kozai = s.no_kozai ∧ s'.ndot = s.ndot ∧ s'.nddot = s.nddot ∧
      s'.elnum = s.elnum ∧ s'.revnum = s.revnum := by
  obtain ⟨ni, hni0, hni, hvi⟩ := h.incl_grid
  have hpos : 0 < s.inclo / deg2rad := by
    rw [hvi, mul_div_cancel_right₀ _ deg2rad_ne]
    have : (0 : ℚ) < (ni : ℚ) := by exact_mod_cast hni0
    positivity
  obtain ⟨r1, hp1, hr1sat, hr1cls, hr1yr, ⟨Y, hY, hYub, hr1ep⟩, hr1nd, hr1ndd,
    hr1bs, hr1el⟩ := parse1_canonical s h
  obtain ⟨r2, hp2, hr2sat, hr2incl, hr2node, hr2ecc, hr2argp, hr2mo, hr2nk,
    hr2rev⟩ := parse2_canonical s h
  have hsw : ⌊(s.epoch.second : ℚ) + (s.epoch.usec : ℚ) / 1000000⌋ =
      s.epoch.second := by
    rw [Int.floor_eq_iff]
    constructor
    · have : (0 : ℚ) ≤ (s.epoch.usec : ℚ) / 1000000 :=
        div_nonneg (by exact_mod_cast h.usec_lb) (by norm_num)
      linarith
    · push_cast
      have : (s.epoch.usec : ℚ) / 1000000 < 1 := by
        rw [div_lt_one (by norm_num)]
        exact_mod_cast h.usec_ub
      linarith
  have hfrac : ((s.epoch.second : ℚ) + (s.epoch.usec : ℚ) / 1000000 -
      (s.epoch.second : ℚ)) * 1000000 = (s.epoch.usec : ℚ) := by
    field_simp
    ring
  have hyear := h.year_eq
  have hylb := h.year_lb
  have hyub := h.year_ub
  have hdt : mkDatetime? s.epoch.year s.epoch.month s.epoch.day s.epoch.hour
      s.epoch.minute s.epoch.second s.epoch.usec = some s.epoch := by
    rw [mkDatetime?, if_pos ⟨by omega, by omega, h.mon_lb, h.mon_ub, h.day_lb,
      h.day_ub, h.hour_lb, h.hour_ub, h.min_lb, h.min_ub, h.sec_lb, h.sec_ub,
      h.usec_lb, h.usec_ub⟩]
  refine ⟨rv2twolineL1 s, rv2twolineL2 s,
    mkSatellite wc r2.satnum s.epoch (r1.bstar * ratPow10 r1.ibexp)
      (r2.inclo * deg2rad) (r2.nodeo * deg2rad) r2.ecco (r2.argpo * deg2rad)
      (r2.mo * deg2rad) (r2.no_kozai / xpdotp) (r1.ndot / (xpdotp * 1440))
      (r1.nddot * ratPow10 r1.nexp / (xpdotp * 1440 * 1440)) r1.classification
      r1.intldesg r1.elnum r2.revnum,
    by rw [rv2twoline, if_neg (not_le.mpr hpos)], ?_,
    hr2sat, hr1cls, rfl, h.year_eq.symm, h.epochdays_eq.symm, hr1bs, hr2incl,
    hr2node, hr2ecc, hr2argp, hr2mo, hr2nk, hr1nd, hr1ndd, hr1el, hr2rev⟩
  simp only [twoline2rv]
  rw [hp1, except_bind_ok, hr1sat, hp2, except_bind_ok]
  rw [hr1yr, hr1ep]
  rw [days2mdhms_inv s.epoch Y h.mon_lb h.mon_ub h.day_lb h.day_ub h.hour_lb
    h.hour_ub h.min_lb h.min_ub h.sec_lb h.sec_ub h.usec_lb h.usec_ub hY]
  dsimp only
  rw [hsw, hfrac, Int.floor_intCast, hdt]
  rfl

/-- Witness for the amended C2 at the concrete gridded Entity `sGrid`. -/
theorem claim_C2_witness :
    ∃ l1 l2 s', rv2twoline sGrid = some (l1, l2) ∧
      twoline2rv l1 l2 gc1 = .ok s' ∧
      s'.satnum = sGrid.satnum ∧ s'.classification = sGrid.classification ∧
      s'.epoch = sGrid.epoch ∧ s'.epochyr = sGrid.epochyr ∧
      s'.epochdays = sGrid.epochdays ∧ s'.bstar = sGrid.bstar ∧
      s'.inclo = sGrid.inclo ∧ s'.nodeo = sGrid.nodeo ∧ s'.ecco = sGrid.ecco ∧
      s'.argpo = sGrid.argpo ∧ s'.mo = sGrid.mo ∧ s'.no_kozai = sGrid.no_kozai ∧
      s'.ndot = sGrid.ndot ∧ s'.nddot = sGrid.nddot ∧ s'.elnum = sGrid.elnum ∧
      s'.revnum = sGrid.revnum :=
  claim_C2_theorem sGrid tleGrid_sGrid gc1
